import Mathlib

/-!
# Executive-summary generator: client-side job lifecycle

A shallow embedding of `src/frontend/src/App.jsx` (the React component `App`).

* The ten `useState` cells of the component form `AppState`.
* Every handler of the component is a function from the state its closure
  reads to the list of setter calls it performs (in source order) and the
  network requests it issues.  An `async` function is split at its `await`:
  the part before the `fetch` and the part that resumes on the reply.
* `World` adds what lives outside the state cells: the two `setInterval`
  timers created by the two `useEffect` blocks and the requests issued so far.
  `step` runs one event (user action, timer tick or network reply), applies the
  setter calls as one batch and then runs the effects the way React does after
  a committed render.
-/

namespace ExecSummary

/-! ## JavaScript values -/

/-- JSON-shaped JavaScript values: what `response.json()` can resolve to, plus
`undefined` for a missing property.  Numbers are the integer-valued ones
(progress percentages, counts). -/
inductive JsVal where
  | undefined
  | null
  | bool (b : Bool)
  | num (n : Int)
  | str (s : String)
  | arr (items : List JsVal)
  | obj (fields : List (String × JsVal))

mutual
/-- Decidable equality of values, by recursion over both arguments. -/
def JsVal.decEq : (a b : JsVal) → Decidable (a = b)
  | .undefined, .undefined => isTrue rfl
  | .null, .null => isTrue rfl
  | .bool a, .bool b =>
    if h : a = b then isTrue (by rw [h]) else isFalse (by intro e; cases e; exact h rfl)
  | .num a, .num b =>
    if h : a = b then isTrue (by rw [h]) else isFalse (by intro e; cases e; exact h rfl)
  | .str a, .str b =>
    if h : a = b then isTrue (by rw [h]) else isFalse (by intro e; cases e; exact h rfl)
  | .arr a, .arr b =>
    match JsVal.decEqList a b with
    | isTrue h => isTrue (by rw [h])
    | isFalse h => isFalse (by intro e; cases e; exact h rfl)
  | .obj a, .obj b =>
    match JsVal.decEqFields a b with
    | isTrue h => isTrue (by rw [h])
    | isFalse h => isFalse (by intro e; cases e; exact h rfl)
  | .undefined, .null => isFalse (by intro e; cases e)
  | .undefined, .bool _ => isFalse (by intro e; cases e)
  | .undefined, .num _ => isFalse (by intro e; cases e)
  | .undefined, .str _ => isFalse (by intro e; cases e)
  | .undefined, .arr _ => isFalse (by intro e; cases e)
  | .undefined, .obj _ => isFalse (by intro e; cases e)
  | .null, .undefined => isFalse (by intro e; cases e)
  | .null, .bool _ => isFalse (by intro e; cases e)
  | .null, .num _ => isFalse (by intro e; cases e)
  | .null, .str _ => isFalse (by intro e; cases e)
  | .null, .arr _ => isFalse (by intro e; cases e)
  | .null, .obj _ => isFalse (by intro e; cases e)
  | .bool _, .undefined => isFalse (by intro e; cases e)
  | .bool _, .null => isFalse (by intro e; cases e)
  | .bool _, .num _ => isFalse (by intro e; cases e)
  | .bool _, .str _ => isFalse (by intro e; cases e)
  | .bool _, .arr _ => isFalse (by intro e; cases e)
  | .bool _, .obj _ => isFalse (by intro e; cases e)
  | .num _, .undefined => isFalse (by intro e; cases e)
  | .num _, .null => isFalse (by intro e; cases e)
  | .num _, .bool _ => isFalse (by intro e; cases e)
  | .num _, .str _ => isFalse (by intro e; cases e)
  | .num _, .arr _ => isFalse (by intro e; cases e)
  | .num _, .obj _ => isFalse (by intro e; cases e)
  | .str _, .undefined => isFalse (by intro e; cases e)
  | .str _, .null => isFalse (by intro e; cases e)
  | .str _, .bool _ => isFalse (by intro e; cases e)
  | .str _, .num _ => isFalse (by intro e; cases e)
  | .str _, .arr _ => isFalse (by intro e; cases e)
  | .str _, .obj _ => isFalse (by intro e; cases e)
  | .arr _, .undefined => isFalse (by intro e; cases e)
  | .arr _, .null => isFalse (by intro e; cases e)
  | .arr _, .bool _ => isFalse (by intro e; cases e)
  | .arr _, .num _ => isFalse (by intro e; cases e)
  | .arr _, .str _ => isFalse (by intro e; cases e)
  | .arr _, .obj _ => isFalse (by intro e; cases e)
  | .obj _, .undefined => isFalse (by intro e; cases e)
  | .obj _, .null => isFalse (by intro e; cases e)
  | .obj _, .bool _ => isFalse (by intro e; cases e)
  | .obj _, .num _ => isFalse (by intro e; cases e)
  | .obj _, .str _ => isFalse (by intro e; cases e)
  | .obj _, .arr _ => isFalse (by intro e; cases e)
/-- Decidable equality of arrays of values. -/
def JsVal.decEqList : (a b : List JsVal) → Decidable (a = b)
  | [], [] => isTrue rfl
  | [], _ :: _ => isFalse (by intro e; cases e)
  | _ :: _, [] => isFalse (by intro e; cases e)
  | x :: xs, y :: ys =>
    match JsVal.decEq x y, JsVal.decEqList xs ys with
    | isTrue h1, isTrue h2 => isTrue (by rw [h1, h2])
    | isFalse h, _ => isFalse (by intro e; cases e; exact h rfl)
    | _, isFalse h => isFalse (by intro e; cases e; exact h rfl)
/-- Decidable equality of the field lists of objects. -/
def JsVal.decEqFields : (a b : List (String × JsVal)) → Decidable (a = b)
  | [], [] => isTrue rfl
  | [], _ :: _ => isFalse (by intro e; cases e)
  | _ :: _, [] => isFalse (by intro e; cases e)
  | (k, x) :: xs, (l, y) :: ys =>
    if hk : k = l then
      match JsVal.decEq x y, JsVal.decEqFields xs ys with
      | isTrue h1, isTrue h2 => isTrue (by rw [hk, h1, h2])
      | isFalse h, _ => isFalse (by intro e; cases e; exact h rfl)
      | _, isFalse h => isFalse (by intro e; cases e; exact h rfl)
    else isFalse (by intro e; cases e; exact hk rfl)
end

instance : DecidableEq JsVal := JsVal.decEq

instance : Inhabited JsVal := ⟨JsVal.undefined⟩

/-- JavaScript truthiness (`if (v)`, `!v`, `v && ...`): `undefined`, `null`,
`false`, `0` and the empty string are falsy, everything else is truthy. -/
def JsVal.truthy : JsVal → Bool
  | .undefined => false
  | .null => false
  | .bool b => b
  | .num n => n != 0
  | .str s => s != ""
  | .arr _ => true
  | .obj _ => true

/-- Property read `v.k` for the keys the component reads (`progress`,
`message`, `stage`, `results`, `fileId`).  Reading a property of `null` or
`undefined` throws a `TypeError` (`none`); a key an object lacks, and any such
key of a primitive or an array, reads as `undefined`.  Objects are held with
distinct keys, as `JSON.parse` produces them. -/
def JsVal.get : JsVal → String → Option JsVal
  | .undefined, _ => none
  | .null, _ => none
  | .obj fields, k => some ((fields.lookup k).getD .undefined)
  | _, _ => some .undefined

/-- The comparison `Object.is(old, new)` React uses to decide whether a setter
call changes a state cell, where `new` is a value just produced (a literal or a
freshly parsed reply): primitives compare by value, a fresh array or object is
never identical to the value already held. -/
def JsVal.sameValue : JsVal → JsVal → Bool
  | _, .arr _ => false
  | _, .obj _ => false
  | old, new => old == new

/-! ## State of the component -/

/-- A browser `File`, with the three fields the component reads. -/
structure File where
  name : String
  type : String
  size : Nat
deriving DecidableEq, Repr

/-- The value held in the `selectedFile` cell: `null` (the initial value, and
what `handleReset` and a rejected choice in the file picker store), `undefined`
(the `files[0]` of an empty file list, which `handleDrop` and `handleFileChange`
store as it is), or a `File`. -/
inductive FileCell where
  | null
  | undefined
  | file (f : File)
deriving DecidableEq, Repr

/-- The file the cell holds, if it holds one. -/
def FileCell.file? : FileCell → Option File
  | .file f => some f
  | _ => none

/-- The value of `files[0]` for a file list whose first entry is `file`, absent
when the list is empty. -/
def firstFile (file : Option File) : FileCell :=
  match file with
  | some f => .file f
  | none => .undefined

/-- The value held in the `serverStatus` cell. -/
structure ServerStatus where
  status : String
  lastChecked : Option String
deriving DecidableEq, Repr

/-- The ten `useState` cells of `App` (lines 31-40). -/
structure AppState where
  selectedFile : FileCell
  fileId : JsVal
  status : JsVal
  progress : JsVal
  report : JsVal
  error : JsVal
  isDragging : Bool
  isLoading : Bool
  darkMode : Bool
  serverStatus : ServerStatus
deriving DecidableEq

/-- The initial values passed to `useState`. -/
def AppState.init : AppState where
  selectedFile := .null
  fileId := .null
  status := .null
  progress := .num 0
  report := .null
  error := .null
  isDragging := false
  isLoading := false
  darkMode := false
  serverStatus := { status := "checking", lastChecked := none }

/-- A call of one of the ten state setters. -/
inductive SetCall where
  | setSelectedFile (v : FileCell)
  | setFileId (v : JsVal)
  | setStatus (v : JsVal)
  | setProgress (v : JsVal)
  | setReport (v : JsVal)
  | setError (v : JsVal)
  | setIsDragging (b : Bool)
  | setIsLoading (b : Bool)
  | setDarkMode (b : Bool)
  | setServerStatus (v : ServerStatus)
deriving DecidableEq

/-- The state after one setter call. -/
def SetCall.apply (s : AppState) : SetCall → AppState
  | .setSelectedFile v => { s with selectedFile := v }
  | .setFileId v => { s with fileId := v }
  | .setStatus v => { s with status := v }
  | .setProgress v => { s with progress := v }
  | .setReport v => { s with report := v }
  | .setError v => { s with error := v }
  | .setIsDragging b => { s with isDragging := b }
  | .setIsLoading b => { s with isLoading := b }
  | .setDarkMode b => { s with darkMode := b }
  | .setServerStatus v => { s with serverStatus := v }

/-- Whether a setter call stores a value that is not `Object.is`-identical to
the one the committed state `s` holds.  A `File` taken from an input or drop
event and the object literal passed to `setServerStatus` are fresh objects;
`null` and `undefined` are identical to themselves only. -/
def SetCall.changes (s : AppState) : SetCall → Bool
  | .setSelectedFile v =>
    match s.selectedFile, v with
    | .null, .null => false
    | .undefined, .undefined => false
    | _, _ => true
  | .setFileId v => !(s.fileId.sameValue v)
  | .setStatus v => !(s.status.sameValue v)
  | .setProgress v => !(s.progress.sameValue v)
  | .setReport v => !(s.report.sameValue v)
  | .setError v => !(s.error.sameValue v)
  | .setIsDragging b => s.isDragging != b
  | .setIsLoading b => s.isLoading != b
  | .setDarkMode b => s.darkMode != b
  | .setServerStatus _ => true

/-- The state after a batch of setter calls, applied in order. -/
def applySets (s : AppState) (sets : List SetCall) : AppState :=
  sets.foldl SetCall.apply s

/-- Whether the call is `setFileId`. -/
def SetCall.isFileId : SetCall → Bool
  | .setFileId _ => true
  | _ => false

/-! ## Network requests and replies -/

/-- The four `fetch` calls of the component. -/
inductive Request where
  /-- The liveness probe, GET /api/test (line 93). -/
  | test
  /-- The upload, POST /api/upload with the file as form field (line 145). -/
  | upload (file : File)
  /-- The status poll, GET /api/status/ followed by the job id (line 197). -/
  | status (fileId : JsVal)
  /-- The report download, GET /api/download/ followed by the job id (line 225). -/
  | download (fileId : JsVal)
deriving DecidableEq

/-- How a `fetch` ends: the promise rejects (network error), or it resolves to
a response with an HTTP status whose body `response.json()` either parses
(`some`) or rejects (`none`). -/
inductive Reply where
  | networkError
  | http (status : Nat) (json : Option JsVal)
deriving DecidableEq

/-- The getter `response.ok`: the status is in the range 200-299. -/
def httpOk (status : Nat) : Bool :=
  200 ≤ status && status ≤ 299

/-- What one run of a handler does: its setter calls, in source order, and the
requests it issues. -/
structure Actions where
  sets : List SetCall := []
  reqs : List Request := []
deriving DecidableEq

/-! ## The handlers of `App` -/

/-- The test `file && file.type !== "application/pdf"` (lines 67 and 121). -/
def wrongType (file : Option File) : Bool :=
  match file with
  | some f => f.type != "application/pdf"
  | none => false

/-- Lines 44-47: `handleDrag` touches no state. -/
def handleDrag : Actions := {}

/-- Lines 49-53. -/
def handleDragIn : Actions :=
  { sets := [.setIsDragging true] }

/-- Lines 55-59. -/
def handleDragOut : Actions :=
  { sets := [.setIsDragging false] }

/-- Lines 61-73: `file` is `e.dataTransfer.files[0]`, absent when the drop
carries no file. -/
def handleDrop (file : Option File) : Actions :=
  if wrongType file then
    { sets := [.setIsDragging false, .setError (.str "Please select a valid PDF file")] }
  else
    { sets := [.setIsDragging false, .setError .null, .setSelectedFile (firstFile file)] }

/-- Lines 75-88 (the reset of the DOM input is not part of the state). -/
def handleReset : Actions :=
  { sets := [.setSelectedFile .null, .setFileId .null, .setStatus .null,
             .setProgress (.num 0), .setReport .null, .setError .null,
             .setIsLoading false] }

/-- Lines 91-93: `checkServerStatus` up to its `await fetch`. -/
def checkServerStatus : Actions :=
  { reqs := [.test] }

/-- Lines 94-104: `checkServerStatus` from the reply on; `now` is the string
`new Date().toLocaleTimeString()` evaluates to. -/
def checkServerStatus_resume (r : Reply) (now : String) : Actions :=
  match r with
  | .http status _ =>
    { sets := [.setServerStatus
        { status := if status = 200 then "online" else "offline", lastChecked := some now }] }
  | .networkError =>
    { sets := [.setServerStatus { status := "offline", lastChecked := some now }] }

/-- Lines 119-128: `file` is `event.target.files[0]`. -/
def handleFileChange (file : Option File) : Actions :=
  if wrongType file then
    { sets := [.setError (.str "Please select a valid PDF file"), .setSelectedFile .null] }
  else
    { sets := [.setError .null, .setSelectedFile (firstFile file)] }

/-- Lines 130-148: `handleUpload` up to its `await fetch`, reading `selectedFile`
from the state of the render that created it. -/
def handleUpload (s : AppState) : Actions :=
  match s.selectedFile with
  | .null | .undefined => { sets := [.setError (.str "Please select a PDF file first")] }
  | .file file =>
    { sets := [.setIsLoading true, .setError .null, .setProgress (.num 0), .setReport .null],
      reqs := [.upload file] }

/-- Lines 144-157, the `try` block of `handleUpload` after the fetch: the value
of `data.fileId` when the block reaches `setFileId`, `none` when it throws (the
fetch rejects, `response.ok` is false, the body does not parse, or `data` is
`null`). -/
def handleUpload_try (r : Reply) : Option JsVal :=
  match r with
  | .networkError => none
  | .http status json =>
    if httpOk status then
      match json with
      | some data => data.get "fileId"
      | none => none
    else none

/-- Lines 150-161: `handleUpload` from the reply on. -/
def handleUpload_resume (r : Reply) : Actions :=
  match handleUpload_try r with
  | some id => { sets := [.setFileId id, .setStatus (.str "Processing started")] }
  | none =>
    { sets := [.setError (.str "Failed to upload file. Please try again."),
               .setIsLoading false] }

/-- Line 197: `checkStatus` up to its `await fetch`; `fileId` is the value the
polling effect closed over. -/
def checkStatus (fileId : JsVal) : Actions :=
  { reqs := [.status fileId] }

/-- Lines 198-209, the `try` block of `checkStatus` on the parsed body.  The
only statement that can throw is the first property read (`statusData` is
`null`), which precedes every setter call, so the block either performs all of
its setter calls or none. -/
def checkStatus_try (statusData : JsVal) : Option (List SetCall) := do
  let progress ← statusData.get "progress"
  let message ← statusData.get "message"
  let stage ← statusData.get "stage"
  if stage = .str "completed" then
    let results ← statusData.get "results"
    pure [.setProgress progress, .setStatus message, .setReport results, .setIsLoading false]
  else if stage = .str "failed" then
    pure [.setProgress progress, .setStatus message, .setError message, .setIsLoading false]
  else
    pure [.setProgress progress, .setStatus message]

/-- The setter calls of the `catch` block of `checkStatus` (lines 210-213). -/
def checkStatus_catch : List SetCall :=
  [.setError (.str "Failed to check status"), .setIsLoading false]

/-- Lines 196-213: `checkStatus` from the reply on.  The status code is not
read: any response whose body parses is processed. -/
def checkStatus_resume (r : Reply) : Actions :=
  match r with
  | .networkError => { sets := checkStatus_catch }
  | .http _ none => { sets := checkStatus_catch }
  | .http _ (some statusData) =>
    match checkStatus_try statusData with
    | some sets => { sets := sets }
    | none => { sets := checkStatus_catch }

/-- Lines 221-225: `handleDownloadResults` up to its `await fetch`. -/
def handleDownloadResults (s : AppState) : Actions :=
  if s.fileId.truthy then { reqs := [.download s.fileId] } else {}

/-- Lines 226-241: `handleDownloadResults` from the reply on (saving the blob
touches no state). -/
def handleDownloadResults_resume (r : Reply) : Actions :=
  match r with
  | .http status _ =>
    if httpOk status then {} else { sets := [.setError (.str "Failed to download report")] }
  | .networkError => { sets := [.setError (.str "Failed to download report")] }

/-- Line 303: the dark-mode button. -/
def toggleDarkMode (s : AppState) : Actions :=
  { sets := [.setDarkMode (!s.darkMode)] }

/-- The continuation that runs when the reply to a request arrives. -/
def resume (req : Request) (r : Reply) (now : String) : Actions :=
  match req with
  | .test => checkServerStatus_resume r now
  | .upload _ => handleUpload_resume r
  | .status _ => checkStatus_resume r
  | .download _ => handleDownloadResults_resume r

/-! ## The component with its effects -/

/-- The mounted component: the state cells, the interval created by the polling
effect (lines 192-218, holding the `fileId` its `checkStatus` closed over), the
interval created by the health effect (lines 108-117), every request issued so
far in order, and the requests not yet answered. -/
structure World where
  app : AppState
  pollInterval : Option JsVal
  healthInterval : Bool
  log : List Request
  inflight : List Request
deriving DecidableEq

/-- Issue requests: they are logged and await their reply. -/
def World.send (w : World) (reqs : List Request) : World :=
  { w with log := w.log ++ reqs, inflight := w.inflight ++ reqs }

/-- The health effect (lines 108-117) re-running after a render: its cleanup
clears the previous interval; the body returns at once while a report is held,
otherwise it calls `checkServerStatus` and creates a new interval. -/
def healthEffect (w : World) : World :=
  if w.app.report.truthy then { w with healthInterval := false }
  else { w.send checkServerStatus.reqs with healthInterval := true }

/-- The polling effect (lines 192-218) re-running after a render: its cleanup
clears the previous interval; the body returns at once when `fileId` is falsy,
otherwise it creates an interval whose `checkStatus` closes over `fileId`. -/
def pollEffect (w : World) : World :=
  { w with pollInterval := if w.app.fileId.truthy then some w.app.fileId else none }

/-- Run a handler and commit: the setter calls are applied as one batch and the
requests are issued.  If some setter stored a changed value the component
re-renders and its effects run in source order: the health effect every time
(its dependency `checkServerStatus` is a new function on each render), the
polling effect when `fileId` changed.  The setter calls of one handler run, or
of one continuation, are taken as one batch (the automatic batching of React 18);
every handler sets a cell at most once per batch, so a call changes the state
iff it changes the committed state. -/
def commit (w : World) (a : Actions) : World :=
  let w1 := { w.send a.reqs with app := applySets w.app a.sets }
  if a.sets.any (fun c => c.changes w.app) then
    let w2 := healthEffect w1
    if a.sets.any (fun c => c.isFileId && c.changes w.app) then pollEffect w2 else w2
  else w1

/-- The component right after mounting: both effects have run once on the
initial state, so the first probe is out and the health interval is live. -/
def World.init : World :=
  pollEffect (healthEffect
    { app := AppState.init, pollInterval := none, healthInterval := false,
      log := [], inflight := [] })

/-- What can happen to the mounted component. -/
inductive Event where
  | dragEnter
  | dragLeave
  | dragOver
  | drop (file : Option File)
  | fileChange (file : Option File)
  | clickReset
  | clickUpload
  | clickDownload
  | clickDarkMode
  /-- The 1-second interval of the polling effect fires. -/
  | pollTick
  /-- The 30-second interval of the health effect fires. -/
  | healthTick
  /-- The reply to the request `req` arrives at local time `now`. -/
  | reply (req : Request) (r : Reply) (now : String)
deriving DecidableEq

/-- One event.  The buttons obey their `disabled` attribute (Reset: line 438,
Upload: line 446, Download: lines 466 and 473); an interval fires only while it
exists; a reply is delivered only for a request that awaits one. -/
def step (e : Event) (w : World) : World :=
  match e with
  | .dragEnter => commit w handleDragIn
  | .dragLeave => commit w handleDragOut
  | .dragOver => commit w handleDrag
  | .drop file => commit w (handleDrop file)
  | .fileChange file => commit w (handleFileChange file)
  | .clickReset => if w.app.isLoading then w else commit w handleReset
  | .clickUpload =>
    if w.app.selectedFile.file?.isNone || w.app.isLoading then w
    else commit w (handleUpload w.app)
  | .clickDownload =>
    if w.app.report.truthy && w.app.fileId.truthy then commit w (handleDownloadResults w.app)
    else w
  | .clickDarkMode => commit w (toggleDarkMode w.app)
  | .pollTick =>
    match w.pollInterval with
    | some fileId => commit w (checkStatus fileId)
    | none => w
  | .healthTick => if w.healthInterval then commit w checkServerStatus else w
  | .reply req r now =>
    if req ∈ w.inflight then commit { w with inflight := w.inflight.erase req } (resume req r now)
    else w

/-- A sequence of events, in order. -/
def run (w : World) (es : List Event) : World :=
  es.foldl (fun acc e => step e acc) w

/-- The status requests in a request log. -/
def statusRequests (log : List Request) : List Request :=
  log.filter (fun r => match r with | .status _ => true | _ => false)

/-- The requests of a log other than the liveness probes of the health monitor. -/
def jobRequests (log : List Request) : List Request :=
  log.filter (fun r => r != .test)

/-- The progress shown after each of a sequence of poll replies, starting from
state `s`. -/
def displayedProgress (s : AppState) : List Reply → List JsVal
  | [] => []
  | r :: rs =>
    let s1 := applySets s (checkStatus_resume r).sets
    s1.progress :: displayedProgress s1 rs

/-- The progress a reply carries: `statusData.progress` of a parsed body. -/
def Reply.progress : Reply → Option JsVal
  | .http _ (some statusData) => statusData.get "progress"
  | _ => none

/-- Order of two displayed progress values: both are numbers and the first is
at most the second. -/
def progressLE (a b : JsVal) : Bool :=
  match a, b with
  | .num m, .num n => m ≤ n
  | _, _ => false

/-- A list of displayed progress values is non-decreasing: each is a number at
most the next. -/
def nonDecreasing : List JsVal → Bool
  | [] => true
  | [_] => true
  | a :: b :: rest => progressLE a b && nonDecreasing (b :: rest)

/-! ## Sample inputs -/

/-- A small PDF file. -/
def samplePdf : File := { name := "audit.pdf", type := "application/pdf", size := 2048 }

/-- A text file. -/
def sampleTxt : File := { name := "notes.txt", type := "text/plain", size := 120 }

/-- A PDF of 20 MB, twice the advertised limit. -/
def bigPdf : File := { name := "big.pdf", type := "application/pdf", size := 20971520 }

/-- An item of the `Findings` section, with the three fields `Findings.jsx`
reads of each item (lines 18-20, 73-76 and 89). -/
def sampleFinding : JsVal :=
  .obj [("issue", .str "Weak password policy"), ("impact", .str "High"),
        ("details", .str "Passwords of four characters are accepted")]

/-- A report payload: a summary text and one finding. -/
def sampleResults : JsVal :=
  .obj [("ExecutiveSummary", .str "One finding of high impact"),
        ("Findings", .arr [sampleFinding])]

/-- The body of a status reply. -/
def statusBody (stage : String) (progress : Int) (message : JsVal) : JsVal :=
  .obj [("stage", .str stage), ("progress", .num progress), ("message", message)]

/-- The body of a completed status reply carrying `results`. -/
def completedBody (progress : JsVal) (message results : JsVal) : JsVal :=
  .obj [("stage", .str "completed"), ("progress", progress), ("message", message),
        ("results", results)]

/-- A successful upload reply naming the job `id`. -/
def uploadOk (id : JsVal) : Reply :=
  .http 200 (some (.obj [("fileId", id)]))

/-- A PDF is chosen, uploaded and accepted as job `job-1`; the first poll
answers that the job is completed with `sampleResults`. -/
def completedTrace : List Event :=
  [.fileChange (some samplePdf), .clickUpload,
   .reply (.upload samplePdf) (uploadOk (.str "job-1")) "10:00:00",
   .pollTick,
   .reply (.status (.str "job-1"))
     (.http 200 (some (completedBody (.num 100) (.str "Done") sampleResults))) "10:00:01"]

/-- The same, but the first poll answers that the job failed. -/
def failedTrace : List Event :=
  [.fileChange (some samplePdf), .clickUpload,
   .reply (.upload samplePdf) (uploadOk (.str "job-1")) "10:00:00",
   .pollTick,
   .reply (.status (.str "job-1"))
     (.http 200 (some (statusBody "failed" 30 (.str "corrupt file")))) "10:00:01"]


/-- Three poll replies with progress 10, 40 and 40. -/
def sampleReplies : List Reply :=
  [.http 200 (some (statusBody "processing" 10 (.str "Reading"))),
   .http 200 (some (statusBody "processing" 40 (.str "Analyzing"))),
   .http 200 (some (statusBody "processing" 40 (.str "Analyzing")))]

/-- Scenario A: the PDF `f` is chosen, uploaded and accepted as job `id`; the
first poll answers processing at 40, the second completed at 100 with results
`R`. -/
def scenarioA (f : File) (id : String) (m1 m2 R : JsVal) : List Event :=
  [.fileChange (some f), .clickUpload,
   .reply (.upload f) (uploadOk (.str id)) "10:00:00",
   .pollTick,
   .reply (.status (.str id)) (.http 200 (some (statusBody "processing" 40 m1))) "10:00:01",
   .pollTick,
   .reply (.status (.str id)) (.http 200 (some (completedBody (.num 100) m2 R))) "10:00:02"]

/-- Scenario B: the PDF `f` is chosen, uploaded and accepted as job `id`; the
first poll answers failed with message `m`. -/
def scenarioB (f : File) (id : String) (p : Int) (m : JsVal) : List Event :=
  [.fileChange (some f), .clickUpload,
   .reply (.upload f) (uploadOk (.str id)) "10:00:00",
   .pollTick,
   .reply (.status (.str id)) (.http 200 (some (statusBody "failed" p m))) "10:00:01"]

/-- A PDF is chosen, uploaded and accepted as job `job-1`; the first poll is
out and not yet answered. -/
def pollingTrace : List Event :=
  [.fileChange (some samplePdf), .clickUpload,
   .reply (.upload samplePdf) (uploadOk (.str "job-1")) "10:00:00",
   .pollTick]

/-- Another PDF, for a second submission. -/
def secondPdf : File := { name := "second.pdf", type := "application/pdf", size := 4096 }

/-- The freshly mounted component after the sample PDF was chosen. -/
def selectedWorld : World := run World.init [.fileChange (some samplePdf)]

/-- Job `job-1` completed and its report is shown; then a second PDF is chosen
and submitted, without a reset in between. -/
def resubmitTrace : List Event :=
  completedTrace ++ [.fileChange (some secondPdf), .clickUpload]

/-! ## Health monitor: observations -/

/-- The liveness reply is a response whose status is 200 (`response.status === 200`). -/
def Reply.is200 : Reply → Bool
  | .http 200 _ => true
  | _ => false

/-- The value of `serverStatus` after each of a sequence of probe completions,
starting from state `s`; each completion is a reply with the local time at which
it arrives. -/
def displayedHealth (s : AppState) : List (Reply × String) → List ServerStatus
  | [] => []
  | p :: ps =>
    let s1 := applySets s (checkServerStatus_resume p.1 p.2).sets
    s1.serverStatus :: displayedHealth s1 ps

/-- The number of liveness probes in a request log. -/
def probeCount (log : List Request) : Nat :=
  log.count .test

/-- Probe outcomes that alternate success and failure, half a minute apart. -/
def alternatingProbes : List (Reply × String) :=
  [(.http 200 none, "10:00:00"), (.networkError, "10:00:30"),
   (.http 200 none, "10:01:00"), (.http 503 none, "10:01:30")]

/-! ## Binary64 arithmetic

The zoom level is a JavaScript number.  A finite binary64 value is held as the
rational it denotes; an operation is the exact operation followed by rounding to
the nearest binary64 value, ties to even.  Magnitudes beyond the largest finite
binary64 value (overflow to infinity) are outside this model; the zoom stays far
below them. -/

/-- The integer nearest to `q`, the even one of the two when `q` lies halfway. -/
def roundHalfEven (q : ℚ) : ℤ :=
  if q - ⌊q⌋ < 1 / 2 then ⌊q⌋
  else if 1 / 2 < q - ⌊q⌋ then ⌊q⌋ + 1
  else if ⌊q⌋ % 2 = 0 then ⌊q⌋ else ⌊q⌋ + 1

/-- The binary exponent of `x`: the greatest `e` with `2^e <= |x|`, and -1022
(the exponent of the subnormal range) below that. -/
def binade (x : ℚ) : ℤ :=
  max (Int.log 2 |x|) (-1022)

/-- The spacing of the binary64 values around `x`: 52 fraction bits below the
binary exponent. -/
def ulp (x : ℚ) : ℚ :=
  2 ^ (binade x - 52)

/-- The binary64 value nearest to `x`, ties to even. -/
def roundDouble (x : ℚ) : ℚ :=
  roundHalfEven (x / ulp x) * ulp x

/-! ## The image viewer (`ImageModal.jsx` with the hook `useImageZoom.jsx`) -/

/-- The sum `a + b` of two binary64 values. -/
def jsAdd (a b : ℚ) : ℚ :=
  roundDouble (a + b)

/-- The difference `a - b` of two binary64 values. -/
def jsSub (a b : ℚ) : ℚ :=
  roundDouble (a - b)

/-- The value of the literal `0.1`: the binary64 value nearest to one tenth. -/
def jsTenth : ℚ :=
  3602879701896397 / 36028797018963968

/-- A pair of pixel coordinates.  Pointer coordinates and the offsets computed
from them are integers, on which binary64 arithmetic is exact. -/
structure Point where
  x : Int
  y : Int
deriving DecidableEq, Repr

/-- The mounted `ImageModal` with its `useImageZoom` hook.

* `zoomLevel`, `translatePos`, `isDragging` are the state cells of the hook
  (lines 4-6), `isFullScreen`, `rotation`, `errorMessage` those of the modal
  (lines 66-68).
* `dragStartRef` and `currentTranslateRef` are the two refs (lines 8-9).
* `animationFrameId` is the `let` of line 10, a variable of the render whose
  handlers are attached: every render starts with a new one, set to `null`.
* `frameCallbacks` are the ids of the callbacks passed to
  `requestAnimationFrame` that were neither run nor cancelled, in request order;
  `nextFrameId` is the next id the browser hands out (ids are positive).
* `fullscreenElement` tells whether `document.fullscreenElement` is set;
  `fullscreenCalls` are the calls of `toggleFullScreen` that await the browser,
  each with the `isFullScreen` its closure holds and whether it asked to enter.
* `downloads` counts the calls of `handleDownload` that await their fetch.
* `mounted` is false once `onClose` made the parent unmount the modal.
* `frameCommits` counts the calls of `setTranslatePos` made by frame callbacks. -/
structure Viewer where
  zoomLevel : ℚ
  translatePos : Point
  isDragging : Bool
  isFullScreen : Bool
  rotation : Nat
  errorMessage : String
  dragStartRef : Point
  currentTranslateRef : Point
  animationFrameId : Option Nat
  frameCallbacks : List Nat
  nextFrameId : Nat
  fullscreenElement : Bool
  fullscreenCalls : List (Bool × Bool)
  downloads : Nat
  mounted : Bool
  frameCommits : Nat
deriving DecidableEq

/-- The modal right after it is opened on an image. -/
def Viewer.init : Viewer where
  zoomLevel := 1
  translatePos := ⟨0, 0⟩
  isDragging := false
  isFullScreen := false
  rotation := 0
  errorMessage := ""
  dragStartRef := ⟨0, 0⟩
  currentTranslateRef := ⟨0, 0⟩
  animationFrameId := none
  frameCallbacks := []
  nextFrameId := 1
  fullscreenElement := false
  fullscreenCalls := []
  downloads := 0
  mounted := true
  frameCommits := 0

/-- A render of the modal: the hook body runs again, so the handlers attached
from now on share a new `animationFrameId`, initialised to `null`. -/
def Viewer.render (v : Viewer) : Viewer :=
  { v with animationFrameId := none }

/-- Whether two states hold the same values in the six state cells. -/
def Viewer.sameCells (a b : Viewer) : Bool :=
  a.isDragging == b.isDragging && a.isFullScreen == b.isFullScreen &&
  a.rotation == b.rotation && a.errorMessage == b.errorMessage &&
  a.translatePos == b.translatePos && a.zoomLevel == b.zoomLevel

/-- After a handler ran: the modal renders again if a state cell changed.
`fresh` tells that the handler passed a new object to `setTranslatePos`, which
changes the cell whatever the coordinates are. -/
def settle (fresh : Bool) (old new : Viewer) : Viewer :=
  if !fresh && old.sameCells new then new else new.render

/-- Line 12 of the hook: `setZoomLevel((prev) => Math.min(prev + 0.1, 3))`. -/
def handleZoomIn (v : Viewer) : Viewer :=
  { v with zoomLevel := min (jsAdd v.zoomLevel jsTenth) 3 }

/-- Line 13 of the hook: `setZoomLevel((prev) => Math.max(prev - 0.1, 1))`. -/
def handleZoomOut (v : Viewer) : Viewer :=
  { v with zoomLevel := max (jsSub v.zoomLevel jsTenth) 1 }

/-- Lines 14-17 of the hook. -/
def resetZoom (v : Viewer) : Viewer :=
  { v with zoomLevel := 1, translatePos := ⟨0, 0⟩ }

/-- Lines 19-25 of the hook; `x`, `y` are `e.clientX`, `e.clientY`. -/
def startDragging (x y : Int) (v : Viewer) : Viewer :=
  { v with isDragging := true,
           dragStartRef := ⟨x - v.currentTranslateRef.x, y - v.currentTranslateRef.y⟩ }

/-- Lines 27-33 of the hook: the pending callback is cancelled only if the
`animationFrameId` of this render holds its id. -/
def stopDragging (v : Viewer) : Viewer :=
  match v.animationFrameId with
  | some id =>
    { v with isDragging := false, frameCallbacks := v.frameCallbacks.erase id,
             animationFrameId := none }
  | none => { v with isDragging := false }

/-- Lines 35-52 of the hook, up to the request of the frame callback. -/
def handleDragging (x y : Int) (v : Viewer) : Viewer :=
  if !v.isDragging then v
  else
    let v1 := { v with currentTranslateRef := ⟨x - v.dragStartRef.x, y - v.dragStartRef.y⟩ }
    match v1.animationFrameId with
    | none =>
      { v1 with animationFrameId := some v1.nextFrameId,
                frameCallbacks := v1.frameCallbacks ++ [v1.nextFrameId],
                nextFrameId := v1.nextFrameId + 1 }
    | some _ => v1

/-- Lines 44-50 of the hook: the callback with request id `id` runs.  Its
assignment `animationFrameId = null` writes the variable of the render that
requested it, which is the current one only if that still holds `id`. -/
def frameCallback (v : Viewer) (id : Nat) : Viewer :=
  let v1 := { v with translatePos := v.currentTranslateRef, frameCommits := v.frameCommits + 1 }
  if v1.animationFrameId = some id then { v1 with animationFrameId := none } else v1

/-- An animation frame: the browser runs the pending callbacks in request
order; the modal renders again if any of them ran. -/
def runFrame (v : Viewer) : Viewer :=
  settle (!v.frameCallbacks.isEmpty) v
    (v.frameCallbacks.foldl frameCallback { v with frameCallbacks := [] })

/-- Line 87 of the modal: `setRotation((prev) => (prev + 90) % 360)`. -/
def handleRotate (v : Viewer) : Viewer :=
  { v with rotation := (v.rotation + 90) % 360 }

/-- Lines 74-80 of the modal: `toggleFullScreen` up to its `await`, in a closure
that holds `captured` as `isFullScreen`. -/
def toggleFullScreen (captured : Bool) (v : Viewer) : Viewer :=
  { v with fullscreenCalls := v.fullscreenCalls ++ [(captured, !v.fullscreenElement)] }

/-- Lines 81-84 of the modal: the oldest pending `toggleFullScreen` resumes; the
browser granted the request (`ok`) or rejected it. -/
def toggleFullScreen_resume (ok : Bool) (v : Viewer) : Viewer :=
  match v.fullscreenCalls with
  | [] => v
  | (captured, entering) :: rest =>
    if ok then
      { v with fullscreenCalls := rest, fullscreenElement := entering,
               isFullScreen := !captured }
    else
      { v with fullscreenCalls := rest,
               errorMessage := "Fullscreen mode is not supported in your browser" }

/-- Lines 89-91 of the modal: `handleDownload` up to its `await fetch`. -/
def handleDownload (v : Viewer) : Viewer :=
  { v with downloads := v.downloads + 1 }

/-- Lines 92-103 of the modal: a pending `handleDownload` resumes (saving the
blob touches no state). -/
def handleDownload_resume (ok : Bool) (v : Viewer) : Viewer :=
  if v.downloads = 0 then v
  else if ok then { v with downloads := v.downloads - 1 }
  else { v with downloads := v.downloads - 1, errorMessage := "Failed to download image" }

/-- The prop `onClose` of the modal (`ImageSection.jsx` line 36): the parent
drops the selected image and the modal unmounts. -/
def onClose (v : Viewer) : Viewer :=
  { v with mounted := false }

/-- Lines 107-130 of the modal.  The listener is registered once, by an effect
with an empty dependency list (lines 132-135), so it is the `handleKeyPress` of
the first render, whose `toggleFullScreen` holds the initial `isFullScreen`. -/
def handleKeyPress (key : String) (v : Viewer) : Viewer :=
  if key = "Escape" then onClose v
  else if key = "+" then handleZoomIn v
  else if key = "-" then handleZoomOut v
  else if key = "0" then resetZoom v
  else if key = "r" then handleRotate v
  else if key = "f" then toggleFullScreen false v
  else v

/-- The timer of `CustomAlert` (lines 6-10 and 139 of the modal) fires: the
alert, shown while `errorMessage` is not empty, is dismissed. -/
def dismissAlert (v : Viewer) : Viewer :=
  if v.errorMessage = "" then v else { v with errorMessage := "" }

/-- What can happen to the open modal. -/
inductive ViewerEvent where
  | mouseDown (x y : Int)
  | mouseUp
  | mouseMove (x y : Int)
  /-- The browser reaches an animation frame. -/
  | frame
  | clickZoomIn
  | clickZoomOut
  | clickRotate
  | clickFullScreen
  | clickDownload
  | clickClose
  | keyDown (key : String)
  /-- The browser settles the oldest pending fullscreen request. -/
  | fullscreenSettled (ok : Bool)
  /-- The fetch of a pending download settles. -/
  | downloadSettled (ok : Bool)
  /-- The 3-second timer of the alert fires. -/
  | alertTimeout
  /-- The parent renders the modal again. -/
  | parentRender
deriving DecidableEq

/-- One event on the modal.  Nothing reaches an unmounted modal.  The handlers
of the buttons and of the image area are those of the current render; the key
`0` runs `resetZoom`, which passes a new object to `setTranslatePos`. -/
def stepViewer (e : ViewerEvent) (v : Viewer) : Viewer :=
  if !v.mounted then v
  else
    match e with
    | .mouseDown x y => settle false v (startDragging x y v)
    | .mouseUp => settle false v (stopDragging v)
    | .mouseMove x y => settle false v (handleDragging x y v)
    | .frame => runFrame v
    | .clickZoomIn => settle false v (handleZoomIn v)
    | .clickZoomOut => settle false v (handleZoomOut v)
    | .clickRotate => settle false v (handleRotate v)
    | .clickFullScreen => settle false v (toggleFullScreen v.isFullScreen v)
    | .clickDownload => settle false v (handleDownload v)
    | .clickClose => onClose v
    | .keyDown key => settle (key = "0") v (handleKeyPress key v)
    | .fullscreenSettled ok => settle false v (toggleFullScreen_resume ok v)
    | .downloadSettled ok => settle false v (handleDownload_resume ok v)
    | .alertTimeout => settle false v (dismissAlert v)
    | .parentRender => v.render

/-- A sequence of events on the modal, in order. -/
def runViewer (v : Viewer) (es : List ViewerEvent) : Viewer :=
  es.foldl (fun acc e => stepViewer e acc) v

/-- The freshly opened viewer after the pointer went down at the origin. -/
def draggingViewer : Viewer :=
  runViewer Viewer.init [.mouseDown 0 0]

/-- Two pointer positions. -/
def sampleMoves : List (Int × Int) :=
  [(10, 5), (20, 10)]

/-- A third pointer position. -/
def lastMove : Int × Int :=
  (30, 15)

/-- The open viewer with a fullscreen request of the button awaiting the browser. -/
def fullscreenPending : Viewer :=
  runViewer Viewer.init [.clickFullScreen]

/-! ## Report Materializer (`App.jsx` lines 181-189 and 466-533) -/

/-- Lines 181-189. -/
def orderedSections : List String :=
  ["ExecutiveSummary", "Introduction", "Findings", "Results", "Recommendations",
   "Conclusion", "Metadata"]

/-- Line 483: the read `report[sectionKey]`, on the truthy `report` the results
card is rendered for (line 466); a missing key reads as `undefined`. -/
def sectionValue (report : JsVal) (sectionKey : String) : JsVal :=
  (report.get sectionKey).getD .undefined

/-- Lines 482-529: `orderedSections.map` over the report.  A section whose value
is falsy is left out (line 485, `if (!sectionValue) return null`); every other
section is rendered under its key (none of the seven keys holds an underscore,
so the heading of line 490 is the key itself) with `sectionValue` handed to its
renderer. -/
def exposedSections (report : JsVal) : List (String × JsVal) :=
  orderedSections.filterMap (fun sectionKey =>
    if (sectionValue report sectionKey).truthy then
      some (sectionKey, sectionValue report sectionKey)
    else none)

/-- Line 515: the test `typeof metaValue === 'string' && metaValue.includes('T')`
of the metadata table. -/
def treatedAsTimestamp (metaValue : JsVal) : Bool :=
  match metaValue with
  | .str s => s.toList.contains 'T'
  | _ => false

/-- Lines 515-517: the content of the value cell of a metadata row;
`toLocaleString` stands for `new Date(metaValue).toLocaleString()`, the date
formatting of the platform. -/
def metadataCell (toLocaleString : String → String) (metaValue : JsVal) : JsVal :=
  match metaValue with
  | .str s => if treatedAsTimestamp (.str s) then .str (toLocaleString s) else metaValue
  | _ => metaValue

/-- A report whose keys come in an order other than the canonical one. -/
def shuffledReport : List (String × JsVal) :=
  [("Metadata", .obj [("generated_at", .str "2024-05-01T10:00:00")]),
   ("Findings", .arr [sampleFinding]),
   ("ExecutiveSummary", .str "One finding of high impact")]

/-- The same report with its keys in another order. -/
def reorderedReport : List (String × JsVal) :=
  [("ExecutiveSummary", .str "One finding of high impact"),
   ("Metadata", .obj [("generated_at", .str "2024-05-01T10:00:00")]),
   ("Findings", .arr [sampleFinding])]

/-! ## Issue distribution (`components/IssuesTable.jsx`) -/

/-- The quotient `a / b` of two binary64 values, for a divisor other than zero. -/
def jsDiv (a b : ℚ) : ℚ :=
  roundDouble (a / b)

/-- The product `a * b` of two binary64 values. -/
def jsMul (a b : ℚ) : ℚ :=
  roundDouble (a * b)

/-- The number `x.toFixed(1)` writes: the multiple of one tenth nearest to `x`,
the larger in magnitude of the two when `x` lies halfway. -/
def toFixed1 (x : ℚ) : ℚ :=
  if x < 0 then -((⌊-x * 10 + 1 / 2⌋ : ℤ) : ℚ) / 10 else ((⌊x * 10 + 1 / 2⌋ : ℤ) : ℚ) / 10

/-- A row of `sectionValue.issues`: its `Severity` and its `issues`, an integer
count or missing. -/
structure SeverityRow where
  Severity : String
  issues : Option Int
deriving DecidableEq, Repr

/-- The operand `curr.issues || 0` of line 12: the count, 0 when it is missing. -/
def SeverityRow.count (curr : SeverityRow) : Int :=
  curr.issues.getD 0

/-- Line 12 of the table: the `reduce` over the rows, from 0, with the binary64
sum `acc + (curr.issues || 0)`, and 0 when `sectionValue` or its `issues` is
missing (`none`). -/
def totalIssues (issues : Option (List SeverityRow)) : ℚ :=
  match issues with
  | none => 0
  | some rows => rows.foldl (fun acc curr => jsAdd acc (curr.count : ℚ)) 0

/-- Line 15 of the table: `((value / totalIssues) * 100).toFixed(1)`.  With
`totalIssues` zero the quotient is not a finite number (`none`). -/
def getPercentage (totalIssues value : ℚ) : Option ℚ :=
  if totalIssues = 0 then none
  else some (toFixed1 (jsMul (jsDiv value totalIssues) 100))

/-- Lines 103 and 108 of the table: `item.issues ? getPercentage(item.issues) : 0`. -/
def distributionCell (totalIssues : ℚ) (item : SeverityRow) : Option ℚ :=
  match item.issues with
  | some n => if n ≠ 0 then getPercentage totalIssues (n : ℚ) else some 0
  | none => some 0

/-- Two severity rows whose counts are the largest odd binary64 integer, 2^53 - 1,
and 2. -/
def hugeRows : List SeverityRow :=
  [{ Severity := "Critical", issues := some 9007199254740991 },
   { Severity := "High", issues := some 2 }]

/-- Four severity rows, one of them without a count. -/
def sampleRows : List SeverityRow :=
  [{ Severity := "Critical", issues := some 1 }, { Severity := "High", issues := some 2 },
   { Severity := "Medium", issues := none }, { Severity := "Low", issues := some 0 }]

/-! ## Job state: observations -/

/-- The state cells after a sequence of poll replies is processed, in order. -/
def processReplies (s : AppState) (rs : List Reply) : AppState :=
  rs.foldl (fun acc r => applySets acc (checkStatus_resume r).sets) s

/-- Whether a setter call is one of `setReport`, `setError`. -/
def SetCall.bindsOutcome : SetCall → Bool
  | .setReport _ => true
  | .setError _ => true
  | _ => false

/-- A poll reply is terminal when processing it binds the result or the error:
the stage is `completed` or `failed`, or the poll itself failed. -/
def Reply.terminal (r : Reply) : Bool :=
  (checkStatus_resume r).sets.any SetCall.bindsOutcome

/-- A setter call stores no result and no error message: it is neither
`setReport` nor `setError`, or it stores `null`. -/
def SetCall.bindsNothing : SetCall → Bool
  | .setReport v => v == .null
  | .setError v => v == .null
  | _ => true

/-- An event that makes a handler other than the poller store a message in the
error cell: a file of the wrong type is chosen or dropped (lines 68 and 122), the
upload fails (line 159), or the download fails (line 240). -/
def Event.foreignError : Event → Bool
  | .drop file => wrongType file
  | .fileChange file => wrongType file
  | .reply (.upload _) r _ => (handleUpload_try r).isNone
  | .reply (.download _) r _ => (handleDownloadResults_resume r).sets.any SetCall.bindsOutcome
  | _ => false

/-- An event that delivers a terminal reply to a status poll. -/
def Event.terminalReply : Event → Bool
  | .reply (.status _) r _ => r.terminal
  | _ => false

/-- While job `job-1` is polled: a reply in progress, the next ticks of the two
intervals, a click on the dark-mode button, another PDF dropped, and a second
reply in progress. -/
def quietEvents : List Event :=
  [.reply (.status (.str "job-1"))
     (.http 200 (some (statusBody "processing" 10 (.str "Reading")))) "10:00:01",
   .pollTick, .healthTick, .clickDarkMode, .drop (some secondPdf),
   .reply (.status (.str "job-1"))
     (.http 200 (some (statusBody "processing" 40 (.str "Analyzing")))) "10:00:02"]

/-- The completed reply to a poll of job `job-1`. -/
def completedReply : Event :=
  .reply (.status (.str "job-1"))
    (.http 200 (some (completedBody (.num 100) (.str "Done") sampleResults))) "10:00:03"

/-- A setter call selects nothing but a PDF. -/
def SetCall.fileOk : SetCall → Bool
  | .setSelectedFile (.file f) => f.type == "application/pdf"
  | _ => true

/-- A request uploads nothing but a PDF. -/
def Request.fileOk : Request → Bool
  | .upload f => f.type == "application/pdf"
  | _ => true

/-- The Job part of the state is the initial idle one: no file, no id, no
message, progress 0, no result, no error, not loading. -/
def AppState.jobIdle (s : AppState) : Bool :=
  s.selectedFile == .null && s.fileId == .null && s.status == .null &&
  s.progress == .num 0 && s.report == .null && s.error == .null && s.isLoading == false

/-- Job `job-1` is accepted; two polls are issued one second apart before either
is answered; the first answer says completed, and the user clicks Reset while
the second poll is still out. -/
def resetTrace : List Event :=
  [.fileChange (some samplePdf), .clickUpload,
   .reply (.upload samplePdf) (uploadOk (.str "job-1")) "10:00:00",
   .pollTick, .pollTick,
   .reply (.status (.str "job-1"))
     (.http 200 (some (completedBody (.num 100) (.str "Done") sampleResults))) "10:00:02",
   .clickReset]

/-- The reply to the second poll of `resetTrace`, arriving after the reset. -/
def lateReply : Event :=
  .reply (.status (.str "job-1"))
    (.http 200 (some (completedBody (.num 100) (.str "Done") sampleResults))) "10:00:03"

/-- The polling interval is live exactly for a truthy job id, and then it is the
interval created for that id (what the polling effect of `App` establishes). -/
def World.pollerInStep (w : World) : Prop :=
  w.pollInterval = if w.app.fileId.truthy then some w.app.fileId else none

/-! ## Facts about `commit` and `step` shared by the proofs below -/

theorem healthEffect_app (w : World) : (healthEffect w).app = w.app := by
  unfold healthEffect World.send
  split <;> rfl

theorem healthEffect_pollInterval (w : World) :
    (healthEffect w).pollInterval = w.pollInterval := by
  unfold healthEffect World.send
  split <;> rfl

theorem jobRequests_append (l1 l2 : List Request) :
    jobRequests (l1 ++ l2) = jobRequests l1 ++ jobRequests l2 := by
  simp [jobRequests]

theorem healthEffect_jobRequests (w : World) :
    jobRequests (healthEffect w).log = jobRequests w.log := by
  unfold healthEffect World.send
  split
  · rfl
  · simp [jobRequests, checkServerStatus]

/-- A commit leaves in the state cells exactly what the setter calls stored. -/
theorem commit_app (w : World) (a : Actions) :
    (commit w a).app = applySets w.app a.sets := by
  unfold commit
  simp only []
  split
  · split
    · simp [pollEffect, healthEffect_app, World.send]
    · simp [healthEffect_app, World.send]
  · simp [World.send]

/-- A commit adds to the wire the requests of the handler and, besides them,
liveness probes only. -/
theorem commit_jobRequests (w : World) (a : Actions) :
    jobRequests (commit w a).log = jobRequests w.log ++ jobRequests a.reqs := by
  unfold commit
  simp only []
  split
  · split
    · simp [pollEffect, healthEffect_jobRequests, World.send, jobRequests_append]
    · simp [healthEffect_jobRequests, World.send, jobRequests_append]
  · simp [World.send, jobRequests_append]

/-- A commit whose setter calls do not include `setFileId` keeps the polling
interval as it is. -/
theorem commit_pollInterval_of_no_setFileId (w : World) (a : Actions)
    (h : a.sets.any SetCall.isFileId = false) :
    (commit w a).pollInterval = w.pollInterval := by
  have h2 : a.sets.any (fun c => c.isFileId && c.changes w.app) = false := by
    rw [List.any_eq_false] at h ⊢
    intro c hc
    have := h c hc
    simp [this]
  unfold commit
  simp only [h2]
  split
  · simp [healthEffect_pollInterval, World.send]
  · simp [World.send]

/-- The polling interval after a commit: re-created by the polling effect when
a `setFileId` call changed the cell, untouched otherwise. -/
theorem commit_pollInterval (w : World) (a : Actions) :
    (commit w a).pollInterval =
      if a.sets.any (fun c => c.isFileId && c.changes w.app) then
        (if (applySets w.app a.sets).fileId.truthy then some (applySets w.app a.sets).fileId
         else none)
      else w.pollInterval := by
  unfold commit
  simp only []
  by_cases h2 : a.sets.any (fun c => c.isFileId && c.changes w.app) = true
  · have h1 : a.sets.any (fun c => c.changes w.app) = true := by
      rw [List.any_eq_true] at h2 ⊢
      obtain ⟨c, hc, hcc⟩ := h2
      exact ⟨c, hc, by simp at hcc; exact hcc.2⟩
    simp [h1, h2, pollEffect, healthEffect_app, World.send]
  · simp only [h2]
    split
    · simp [healthEffect_pollInterval, World.send]
    · simp [World.send]

/-- The requests a handler issues await their reply after the commit. -/
theorem commit_inflight (w : World) (a : Actions) (req : Request) (h : req ∈ a.reqs) :
    req ∈ (commit w a).inflight := by
  unfold commit
  simp only []
  split
  · split
    · simp only [pollEffect, healthEffect, World.send]
      split <;> simp [h]
    · simp only [healthEffect, World.send]
      split <;> simp [h]
  · simp [World.send, h]

/-- A value with one readable property has every property readable. -/
theorem JsVal.get_total (d : JsVal) (k k2 : String) (v : JsVal) (h : d.get k = some v) :
    ∃ v2, d.get k2 = some v2 := by
  cases d <;> simp_all [JsVal.get]

/-- The setter calls of the `try` block of `checkStatus`, by stage. -/
theorem checkStatus_try_eq (d p m st res : JsVal)
    (hp : d.get "progress" = some p) (hm : d.get "message" = some m)
    (hst : d.get "stage" = some st) (hres : d.get "results" = some res) :
    checkStatus_try d = some
      (if st = .str "completed" then
        [.setProgress p, .setStatus m, .setReport res, .setIsLoading false]
      else if st = .str "failed" then
        [.setProgress p, .setStatus m, .setError m, .setIsLoading false]
      else [.setProgress p, .setStatus m]) := by
  simp only [checkStatus_try, hp, hm, hst, hres, Option.bind_eq_bind, Option.some_bind,
    Option.pure_def]
  split
  · rfl
  · split <;> rfl

/-- Processing a parsed, non-null status body stores its progress and message. -/
theorem checkStatus_resume_progress (s : AppState) (code : Nat) (d p m : JsVal)
    (hp : d.get "progress" = some p) (hm : d.get "message" = some m) :
    (applySets s (checkStatus_resume (.http code (some d))).sets).progress = p ∧
    (applySets s (checkStatus_resume (.http code (some d))).sets).status = m := by
  obtain ⟨st, hst⟩ := JsVal.get_total d "progress" "stage" p hp
  obtain ⟨res, hres⟩ := JsVal.get_total d "progress" "results" p hp
  simp only [checkStatus_resume, checkStatus_try_eq d p m st res hp hm hst hres]
  split
  · simp [applySets, SetCall.apply]
  · split <;> simp [applySets, SetCall.apply]

/-- The progress displayed after each processed poll reply is that reply's. -/
theorem displayedProgress_eq (rs : List Reply) :
    ∀ s : AppState, (∀ r ∈ rs, r.progress.isSome = true) →
      displayedProgress s rs = rs.filterMap Reply.progress := by
  induction rs with
  | nil => intro s _; rfl
  | cons r rs ih =>
    intro s h
    have hr := h r (List.mem_cons_self r rs)
    have hrs : ∀ x ∈ rs, x.progress.isSome = true :=
      fun x hx => h x (List.mem_cons_of_mem r hx)
    obtain ⟨p, hp⟩ := Option.isSome_iff_exists.mp hr
    have hhead : (applySets s (checkStatus_resume r).sets).progress = p := by
      cases r with
      | networkError => simp [Reply.progress] at hp
      | http code json =>
        cases json with
        | none => simp [Reply.progress] at hp
        | some d =>
          simp only [Reply.progress] at hp
          obtain ⟨m, hm⟩ := JsVal.get_total d "progress" "message" p hp
          exact (checkStatus_resume_progress s code d p m hp hm).1
    simp only [displayedProgress, List.filterMap_cons, hp]
    rw [ih _ hrs, hhead]

/-- The Upload button: disabled without a selected file and while loading. -/
theorem step_clickUpload (w : World) :
    step .clickUpload w =
      if w.app.selectedFile.file?.isNone || w.app.isLoading then w
      else commit w (handleUpload w.app) := rfl

/-- A reply is delivered to the continuation of a request that awaits one. -/
theorem step_reply (w : World) (req : Request) (r : Reply) (now : String) :
    step (.reply req r now) w =
      if req ∈ w.inflight then
        commit { w with inflight := w.inflight.erase req } (resume req r now)
      else w := rfl

/-! ## Job Status Poller -/

/-- C1 (the code departs from the claim): after a status reply with stage
`completed`, and likewise after one with stage `failed`, has been processed, the
interval of the polling effect is still live for the same job, and its next tick
issues a second status request for that job; nothing was reset and no new upload
was made. -/
theorem C1_polling_continues_after_terminal :
    (run World.init completedTrace).app.report = sampleResults ∧
    (run World.init completedTrace).app.isLoading = false ∧
    (run World.init completedTrace).pollInterval = some (.str "job-1") ∧
    statusRequests (run World.init completedTrace).log = [.status (.str "job-1")] ∧
    statusRequests (run World.init (completedTrace ++ [.pollTick])).log
      = [.status (.str "job-1"), .status (.str "job-1")] ∧
    (run World.init failedTrace).app.error = .str "corrupt file" ∧
    (run World.init failedTrace).pollInterval = some (.str "job-1") ∧
    statusRequests (run World.init (failedTrace ++ [.pollTick])).log
      = [.status (.str "job-1"), .status (.str "job-1")] := by
  decide

/-- C2: processing a status reply whose stage is `completed` and whose results
payload is `R` leaves `report = R` and `isLoading = false`, from every state;
and Scenario A (a PDF uploaded and accepted as job `id`, then a reply
processing/40, then a reply completed/100 carrying `R`) ends with `report = R`,
loading ended, progress 100 and no error. -/
theorem C2_completed_binds_result (s : AppState) (code : Nat) (statusData R : JsVal)
    (f : File) (id : String) (m1 m2 : JsVal)
    (hstage : statusData.get "stage" = some (.str "completed"))
    (hres : statusData.get "results" = some R)
    (hf : f.type = "application/pdf") (hid : id ≠ "") :
    ((applySets s (checkStatus_resume (.http code (some statusData))).sets).report = R ∧
     (applySets s (checkStatus_resume (.http code (some statusData))).sets).isLoading = false) ∧
    ((run World.init (scenarioA f id m1 m2 R)).app.report = R ∧
     (run World.init (scenarioA f id m1 m2 R)).app.isLoading = false ∧
     (run World.init (scenarioA f id m1 m2 R)).app.progress = .num 100 ∧
     (run World.init (scenarioA f id m1 m2 R)).app.fileId = .str id ∧
     (run World.init (scenarioA f id m1 m2 R)).app.error = .null) := by
  constructor
  · obtain ⟨p, hp⟩ := JsVal.get_total statusData "stage" "progress" _ hstage
    obtain ⟨m, hm⟩ := JsVal.get_total statusData "stage" "message" _ hstage
    simp [checkStatus_resume, checkStatus_try_eq statusData p m _ R hp hm hstage hres,
      applySets, SetCall.apply]
  · simp [scenarioA, run, step, commit, World.init, pollEffect, healthEffect, World.send,
      AppState.init, handleFileChange, wrongType, hf, firstFile, FileCell.file?, handleUpload,
      applySets, SetCall.apply,
      SetCall.changes, SetCall.isFileId, JsVal.sameValue, JsVal.truthy, checkServerStatus,
      uploadOk, resume, handleUpload_resume, handleUpload_try, httpOk, JsVal.get, hid,
      checkStatus, checkStatus_resume, checkStatus_try, statusBody, completedBody, List.lookup]
    refine ⟨?_, ?_, ?_, ?_, ?_⟩ <;> split <;> rfl

/-- Witness of C2 at the sample PDF, job `job-1` and the sample results. -/
theorem C2_completed_binds_result_witness :
    (completedBody (.num 100) (.str "Done") sampleResults).get "stage"
      = some (.str "completed") ∧
    (completedBody (.num 100) (.str "Done") sampleResults).get "results"
      = some sampleResults ∧
    samplePdf.type = "application/pdf" ∧ "job-1" ≠ "" ∧
    ((applySets AppState.init (checkStatus_resume (.http 200 (some
        (completedBody (.num 100) (.str "Done") sampleResults)))).sets).report = sampleResults ∧
     (applySets AppState.init (checkStatus_resume (.http 200 (some
        (completedBody (.num 100) (.str "Done") sampleResults)))).sets).isLoading = false) ∧
    ((run World.init (scenarioA samplePdf "job-1" .undefined (.str "Done") sampleResults)).app.report
        = sampleResults ∧
     (run World.init (scenarioA samplePdf "job-1" .undefined (.str "Done") sampleResults)).app.isLoading
        = false ∧
     (run World.init (scenarioA samplePdf "job-1" .undefined (.str "Done") sampleResults)).app.progress
        = .num 100 ∧
     (run World.init (scenarioA samplePdf "job-1" .undefined (.str "Done") sampleResults)).app.fileId
        = .str "job-1" ∧
     (run World.init (scenarioA samplePdf "job-1" .undefined (.str "Done") sampleResults)).app.error
        = .null) :=
  ⟨by decide, by decide, by decide, by decide,
   C2_completed_binds_result AppState.init 200
     (completedBody (.num 100) (.str "Done") sampleResults) sampleResults samplePdf "job-1"
     .undefined (.str "Done") (by decide) (by decide) (by decide) (by decide)⟩

/-- C3: processing a status reply whose stage is `failed` and whose message is
`m` leaves `error = m` and `isLoading = false`, from every state; and Scenario B
(a PDF uploaded and accepted as job `id`, then a reply failed with message `m`)
ends with `error = m`, loading ended and no report. -/
theorem C3_failed_binds_error (s : AppState) (code : Nat) (statusData m : JsVal)
    (f : File) (id : String) (p : Int)
    (hstage : statusData.get "stage" = some (.str "failed"))
    (hmsg : statusData.get "message" = some m)
    (hf : f.type = "application/pdf") (hid : id ≠ "") :
    ((applySets s (checkStatus_resume (.http code (some statusData))).sets).error = m ∧
     (applySets s (checkStatus_resume (.http code (some statusData))).sets).isLoading = false) ∧
    ((run World.init (scenarioB f id p m)).app.error = m ∧
     (run World.init (scenarioB f id p m)).app.isLoading = false ∧
     (run World.init (scenarioB f id p m)).app.report = .null ∧
     (run World.init (scenarioB f id p m)).app.fileId = .str id) := by
  constructor
  · obtain ⟨q, hq⟩ := JsVal.get_total statusData "stage" "progress" _ hstage
    obtain ⟨res, hres⟩ := JsVal.get_total statusData "stage" "results" _ hstage
    simp [checkStatus_resume, checkStatus_try_eq statusData q m _ res hq hmsg hstage hres,
      applySets, SetCall.apply]
  · simp [scenarioB, run, step, commit, World.init, pollEffect, healthEffect, World.send,
      AppState.init, handleFileChange, wrongType, hf, firstFile, FileCell.file?, handleUpload,
      applySets, SetCall.apply,
      SetCall.changes, SetCall.isFileId, JsVal.sameValue, JsVal.truthy, checkServerStatus,
      uploadOk, resume, handleUpload_resume, handleUpload_try, httpOk, JsVal.get, hid,
      checkStatus, checkStatus_resume, checkStatus_try, statusBody, List.lookup]

/-- Witness of C3 at the sample PDF, job `job-1` and the message of Scenario B. -/
theorem C3_failed_binds_error_witness :
    (statusBody "failed" 30 (.str "corrupt file")).get "stage" = some (.str "failed") ∧
    (statusBody "failed" 30 (.str "corrupt file")).get "message"
      = some (.str "corrupt file") ∧
    samplePdf.type = "application/pdf" ∧ "job-1" ≠ "" ∧
    ((applySets AppState.init (checkStatus_resume (.http 200 (some
        (statusBody "failed" 30 (.str "corrupt file"))))).sets).error = .str "corrupt file" ∧
     (applySets AppState.init (checkStatus_resume (.http 200 (some
        (statusBody "failed" 30 (.str "corrupt file"))))).sets).isLoading = false) ∧
    ((run World.init (scenarioB samplePdf "job-1" 30 (.str "corrupt file"))).app.error
        = .str "corrupt file" ∧
     (run World.init (scenarioB samplePdf "job-1" 30 (.str "corrupt file"))).app.isLoading = false ∧
     (run World.init (scenarioB samplePdf "job-1" 30 (.str "corrupt file"))).app.report = .null ∧
     (run World.init (scenarioB samplePdf "job-1" 30 (.str "corrupt file"))).app.fileId
        = .str "job-1") :=
  ⟨by decide, by decide, by decide, by decide,
   C3_failed_binds_error AppState.init 200 (statusBody "failed" 30 (.str "corrupt file"))
     (.str "corrupt file") samplePdf "job-1" 30 (by decide) (by decide) (by decide) (by decide)⟩

/-- C4, counterexample: while job `job-1` is being polled, a reply whose body is
the empty object, and likewise one whose body is a bare string, is not a status
object with stage, progress and message, yet after it is processed no error is
set and loading has not ended; only the displayed progress and message are
overwritten with `undefined`. -/
theorem C4_counterexample :
    (run World.init pollingTrace).app.isLoading = true ∧
    (run World.init (pollingTrace ++
      [.reply (.status (.str "job-1")) (.http 200 (some (.obj []))) "10:00:01"])).app.error
        = .null ∧
    (run World.init (pollingTrace ++
      [.reply (.status (.str "job-1")) (.http 200 (some (.obj []))) "10:00:01"])).app.isLoading
        = true ∧
    (run World.init (pollingTrace ++
      [.reply (.status (.str "job-1")) (.http 200 (some (.obj []))) "10:00:01"])).app.progress
        = .undefined ∧
    (run World.init (pollingTrace ++
      [.reply (.status (.str "job-1")) (.http 500 (some (.str "oops"))) "10:00:01"])).app.error
        = .null ∧
    (run World.init (pollingTrace ++
      [.reply (.status (.str "job-1")) (.http 500 (some (.str "oops"))) "10:00:01"])).app.isLoading
        = true := by
  decide

/-- C4, amended: a poll whose request fails (the fetch rejects), whose body does
not parse as JSON, or whose body parses to `null`, is treated as a terminal
failure: from every state, `error` becomes "Failed to check status" and
`isLoading` becomes false, and no other cell changes. -/
theorem C4_poll_failure_is_terminal (s : AppState) (r : Reply)
    (h : r = .networkError ∨ (∃ code, r = .http code none) ∨
         (∃ code, r = .http code (some .null))) :
    (applySets s (checkStatus_resume r).sets).error = .str "Failed to check status" ∧
    (applySets s (checkStatus_resume r).sets).isLoading = false ∧
    (applySets s (checkStatus_resume r).sets).progress = s.progress ∧
    (applySets s (checkStatus_resume r).sets).status = s.status ∧
    (applySets s (checkStatus_resume r).sets).report = s.report := by
  rcases h with h | ⟨code, h⟩ | ⟨code, h⟩ <;> subst h <;>
    simp [checkStatus_resume, checkStatus_try, checkStatus_catch, JsVal.get, applySets,
      SetCall.apply]

/-- Witness of amended C4 at a network error during the first poll. -/
theorem C4_poll_failure_is_terminal_witness :
    (Reply.networkError = .networkError ∨ (∃ code, Reply.networkError = .http code none) ∨
       (∃ code, Reply.networkError = .http code (some .null))) ∧
    (applySets (run World.init pollingTrace).app (checkStatus_resume .networkError).sets).error
      = .str "Failed to check status" ∧
    (applySets (run World.init pollingTrace).app (checkStatus_resume .networkError).sets).isLoading
      = false ∧
    (applySets (run World.init pollingTrace).app (checkStatus_resume .networkError).sets).progress
      = (run World.init pollingTrace).app.progress ∧
    (applySets (run World.init pollingTrace).app (checkStatus_resume .networkError).sets).status
      = (run World.init pollingTrace).app.status ∧
    (applySets (run World.init pollingTrace).app (checkStatus_resume .networkError).sets).report
      = (run World.init pollingTrace).app.report :=
  ⟨Or.inl rfl,
   C4_poll_failure_is_terminal (run World.init pollingTrace).app .networkError (Or.inl rfl)⟩

/-- C5 (the code departs from the claim): the fields of a Job that reached a
terminal state keep changing without any reset, because the polling interval
outlives the terminal reply.  After job `job-1` completed with a report, the
next poll failing at the network sets `error` while the report is still held,
and a later reply with progress 10 moves the displayed progress from 100 to 10;
after job `job-1` failed with "corrupt file", a later `completed` reply stores a
report while the error is still held. -/
theorem C5_terminal_state_not_absorbing :
    (run World.init completedTrace).app.progress = .num 100 ∧
    (run World.init completedTrace).app.error = .null ∧
    (run World.init (completedTrace ++
      [.pollTick, .reply (.status (.str "job-1")) .networkError "10:00:02"])).app.error
        = .str "Failed to check status" ∧
    (run World.init (completedTrace ++
      [.pollTick, .reply (.status (.str "job-1")) .networkError "10:00:02"])).app.report
        = sampleResults ∧
    (run World.init (completedTrace ++
      [.pollTick, .reply (.status (.str "job-1"))
        (.http 200 (some (statusBody "processing" 10 (.str "Working")))) "10:00:02"])).app.progress
        = .num 10 ∧
    (run World.init (completedTrace ++
      [.pollTick, .reply (.status (.str "job-1"))
        (.http 200 (some (statusBody "processing" 10 (.str "Working")))) "10:00:02"])).app.status
        = .str "Working" ∧
    (run World.init failedTrace).app.report = .null ∧
    (run World.init (failedTrace ++
      [.pollTick, .reply (.status (.str "job-1"))
        (.http 200 (some (completedBody (.num 100) (.str "Done") sampleResults)))
        "10:00:02"])).app.report = sampleResults ∧
    (run World.init (failedTrace ++
      [.pollTick, .reply (.status (.str "job-1"))
        (.http 200 (some (completedBody (.num 100) (.str "Done") sampleResults)))
        "10:00:02"])).app.error = .str "corrupt file" := by
  decide

/-- C6: after a poll reply with a parsed, non-null body is processed, the
displayed progress and message are that body's `progress` and `message`, from
every state; so over a sequence of such replies the displayed progress after
each reply is the reply's own, and it is non-decreasing when the progress
values of the replies are non-decreasing numbers. -/
theorem C6_last_response_wins (s : AppState) (code : Nat) (statusData p m : JsVal)
    (rs : List Reply)
    (hp : statusData.get "progress" = some p) (hm : statusData.get "message" = some m)
    (hrs : ∀ r ∈ rs, r.progress.isSome = true)
    (hmono : nonDecreasing (rs.filterMap Reply.progress) = true) :
    ((applySets s (checkStatus_resume (.http code (some statusData))).sets).progress = p ∧
     (applySets s (checkStatus_resume (.http code (some statusData))).sets).status = m) ∧
    (displayedProgress s rs).map some = rs.map Reply.progress ∧
    nonDecreasing (displayedProgress s rs) = true := by
  refine ⟨checkStatus_resume_progress s code statusData p m hp hm, ?_, ?_⟩
  · rw [displayedProgress_eq rs s hrs]
    clear hp hm hmono
    induction rs with
    | nil => rfl
    | cons r rs ih =>
      obtain ⟨q, hq⟩ := Option.isSome_iff_exists.mp (hrs r (List.mem_cons_self r rs))
      simp only [List.filterMap_cons, hq, List.map_cons]
      rw [ih (fun x hx => hrs x (List.mem_cons_of_mem r hx))]
  · rw [displayedProgress_eq rs s hrs]
    exact hmono

/-- Witness of C6 at three replies with progress 10, 40 and 40. -/
theorem C6_last_response_wins_witness :
    (statusBody "processing" 40 (.str "Analyzing")).get "progress" = some (.num 40) ∧
    (statusBody "processing" 40 (.str "Analyzing")).get "message" = some (.str "Analyzing") ∧
    (∀ r ∈ sampleReplies, r.progress.isSome = true) ∧
    nonDecreasing (sampleReplies.filterMap Reply.progress) = true ∧
    (((applySets AppState.init (checkStatus_resume (.http 200 (some
        (statusBody "processing" 40 (.str "Analyzing"))))).sets).progress = .num 40 ∧
      (applySets AppState.init (checkStatus_resume (.http 200 (some
        (statusBody "processing" 40 (.str "Analyzing"))))).sets).status = .str "Analyzing") ∧
     (displayedProgress AppState.init sampleReplies).map some
       = sampleReplies.map Reply.progress ∧
     nonDecreasing (displayedProgress AppState.init sampleReplies) = true) :=
  ⟨by decide, by decide, by decide, by decide,
   C6_last_response_wins AppState.init 200 (statusBody "processing" 40 (.str "Analyzing"))
     (.num 40) (.str "Analyzing") sampleReplies (by decide) (by decide) (by decide)
     (by decide)⟩

/-! ## Upload Coordinator -/

/-- C7: in a state with no file selected, no job id, not loading and no report,
choosing a file whose type is not application/pdf, through the file picker or by
drop, reports the validation error "Please select a valid PDF file" and selects
nothing; the Upload button then does nothing, and `handleUpload` itself, when
run, issues no request and reports "Please select a PDF file first".  Neither
handler issues a request, no request other than the liveness probes of the
health monitor reaches the wire, and the Job stays idle (no job id, not loading,
no report, no file). -/
theorem C7_wrong_type_rejected (w : World) (f : File) (e : Event)
    (hf : f.type ≠ "application/pdf")
    (he : e = .fileChange (some f) ∨ e = .drop (some f))
    (hsel : w.app.selectedFile.file? = none) (hid : w.app.fileId = .null)
    (hload : w.app.isLoading = false) (hrep : w.app.report = .null) :
    (handleFileChange (some f)).reqs = [] ∧ (handleDrop (some f)).reqs = [] ∧
    (step e w).app.error = .str "Please select a valid PDF file" ∧
    (step e w).app.selectedFile.file? = none ∧
    step .clickUpload (step e w) = step e w ∧
    (handleUpload (step e w).app).reqs = [] ∧
    jobRequests (commit (step e w) (handleUpload (step e w).app)).log = jobRequests w.log ∧
    (commit (step e w) (handleUpload (step e w).app)).app.fileId = .null ∧
    (commit (step e w) (handleUpload (step e w).app)).app.isLoading = false ∧
    (commit (step e w) (handleUpload (step e w).app)).app.report = .null ∧
    (commit (step e w) (handleUpload (step e w).app)).app.selectedFile.file? = none ∧
    (commit (step e w) (handleUpload (step e w).app)).app.error
      = .str "Please select a PDF file first" := by
  have hwt : wrongType (some f) = true := by simp [wrongType, hf]
  have happ : (step e w).app.selectedFile.file? = none ∧ (step e w).app.fileId = .null ∧
      (step e w).app.isLoading = false ∧ (step e w).app.report = .null ∧
      (step e w).app.error = .str "Please select a valid PDF file" ∧
      jobRequests (step e w).log = jobRequests w.log := by
    rcases he with he | he <;> subst he <;>
      simp only [step, commit_app, commit_jobRequests]
    · simp [handleFileChange, hwt, applySets, SetCall.apply, hid, hload, hrep, jobRequests]
      rfl
    · simp [handleDrop, hwt, applySets, SetCall.apply, hsel, hid, hload, hrep, jobRequests]
  obtain ⟨h1, h2, h3, h4, h5, h6⟩ := happ
  have hup : handleUpload (step e w).app
      = { sets := [.setError (.str "Please select a PDF file first")] } := by
    unfold handleUpload
    cases hc : (step e w).app.selectedFile with
    | file g => rw [hc] at h1; simp [FileCell.file?] at h1
    | null => rfl
    | undefined => rfl
  refine ⟨?_, ?_, h5, h1, ?_, ?_, ?_, ?_, ?_, ?_, ?_, ?_⟩
  · simp [handleFileChange, hwt]
  · simp [handleDrop, hwt]
  · rw [step_clickUpload, h1]; simp
  · rw [hup]
  · rw [commit_jobRequests, hup, h6]; simp [jobRequests]
  · rw [commit_app, hup]; simpa [applySets, SetCall.apply] using h2
  · rw [commit_app, hup]; simpa [applySets, SetCall.apply] using h3
  · rw [commit_app, hup]; simpa [applySets, SetCall.apply] using h4
  · rw [commit_app, hup]; simpa [applySets, SetCall.apply] using h1
  · rw [commit_app, hup]; simp [applySets, SetCall.apply]

/-- Witness of C7: a text file dropped on the freshly mounted component. -/
theorem C7_wrong_type_rejected_witness :
    sampleTxt.type ≠ "application/pdf" ∧
    (Event.drop (some sampleTxt) = .fileChange (some sampleTxt) ∨
      Event.drop (some sampleTxt) = .drop (some sampleTxt)) ∧
    World.init.app.selectedFile.file? = none ∧ World.init.app.fileId = .null ∧
    World.init.app.isLoading = false ∧ World.init.app.report = .null ∧
    ((handleFileChange (some sampleTxt)).reqs = [] ∧ (handleDrop (some sampleTxt)).reqs = [] ∧
     (step (.drop (some sampleTxt)) World.init).app.error
       = .str "Please select a valid PDF file" ∧
     (step (.drop (some sampleTxt)) World.init).app.selectedFile.file? = none ∧
     step .clickUpload (step (.drop (some sampleTxt)) World.init)
       = step (.drop (some sampleTxt)) World.init ∧
     (handleUpload (step (.drop (some sampleTxt)) World.init).app).reqs = [] ∧
     jobRequests (commit (step (.drop (some sampleTxt)) World.init)
       (handleUpload (step (.drop (some sampleTxt)) World.init).app)).log
       = jobRequests World.init.log ∧
     (commit (step (.drop (some sampleTxt)) World.init)
       (handleUpload (step (.drop (some sampleTxt)) World.init).app)).app.fileId = .null ∧
     (commit (step (.drop (some sampleTxt)) World.init)
       (handleUpload (step (.drop (some sampleTxt)) World.init).app)).app.isLoading = false ∧
     (commit (step (.drop (some sampleTxt)) World.init)
       (handleUpload (step (.drop (some sampleTxt)) World.init).app)).app.report = .null ∧
     (commit (step (.drop (some sampleTxt)) World.init)
       (handleUpload (step (.drop (some sampleTxt)) World.init).app)).app.selectedFile.file?
       = none ∧
     (commit (step (.drop (some sampleTxt)) World.init)
       (handleUpload (step (.drop (some sampleTxt)) World.init).app)).app.error
       = .str "Please select a PDF file first") :=
  ⟨by decide, Or.inr rfl, by decide, by decide, by decide, by decide,
   C7_wrong_type_rejected World.init sampleTxt (.drop (some sampleTxt)) (by decide)
     (Or.inr rfl) (by decide) (by decide) (by decide) (by decide)⟩

/-- C8, counterexample: a PDF of 20 MB, above the advertised 10 MB, is accepted
by the file picker without an error, and submitting it issues the upload request
carrying it. -/
theorem C8_counterexample :
    bigPdf.type = "application/pdf" ∧ 10 * 1024 * 1024 < bigPdf.size ∧
    (run World.init [.fileChange (some bigPdf)]).app.selectedFile = .file bigPdf ∧
    (run World.init [.fileChange (some bigPdf)]).app.error = .null ∧
    jobRequests (run World.init [.fileChange (some bigPdf), .clickUpload]).log
      = [.upload bigPdf] := by
  decide

/-- C8, amended: the size of a file is never inspected.  For every file of type
application/pdf, whatever its size, choosing it in the file picker selects it
without an error, and submitting it while no upload is in progress issues
exactly one upload request, carrying that file. -/
theorem C8_size_not_checked (w : World) (f : File)
    (hf : f.type = "application/pdf") (hload : w.app.isLoading = false) :
    (run w [.fileChange (some f)]).app.selectedFile = .file f ∧
    (run w [.fileChange (some f)]).app.error = .null ∧
    jobRequests (run w [.fileChange (some f), .clickUpload]).log
      = jobRequests w.log ++ [.upload f] := by
  have hwt : wrongType (some f) = false := by simp [wrongType, hf]
  have h1 : (step (.fileChange (some f)) w).app
      = applySets w.app [.setError .null, .setSelectedFile (.file f)] := by
    simp [step, commit_app, handleFileChange, hwt, firstFile]
  refine ⟨?_, ?_, ?_⟩
  · simp [run, h1, applySets, SetCall.apply]
  · simp [run, h1, applySets, SetCall.apply]
  · have h2 : (step (.fileChange (some f)) w).app.selectedFile = .file f := by
      simp [h1, applySets, SetCall.apply]
    have h3 : (step (.fileChange (some f)) w).app.isLoading = false := by
      simp [h1, applySets, SetCall.apply, hload]
    have h4 : jobRequests (step (.fileChange (some f)) w).log = jobRequests w.log := by
      simp only [step, commit_jobRequests]
      simp [handleFileChange, hwt, jobRequests]
    simp only [run, List.foldl]
    rw [step_clickUpload, h2, h3]
    simp only [FileCell.file?, Option.isNone_some, Bool.or_self, Bool.false_eq_true, if_false]
    rw [commit_jobRequests, h4]
    simp [handleUpload, h2, jobRequests]

/-- Witness of amended C8 at the 20 MB PDF on the freshly mounted component. -/
theorem C8_size_not_checked_witness :
    bigPdf.type = "application/pdf" ∧ World.init.app.isLoading = false ∧
    ((run World.init [.fileChange (some bigPdf)]).app.selectedFile = .file bigPdf ∧
     (run World.init [.fileChange (some bigPdf)]).app.error = .null ∧
     jobRequests (run World.init [.fileChange (some bigPdf), .clickUpload]).log
       = jobRequests World.init.log ++ [.upload bigPdf]) :=
  ⟨by decide, by decide, C8_size_not_checked World.init bigPdf (by decide) (by decide)⟩

/-- C9, counterexample: the upload of the sample PDF succeeds (status 200, a
body that parses, a `fileId` that is a string), but the `fileId` is the empty
string: the polling effect does not create its interval, no status request is
ever issued, and the component stays loading without an error.  The same
happens when the body of the successful reply is an object without `fileId`. -/
theorem C9_counterexample :
    handleUpload_try (uploadOk (.str "")) = some (.str "") ∧
    (run World.init [.fileChange (some samplePdf), .clickUpload,
      .reply (.upload samplePdf) (.http 200 (some (.obj []))) "10:00:00"]).pollInterval
        = none ∧
    (run World.init [.fileChange (some samplePdf), .clickUpload,
      .reply (.upload samplePdf) (.http 200 (some (.obj []))) "10:00:00"]).app.isLoading
        = true ∧
    (run World.init [.fileChange (some samplePdf), .clickUpload,
      .reply (.upload samplePdf) (.http 200 (some (.obj []))) "10:00:00"]).app.error
        = .null ∧
    (run World.init [.fileChange (some samplePdf), .clickUpload,
      .reply (.upload samplePdf) (uploadOk (.str "")) "10:00:00"]).pollInterval = none ∧
    statusRequests (run World.init [.fileChange (some samplePdf), .clickUpload,
      .reply (.upload samplePdf) (uploadOk (.str "")) "10:00:00", .pollTick]).log = [] ∧
    (run World.init [.fileChange (some samplePdf), .clickUpload,
      .reply (.upload samplePdf) (uploadOk (.str "")) "10:00:00"]).app.isLoading = true ∧
    (run World.init [.fileChange (some samplePdf), .clickUpload,
      .reply (.upload samplePdf) (uploadOk (.str "")) "10:00:00"]).app.error = .null := by
  decide

/-- C9, amended: submitting from a state with a selected file, no job id, no
polling interval and not loading activates the poller if and only if the upload
reply carries a truthy `fileId` (the fetch resolves, `response.ok` holds, the
body parses and is not `null`, and its `fileId` is not falsy).  With a truthy
`fileId` the job id is that value, progress is 0, no error is set and the
polling interval is live for that id; with a falsy `fileId` no interval is
created; when the upload fails (the fetch rejects, the status is not ok, or the
body does not parse) the job id stays absent, no interval is created, loading
ends and the upload error message is reported. -/
theorem C9_poller_iff_job_id (w : World) (f : File) (r : Reply) (now : String)
    (hsel : w.app.selectedFile = .file f) (hload : w.app.isLoading = false)
    (hid : w.app.fileId = .null) (hpoll : w.pollInterval = none) :
    (∀ id, handleUpload_try r = some id → id.truthy = true →
      (run w [.clickUpload, .reply (.upload f) r now]).app.fileId = id ∧
      (run w [.clickUpload, .reply (.upload f) r now]).app.progress = .num 0 ∧
      (run w [.clickUpload, .reply (.upload f) r now]).app.error = .null ∧
      (run w [.clickUpload, .reply (.upload f) r now]).pollInterval = some id) ∧
    (∀ id, handleUpload_try r = some id → id.truthy = false →
      (run w [.clickUpload, .reply (.upload f) r now]).pollInterval = none) ∧
    (handleUpload_try r = none →
      (run w [.clickUpload, .reply (.upload f) r now]).app.fileId = .null ∧
      (run w [.clickUpload, .reply (.upload f) r now]).pollInterval = none ∧
      (run w [.clickUpload, .reply (.upload f) r now]).app.isLoading = false ∧
      (run w [.clickUpload, .reply (.upload f) r now]).app.error
        = .str "Failed to upload file. Please try again.") := by
  have hup : handleUpload w.app =
      { sets := [.setIsLoading true, .setError .null, .setProgress (.num 0), .setReport .null],
        reqs := [.upload f] } := by
    simp [handleUpload, hsel]
  have h1 : step .clickUpload w = commit w (handleUpload w.app) := by
    rw [step_clickUpload, hsel, hload]; simp [FileCell.file?]
  have hin : Request.upload f ∈ (step .clickUpload w).inflight := by
    rw [h1]; exact commit_inflight w _ _ (by simp [hup])
  have happ1 : (step .clickUpload w).app = applySets w.app
      [.setIsLoading true, .setError .null, .setProgress (.num 0), .setReport .null] := by
    rw [h1, commit_app, hup]
  have hpoll1 : (step .clickUpload w).pollInterval = none := by
    rw [h1, commit_pollInterval_of_no_setFileId w _ (by simp [hup, SetCall.isFileId]), hpoll]
  have hrun : run w [.clickUpload, .reply (.upload f) r now] =
      commit { step .clickUpload w with
                inflight := (step .clickUpload w).inflight.erase (.upload f) }
        (handleUpload_resume r) := by
    simp only [run, List.foldl]
    rw [step_reply, if_pos hin]
    rfl
  rw [hrun]
  refine ⟨?_, ?_, ?_⟩
  · intro id htry htruthy
    have hch : (SetCall.setFileId id).changes (step .clickUpload w).app = true := by
      cases id <;> simp_all [SetCall.changes, JsVal.sameValue, applySets, SetCall.apply,
        JsVal.truthy]
    refine ⟨?_, ?_, ?_, ?_⟩
    · simp [commit_app, handleUpload_resume, htry, happ1, applySets, SetCall.apply]
    · simp [commit_app, handleUpload_resume, htry, happ1, applySets, SetCall.apply]
    · simp [commit_app, handleUpload_resume, htry, happ1, applySets, SetCall.apply]
    · rw [commit_pollInterval]
      simp [handleUpload_resume, htry, SetCall.isFileId, hch, applySets, SetCall.apply,
        htruthy]
  · intro id htry hfalsy
    rw [commit_pollInterval]
    simp [handleUpload_resume, htry, SetCall.isFileId, applySets, SetCall.apply, hfalsy,
      hpoll1]
  · intro htry
    refine ⟨?_, ?_, ?_, ?_⟩
    · simp [commit_app, handleUpload_resume, htry, happ1, applySets, SetCall.apply, hid]
    · rw [commit_pollInterval_of_no_setFileId _ _
        (by simp [handleUpload_resume, htry, SetCall.isFileId])]
      exact hpoll1
    · simp [commit_app, handleUpload_resume, htry, happ1, applySets, SetCall.apply]
    · simp [commit_app, handleUpload_resume, htry, happ1, applySets, SetCall.apply]

/-- Witness of amended C9: the sample PDF is accepted as job `job-1`. -/
theorem C9_poller_iff_job_id_witness :
    selectedWorld.app.selectedFile = .file samplePdf ∧ selectedWorld.app.isLoading = false ∧
    selectedWorld.app.fileId = .null ∧ selectedWorld.pollInterval = none ∧
    handleUpload_try (uploadOk (.str "job-1")) = some (.str "job-1") ∧
    (JsVal.str "job-1").truthy = true ∧
    ((run selectedWorld [.clickUpload,
        .reply (.upload samplePdf) (uploadOk (.str "job-1")) "10:00:00"]).app.fileId
        = .str "job-1" ∧
     (run selectedWorld [.clickUpload,
        .reply (.upload samplePdf) (uploadOk (.str "job-1")) "10:00:00"]).app.progress
        = .num 0 ∧
     (run selectedWorld [.clickUpload,
        .reply (.upload samplePdf) (uploadOk (.str "job-1")) "10:00:00"]).app.error = .null ∧
     (run selectedWorld [.clickUpload,
        .reply (.upload samplePdf) (uploadOk (.str "job-1")) "10:00:00"]).pollInterval
        = some (.str "job-1")) :=
  ⟨by decide, by decide, by decide, by decide, by decide, by decide,
   (C9_poller_iff_job_id selectedWorld samplePdf (uploadOk (.str "job-1")) "10:00:00"
      (by decide) (by decide) (by decide) (by decide)).1 (.str "job-1") (by decide)
      (by decide)⟩

/-- C10 (the code departs from the claim): `handleUpload` clears progress,
report and error but neither the job id nor the status message.  After job
`job-1` completed, submitting a second PDF without a reset leaves `fileId` and
`status` at the values of `job-1` and the polling interval of `job-1` live; its
next reply stores the report of `job-1` again and ends loading while the new
upload is still unanswered. -/
theorem C10_resubmit_keeps_prior_job :
    (run World.init completedTrace).app.isLoading = false ∧
    (run World.init resubmitTrace).app.progress = .num 0 ∧
    (run World.init resubmitTrace).app.report = .null ∧
    (run World.init resubmitTrace).app.error = .null ∧
    (run World.init resubmitTrace).app.isLoading = true ∧
    (run World.init resubmitTrace).app.fileId = .str "job-1" ∧
    (run World.init resubmitTrace).app.status = .str "Done" ∧
    (run World.init resubmitTrace).pollInterval = some (.str "job-1") ∧
    Request.upload secondPdf ∈ (run World.init (resubmitTrace ++
      [.pollTick, .reply (.status (.str "job-1"))
        (.http 200 (some (completedBody (.num 100) (.str "Done") sampleResults)))
        "10:00:05"])).inflight ∧
    (run World.init (resubmitTrace ++
      [.pollTick, .reply (.status (.str "job-1"))
        (.http 200 (some (completedBody (.num 100) (.str "Done") sampleResults)))
        "10:00:05"])).app.report = sampleResults ∧
    (run World.init (resubmitTrace ++
      [.pollTick, .reply (.status (.str "job-1"))
        (.http 200 (some (completedBody (.num 100) (.str "Done") sampleResults)))
        "10:00:05"])).app.isLoading = false ∧
    (applySets (run World.init completedTrace).app handleReset.sets).fileId = .null ∧
    (applySets (run World.init completedTrace).app handleReset.sets).status = .null := by
  decide

/-! ## Health Monitor -/

/-- The value a completed probe stores in `serverStatus`. -/
theorem checkServerStatus_resume_serverStatus (s : AppState) (r : Reply) (now : String) :
    (applySets s (checkServerStatus_resume r now).sets).serverStatus
      = { status := if r.is200 then "online" else "offline", lastChecked := some now } := by
  cases r with
  | networkError => simp [checkServerStatus_resume, applySets, SetCall.apply, Reply.is200]
  | http status json =>
    by_cases h : status = 200
    · subst h
      simp [checkServerStatus_resume, applySets, SetCall.apply, Reply.is200]
    · have h2 : (Reply.http status json).is200 = false := by
        unfold Reply.is200
        split
        · rename_i heq
          cases heq
          exact absurd rfl h
        · rfl
      simp [checkServerStatus_resume, applySets, SetCall.apply, h, h2]

/-- C11: when the reply to a liveness probe arrives, `serverStatus.status` is
"online" if the reply is a response with status 200 and "offline" for any other
status and for a network error, whatever the state was before, and `lastChecked`
is the time of the completion in both cases; so over any sequence of probe
completions the displayed status after each one is that of its own outcome. -/
theorem C11_probe_outcome (w : World) (r : Reply) (now : String)
    (rs : List (Reply × String)) (h : Request.test ∈ w.inflight) :
    (step (.reply .test r now) w).app.serverStatus
      = { status := if r.is200 then "online" else "offline", lastChecked := some now } ∧
    displayedHealth w.app rs
      = rs.map (fun p =>
          { status := if p.1.is200 then "online" else "offline", lastChecked := some p.2 }) := by
  constructor
  · rw [step_reply, if_pos h, commit_app]
    exact checkServerStatus_resume_serverStatus _ r now
  · generalize w.app = s
    induction rs generalizing s with
    | nil => rfl
    | cons p ps ih =>
      simp only [displayedHealth, List.map_cons]
      rw [checkServerStatus_resume_serverStatus, ih]

/-- Witness of C11: the first probe of the freshly mounted component succeeds,
and four outcomes alternate. -/
theorem C11_probe_outcome_witness :
    Request.test ∈ World.init.inflight ∧
    ((step (.reply .test (.http 200 none) "10:00:00") World.init).app.serverStatus
      = { status := if (Reply.http 200 none).is200 then "online" else "offline",
          lastChecked := some "10:00:00" } ∧
     displayedHealth World.init.app alternatingProbes
      = alternatingProbes.map (fun p =>
          { status := if p.1.is200 then "online" else "offline", lastChecked := some p.2 })) :=
  ⟨by decide, C11_probe_outcome World.init (.http 200 none) "10:00:00" alternatingProbes
    (by decide)⟩

/-- C12 (the code departs from the claim): the health effect lists
`checkServerStatus` among its dependencies, a function created anew by every
render, so the effect runs again after every committed render.  On the freshly
mounted component the completion of the first probe alone, with no 30-second
tick, issues a second probe, whose completion issues a third; and while job
`job-1` is polled, a status reply that only updates the progress issues a probe
too.  No report is displayed in any of these states. -/
theorem C12_probe_on_every_render :
    probeCount World.init.log = 1 ∧
    probeCount (run World.init [.reply .test (.http 200 none) "10:00:00"]).log = 2 ∧
    probeCount (run World.init [.reply .test (.http 200 none) "10:00:00",
      .reply .test (.http 200 none) "10:00:01"]).log = 3 ∧
    (run World.init [.reply .test (.http 200 none) "10:00:00",
      .reply .test (.http 200 none) "10:00:01"]).app.report = .null ∧
    probeCount (run World.init (pollingTrace ++
      [.reply (.status (.str "job-1"))
        (.http 200 (some (statusBody "processing" 40 (.str "Analyzing")))) "10:00:01"])).log
      = probeCount (run World.init pollingTrace).log + 1 ∧
    (run World.init (pollingTrace ++
      [.reply (.status (.str "job-1"))
        (.http 200 (some (statusBody "processing" 40 (.str "Analyzing")))) "10:00:01"])).app.report
      = .null := by
  decide

/-- A drop that carries no file stores `undefined` in the `selectedFile` cell.
On the freshly mounted component, where the cell holds `null`, this is a change:
the component renders again and the health effect sends one more probe.  A
second empty drop stores the same `undefined` and changes nothing. -/
theorem empty_drop_renders_once :
    (run World.init [.drop none]).app.selectedFile = .undefined ∧
    probeCount World.init.log = 1 ∧
    probeCount (run World.init [.drop none]).log = 2 ∧
    probeCount (run World.init [.drop none, .drop none]).log = 2 := by
  decide

/-- Values that compare as identical are equal. -/
theorem JsVal.eq_of_sameValue (a b : JsVal) (h : a.sameValue b = true) : a = b := by
  cases b <;> simp_all [JsVal.sameValue]

/-- A setter call that does not change the committed state leaves it as it is. -/
theorem SetCall.apply_of_no_change (c : SetCall) (s : AppState) (h : c.changes s = false) :
    c.apply s = s := by
  cases c with
  | setSelectedFile v =>
    cases s with
    | mk sel _ _ _ _ _ _ _ _ _ =>
      cases sel <;> cases v <;> simp_all [SetCall.changes, SetCall.apply]
  | setFileId v =>
    have := JsVal.eq_of_sameValue s.fileId v (by simpa [SetCall.changes] using h)
    cases s; simp_all [SetCall.apply]
  | setStatus v =>
    have := JsVal.eq_of_sameValue s.status v (by simpa [SetCall.changes] using h)
    cases s; simp_all [SetCall.apply]
  | setProgress v =>
    have := JsVal.eq_of_sameValue s.progress v (by simpa [SetCall.changes] using h)
    cases s; simp_all [SetCall.apply]
  | setReport v =>
    have := JsVal.eq_of_sameValue s.report v (by simpa [SetCall.changes] using h)
    cases s; simp_all [SetCall.apply]
  | setError v =>
    have := JsVal.eq_of_sameValue s.error v (by simpa [SetCall.changes] using h)
    cases s; simp_all [SetCall.apply]
  | setIsDragging b => cases s; simp_all [SetCall.apply, SetCall.changes]
  | setIsLoading b => cases s; simp_all [SetCall.apply, SetCall.changes]
  | setDarkMode b => cases s; simp_all [SetCall.apply, SetCall.changes]
  | setServerStatus v => simp [SetCall.changes] at h

/-- Setter calls none of which changes the committed state leave it as it is. -/
theorem applySets_of_no_change (sets : List SetCall) (s : AppState)
    (h : sets.any (fun c => c.changes s) = false) : applySets s sets = s := by
  induction sets with
  | nil => rfl
  | cons c cs ih =>
    simp only [List.any_cons, Bool.or_eq_false_iff] at h
    simp only [applySets, List.foldl_cons, SetCall.apply_of_no_change c s h.1]
    exact ih h.2

/-- After a commit the health interval is live exactly when no report is held,
provided this was so before. -/
theorem commit_healthInterval (w : World) (a : Actions)
    (hinv : w.healthInterval = !w.app.report.truthy) :
    (commit w a).healthInterval = !(commit w a).app.report.truthy := by
  rw [commit_app]
  unfold commit
  simp only []
  by_cases hr : a.sets.any (fun c => c.changes w.app) = true
  · simp only [hr, if_true]
    have hh : (healthEffect { w.send a.reqs with app := applySets w.app a.sets }).healthInterval
        = !(applySets w.app a.sets).report.truthy := by
      unfold healthEffect
      split
      · rename_i ht
        simp only [World.send] at ht ⊢
        simp [ht]
      · rename_i ht
        simp only [World.send] at ht ⊢
        simp [ht]
    split
    · simp only [pollEffect]; exact hh
    · exact hh
  · simp only [hr]
    simp only [Bool.not_eq_true] at hr
    rw [applySets_of_no_change a.sets w.app hr]
    simpa [World.send] using hinv

/-- One event keeps the health interval live exactly when no report is held. -/
theorem step_healthInterval (e : Event) (w : World)
    (hinv : w.healthInterval = !w.app.report.truthy) :
    (step e w).healthInterval = !(step e w).app.report.truthy := by
  cases e <;> simp only [step] <;> (try split) <;>
    first
    | exact hinv
    | exact commit_healthInterval _ _ hinv

/-- In every reachable state the health interval is live exactly when no report
is held. -/
theorem run_healthInterval (es : List Event) :
    ∀ w : World, w.healthInterval = (!w.app.report.truthy) →
      (run w es).healthInterval = !(run w es).app.report.truthy := by
  induction es with
  | nil => intro w h; exact h
  | cons e es ih =>
    intro w h
    simp only [run, List.foldl_cons]
    exact ih (step e w) (step_healthInterval e w h)

/-- A commit after which a report is held issues no probe of its own: the log
gains the requests of the handler only. -/
theorem commit_log_of_report (w : World) (a : Actions)
    (h : (commit w a).app.report.truthy = true) :
    (commit w a).log = w.log ++ a.reqs := by
  rw [commit_app] at h
  unfold commit
  simp only []
  have hh : (healthEffect { w.send a.reqs with app := applySets w.app a.sets }).log
      = w.log ++ a.reqs := by
    unfold healthEffect
    simp only [h, if_true, World.send]
  split
  · split
    · simp only [pollEffect]; exact hh
    · exact hh
  · simp [World.send]

/-- The continuations issue no request. -/
theorem resume_reqs (req : Request) (r : Reply) (now : String) :
    (resume req r now).reqs = [] := by
  cases req <;> simp only [resume]
  · cases r <;> rfl
  · unfold handleUpload_resume; split <;> rfl
  · unfold checkStatus_resume; split
    · rfl
    · rfl
    · split <;> rfl
  · unfold handleDownloadResults_resume; split
    · split <;> rfl
    · rfl

/-- While the health interval is off, an event after which a report is held
issues no probe. -/
theorem step_probeCount_of_report (e : Event) (w : World) (hoff : w.healthInterval = false)
    (h : (step e w).app.report.truthy = true) :
    probeCount (step e w).log = probeCount w.log := by
  cases e <;> simp only [step] at h ⊢
  case dragEnter => rw [commit_log_of_report w _ h]; simp [handleDragIn]
  case dragLeave => rw [commit_log_of_report w _ h]; simp [handleDragOut]
  case dragOver => rw [commit_log_of_report w _ h]; simp [handleDrag]
  case drop file =>
    rw [commit_log_of_report w _ h]; unfold handleDrop; split <;> simp
  case fileChange file =>
    rw [commit_log_of_report w _ h]; unfold handleFileChange; split <;> simp
  case clickReset =>
    split
    · rfl
    · rename_i hl
      simp only [hl, if_false] at h
      rw [commit_log_of_report w _ h]; simp [handleReset]
  case clickUpload =>
    split
    · rfl
    · rename_i hl
      simp only [hl, if_false] at h
      rw [commit_log_of_report w _ h]
      unfold handleUpload
      split <;> simp [probeCount]
  case clickDownload =>
    split
    · rename_i hl
      simp only [hl, if_true] at h
      rw [commit_log_of_report w _ h]
      unfold handleDownloadResults
      split <;> simp [probeCount]
    · rfl
  case clickDarkMode => rw [commit_log_of_report w _ h]; simp [toggleDarkMode]
  case pollTick =>
    split
    · rename_i fileId hp
      simp only [hp] at h
      rw [commit_log_of_report w _ h]; simp [checkStatus, probeCount]
    · rfl
  case healthTick => simp [hoff]
  case reply req r now =>
    split
    · rename_i hin
      simp only [hin, if_true] at h
      rw [commit_log_of_report _ _ h, resume_reqs]; simp
    · rfl

/-- C13: in every reachable state in which a report is displayed, the health
interval is not live (so its tick does nothing) and no event after which the
report is still displayed issues a probe; and the Reset button, enabled when not
loading, brings the interval back and issues a probe at once. -/
theorem C13_monitor_suspended_while_report (es : List Event)
    (hshown : (run World.init es).app.report.truthy = true) :
    (run World.init es).healthInterval = false ∧
    step .healthTick (run World.init es) = run World.init es ∧
    (∀ e, (step e (run World.init es)).app.report.truthy = true →
      probeCount (step e (run World.init es)).log = probeCount (run World.init es).log) ∧
    ((run World.init es).app.isLoading = false →
      (step .clickReset (run World.init es)).healthInterval = true ∧
      (step .clickReset (run World.init es)).app.report = .null ∧
      (step .clickReset (run World.init es)).log = (run World.init es).log ++ [.test]) := by
  have hoff : (run World.init es).healthInterval = false := by
    rw [run_healthInterval es World.init (by decide), hshown]; rfl
  refine ⟨hoff, ?_, ?_, ?_⟩
  · simp [step, hoff]
  · intro e he
    exact step_probeCount_of_report e _ hoff he
  · intro hload
    generalize run World.init es = w at hshown hload
    have hne : w.app.report ≠ .null := by
      intro hn; rw [hn] at hshown; simp [JsVal.truthy] at hshown
    have hch : (SetCall.setReport .null).changes w.app = true := by
      cases hr : w.app.report <;> simp_all [SetCall.changes, JsVal.sameValue]
    simp only [step, hload, Bool.false_eq_true, if_false]
    unfold commit
    simp only [handleReset, List.any_cons, hch, Bool.or_true, Bool.true_or, if_true]
    have happ : applySets w.app
        [.setSelectedFile .null, .setFileId .null, .setStatus .null, .setProgress (.num 0),
         .setReport .null, .setError .null, .setIsLoading false] =
        { w.app with selectedFile := .null, fileId := .null, status := .null,
                     progress := .num 0, report := .null, error := .null,
                     isLoading := false } := rfl
    rw [happ]
    split <;>
      simp [pollEffect, healthEffect, World.send, JsVal.truthy, checkServerStatus]

/-- Witness of C13: job `job-1` completed and its report is displayed. -/
theorem C13_monitor_suspended_while_report_witness :
    (run World.init completedTrace).app.report.truthy = true ∧
    ((run World.init completedTrace).healthInterval = false ∧
     step .healthTick (run World.init completedTrace) = run World.init completedTrace ∧
     (∀ e, (step e (run World.init completedTrace)).app.report.truthy = true →
       probeCount (step e (run World.init completedTrace)).log
         = probeCount (run World.init completedTrace).log) ∧
     ((run World.init completedTrace).app.isLoading = false →
       (step .clickReset (run World.init completedTrace)).healthInterval = true ∧
       (step .clickReset (run World.init completedTrace)).app.report = .null ∧
       (step .clickReset (run World.init completedTrace)).log
         = (run World.init completedTrace).log ++ [.test])) :=
  ⟨by decide, C13_monitor_suspended_while_report completedTrace (by decide)⟩

/-! ## Facts about binary64 rounding shared by the proofs below -/

/-- Rounding to the nearest integer does not go below the floor. -/
theorem floor_le_roundHalfEven (q : ℚ) : ⌊q⌋ ≤ roundHalfEven q := by
  unfold roundHalfEven
  split
  · exact le_refl _
  · split
    · omega
    · split <;> omega

/-- Rounding to the nearest integer goes at most one above the floor. -/
theorem roundHalfEven_le_floor_add_one (q : ℚ) : roundHalfEven q ≤ ⌊q⌋ + 1 := by
  unfold roundHalfEven
  split
  · omega
  · split
    · omega
    · split <;> omega

/-- The nearest integer is within one half. -/
theorem roundHalfEven_sub_le (q : ℚ) : |(roundHalfEven q : ℚ) - q| ≤ 1 / 2 := by
  have h1 : (⌊q⌋ : ℚ) ≤ q := Int.floor_le q
  have h2 : q < ⌊q⌋ + 1 := Int.lt_floor_add_one q
  unfold roundHalfEven
  split
  · rename_i h
    rw [abs_le]; constructor <;> linarith
  · rename_i h
    push_neg at h
    split
    · rw [abs_le]; push_cast; constructor <;> linarith
    · rename_i h'
      push_neg at h'
      have he : q - ⌊q⌋ = 1 / 2 := le_antisymm h' h
      split
      · rw [abs_le]; constructor <;> linarith
      · rw [abs_le]; push_cast; constructor <;> linarith

/-- Rounding does not go below an integer lower bound. -/
theorem le_roundHalfEven (k : ℤ) (q : ℚ) (h : (k : ℚ) ≤ q) : k ≤ roundHalfEven q :=
  le_trans (Int.le_floor.mpr h) (floor_le_roundHalfEven q)

/-- Rounding does not go above an integer upper bound. -/
theorem roundHalfEven_le (k : ℤ) (q : ℚ) (h : q ≤ (k : ℚ)) : roundHalfEven q ≤ k := by
  rcases eq_or_lt_of_le h with h | h
  · subst h
    unfold roundHalfEven
    simp
  · have : ⌊q⌋ < k := Int.floor_lt.mpr h
    have := roundHalfEven_le_floor_add_one q
    omega

/-- An integer closer than one half is the nearest integer. -/
theorem roundHalfEven_eq_of_close (n : ℤ) (q : ℚ) (h : |q - n| < 1 / 2) :
    roundHalfEven q = n := by
  have h1 := roundHalfEven_sub_le q
  have h2 : |((roundHalfEven q : ℤ) : ℚ) - (n : ℚ)| < 1 := by
    calc |((roundHalfEven q : ℤ) : ℚ) - (n : ℚ)|
        = |((roundHalfEven q : ℚ) - q) + (q - n)| := by ring_nf
      _ ≤ |(roundHalfEven q : ℚ) - q| + |q - n| := abs_add _ _
      _ < 1 := by linarith
  have h3 : |roundHalfEven q - n| < 1 := by exact_mod_cast h2
  have := abs_lt.mp h3
  omega

/-- The binary exponent of a value between two consecutive powers of two. -/
theorem binade_eq (x : ℚ) (e : ℤ) (he : -1022 ≤ e) (h1 : (2 : ℚ) ^ e ≤ |x|)
    (h2 : |x| < (2 : ℚ) ^ (e + 1)) : binade x = e := by
  have hpos : (0 : ℚ) < |x| := lt_of_lt_of_le (by positivity) h1
  have ha : e ≤ Int.log 2 |x| :=
    (Int.zpow_le_iff_le_log (by norm_num) hpos).mp (by exact_mod_cast h1)
  have hb : Int.log 2 |x| < e + 1 :=
    (Int.lt_zpow_iff_log_lt (by norm_num) hpos).mp (by exact_mod_cast h2)
  unfold binade
  have : Int.log 2 |x| = e := by omega
  rw [this]
  exact max_eq_left he

/-- The rounding of `x`, evaluated: `x` lies in the binade `e` and `n` is the
nearest multiple of its unit. -/
theorem roundDouble_eq (x : ℚ) (e n : ℤ) (he : -1022 ≤ e) (h1 : (2 : ℚ) ^ e ≤ |x|)
    (h2 : |x| < (2 : ℚ) ^ (e + 1)) (hn : |x / 2 ^ (e - 52) - n| < 1 / 2) :
    roundDouble x = n * 2 ^ (e - 52) := by
  unfold roundDouble ulp
  rw [binade_eq x e he h1 h2, roundHalfEven_eq_of_close n _ hn]

/-- The unit of a binade times 2^52 is its lower end. -/
theorem two_pow_52_mul (e : ℤ) : ((2 ^ 52 : ℤ) : ℚ) * 2 ^ (e - 52) = 2 ^ e := by
  rw [zpow_sub₀ (by norm_num : (2 : ℚ) ≠ 0)]
  push_cast
  field_simp
  norm_num
  ring

/-- The unit of a binade times 2^53 is its upper end. -/
theorem two_pow_53_mul (e : ℤ) : ((2 ^ 53 : ℤ) : ℚ) * 2 ^ (e - 52) = 2 ^ (e + 1) := by
  rw [zpow_sub₀ (by norm_num : (2 : ℚ) ≠ 0), zpow_add₀ (by norm_num : (2 : ℚ) ≠ 0)]
  push_cast
  field_simp
  norm_num
  ring

/-- The binade of a positive value bounds it. -/
theorem binade_spec (x : ℚ) (hx : 0 < x) :
    -1022 ≤ binade x ∧ Int.log 2 x ≤ binade x ∧ x < (2 : ℚ) ^ (binade x + 1) ∧
    (Int.log 2 x = binade x → (2 : ℚ) ^ binade x ≤ x) := by
  have habs : |x| = x := abs_of_pos hx
  unfold binade
  rw [habs]
  refine ⟨le_max_right _ _, le_max_left _ _, ?_, ?_⟩
  · have h := Int.lt_zpow_succ_log_self (R := ℚ) (b := 2) (by norm_num) x
    have hle : Int.log 2 x + 1 ≤ max (Int.log 2 x) (-1022) + 1 := by
      have := le_max_left (Int.log 2 x) (-1022)
      omega
    calc x < ((2 : ℕ) : ℚ) ^ (Int.log 2 x + 1) := h
      _ = (2 : ℚ) ^ (Int.log 2 x + 1) := by norm_num
      _ ≤ (2 : ℚ) ^ (max (Int.log 2 x) (-1022) + 1) := zpow_le_zpow_right₀ (by norm_num) hle
  · intro h
    rw [← h]
    have := Int.zpow_log_le_self (R := ℚ) (b := 2) (by norm_num) hx
    simpa using this

/-- Rounding does not go below 1. -/
theorem one_le_roundDouble (x : ℚ) (hx : 1 ≤ x) : 1 ≤ roundDouble x := by
  have hpos : 0 < x := by linarith
  obtain ⟨h1, h2, h3, h4⟩ := binade_spec x hpos
  have hlog : 0 ≤ Int.log 2 x :=
    (Int.zpow_le_iff_le_log (R := ℚ) (b := 2) (by norm_num) hpos).mp (by simpa using hx)
  have heq : Int.log 2 x = binade x := by
    unfold binade; rw [abs_of_pos hpos]
    exact (max_eq_left (by omega)).symm
  have hle := h4 heq
  have he : 0 ≤ binade x := by omega
  unfold roundDouble ulp
  have hu : (0 : ℚ) < 2 ^ (binade x - 52) := by positivity
  have hq : ((2 ^ 52 : ℤ) : ℚ) ≤ x / 2 ^ (binade x - 52) := by
    rw [le_div_iff₀ hu]
    rw [two_pow_52_mul]; exact hle
  have hr := le_roundHalfEven _ _ hq
  have hr2 : ((2 ^ 52 : ℤ) : ℚ) ≤ (roundHalfEven (x / 2 ^ (binade x - 52)) : ℚ) := by
    exact_mod_cast hr
  have h1e : (1 : ℚ) ≤ 2 ^ binade x := one_le_zpow₀ (by norm_num) he
  calc (1 : ℚ) ≤ 2 ^ binade x := h1e
    _ = ((2 ^ 52 : ℤ) : ℚ) * 2 ^ (binade x - 52) := (two_pow_52_mul _).symm
    _ ≤ roundHalfEven (x / 2 ^ (binade x - 52)) * 2 ^ (binade x - 52) :=
      mul_le_mul_of_nonneg_right hr2 (le_of_lt hu)

/-- Rounding a positive value that is at most 3 does not exceed 3. -/
theorem roundDouble_le_three (x : ℚ) (hpos : 0 < x) (hx : x ≤ 3) : roundDouble x ≤ 3 := by
  obtain ⟨h1, h2, h3, h4⟩ := binade_spec x hpos
  have hlog : Int.log 2 x < 2 :=
    (Int.lt_zpow_iff_log_lt (R := ℚ) (b := 2) (by norm_num) hpos).mp (by norm_num; linarith)
  have hb : binade x ≤ 1 := by
    unfold binade; rw [abs_of_pos hpos]
    exact max_le (by omega) (by norm_num)
  unfold roundDouble ulp
  have hu : (0 : ℚ) < 2 ^ (binade x - 52) := by positivity
  rcases lt_or_eq_of_le hb with hlt | heq
  · have he0 : binade x ≤ 0 := by omega
    have hq : x / 2 ^ (binade x - 52) ≤ ((2 ^ 53 : ℤ) : ℚ) := by
      rw [div_le_iff₀ hu]
      rw [two_pow_53_mul]; exact le_of_lt h3
    have hr := roundHalfEven_le _ _ hq
    have hr2 : (roundHalfEven (x / 2 ^ (binade x - 52)) : ℚ) ≤ ((2 ^ 53 : ℤ) : ℚ) := by
      exact_mod_cast hr
    calc (roundHalfEven (x / 2 ^ (binade x - 52)) : ℚ) * 2 ^ (binade x - 52)
        ≤ ((2 ^ 53 : ℤ) : ℚ) * 2 ^ (binade x - 52) :=
          mul_le_mul_of_nonneg_right hr2 (le_of_lt hu)
      _ = 2 ^ (binade x + 1) := two_pow_53_mul _
      _ ≤ 2 ^ (1 : ℤ) := zpow_le_zpow_right₀ (by norm_num) (by omega)
      _ ≤ 3 := by norm_num
  · rw [heq]
    have hq : x / 2 ^ ((1 : ℤ) - 52) ≤ ((3 * 2 ^ 51 : ℤ) : ℚ) := by
      rw [div_le_iff₀ (by positivity)]
      have : ((3 * 2 ^ 51 : ℤ) : ℚ) * 2 ^ ((1 : ℤ) - 52) = 3 := by norm_num
      rw [this]; exact hx
    have hr := roundHalfEven_le _ _ hq
    have hr2 : (roundHalfEven (x / 2 ^ ((1 : ℤ) - 52)) : ℚ) ≤ ((3 * 2 ^ 51 : ℤ) : ℚ) := by
      exact_mod_cast hr
    calc (roundHalfEven (x / 2 ^ ((1 : ℤ) - 52)) : ℚ) * 2 ^ ((1 : ℤ) - 52)
        ≤ ((3 * 2 ^ 51 : ℤ) : ℚ) * 2 ^ ((1 : ℤ) - 52) :=
          mul_le_mul_of_nonneg_right hr2 (by positivity)
      _ = 3 := by norm_num

/-- Below 4 the rounding error of a positive value is at most 2^-52. -/
theorem roundDouble_error (x : ℚ) (hpos : 0 < x) (h4 : x < 4) :
    |roundDouble x - x| ≤ 1 / 2 ^ 52 := by
  have hlog : Int.log 2 x < 2 :=
    (Int.lt_zpow_iff_log_lt (R := ℚ) (b := 2) (by norm_num) hpos).mp (by norm_num; linarith)
  have hb : binade x ≤ 1 := by
    unfold binade; rw [abs_of_pos hpos]
    exact max_le (by omega) (by norm_num)
  unfold roundDouble ulp
  have hu : (0 : ℚ) < 2 ^ (binade x - 52) := by positivity
  have hu2 : (2 : ℚ) ^ (binade x - 52) ≤ 2 ^ ((1 : ℤ) - 52) :=
    zpow_le_zpow_right₀ (by norm_num) (by omega)
  have hr := roundHalfEven_sub_le (x / 2 ^ (binade x - 52))
  have hrew : (roundHalfEven (x / 2 ^ (binade x - 52)) : ℚ) * 2 ^ (binade x - 52) - x
      = ((roundHalfEven (x / 2 ^ (binade x - 52)) : ℚ) - x / 2 ^ (binade x - 52))
          * 2 ^ (binade x - 52) := by
    field_simp
  rw [hrew, abs_mul, abs_of_pos hu]
  calc |(roundHalfEven (x / 2 ^ (binade x - 52)) : ℚ) - x / 2 ^ (binade x - 52)|
          * 2 ^ (binade x - 52)
      ≤ (1 / 2) * 2 ^ ((1 : ℤ) - 52) :=
        mul_le_mul hr hu2 (le_of_lt hu) (by norm_num)
    _ = 1 / 2 ^ 52 := by norm_num

/-- The literal `0.1` denotes the binary64 value nearest to one tenth. -/
theorem jsTenth_eq : roundDouble (1 / 10) = jsTenth := by
  rw [roundDouble_eq _ (-4) 7205759403792794 (by norm_num) (by norm_num [abs_of_pos])
    (by norm_num [abs_of_pos]) (by norm_num [abs_lt])]
  norm_num [jsTenth]

/-! ## Facts about the image viewer shared by the proofs below -/

@[simp]
theorem settle_zoomLevel (fresh : Bool) (old new : Viewer) :
    (settle fresh old new).zoomLevel = new.zoomLevel := by
  unfold settle Viewer.render; split <;> rfl

@[simp]
theorem settle_rotation (fresh : Bool) (old new : Viewer) :
    (settle fresh old new).rotation = new.rotation := by
  unfold settle Viewer.render; split <;> rfl

@[simp]
theorem settle_mounted (fresh : Bool) (old new : Viewer) :
    (settle fresh old new).mounted = new.mounted := by
  unfold settle Viewer.render; split <;> rfl

@[simp]
theorem settle_translatePos (fresh : Bool) (old new : Viewer) :
    (settle fresh old new).translatePos = new.translatePos := by
  unfold settle Viewer.render; split <;> rfl

@[simp]
theorem settle_isDragging (fresh : Bool) (old new : Viewer) :
    (settle fresh old new).isDragging = new.isDragging := by
  unfold settle Viewer.render; split <;> rfl

@[simp]
theorem settle_frameCommits (fresh : Bool) (old new : Viewer) :
    (settle fresh old new).frameCommits = new.frameCommits := by
  unfold settle Viewer.render; split <;> rfl

/-- Frame callbacks touch neither the zoom nor the rotation. -/
theorem foldl_frameCallback_zoom_rotation (ids : List Nat) :
    ∀ v : Viewer, (ids.foldl frameCallback v).zoomLevel = v.zoomLevel ∧
      (ids.foldl frameCallback v).rotation = v.rotation := by
  induction ids with
  | nil => intro v; exact ⟨rfl, rfl⟩
  | cons id ids ih =>
    intro v
    simp only [List.foldl_cons]
    obtain ⟨h1, h2⟩ := ih (frameCallback v id)
    rw [h1, h2]
    unfold frameCallback
    simp only []
    split <;> exact ⟨rfl, rfl⟩

/-- The zoom after one event: unchanged, stepped in, stepped out, or 1. -/
theorem stepViewer_zoomLevel (e : ViewerEvent) (v : Viewer) :
    (stepViewer e v).zoomLevel = v.zoomLevel ∨
    (stepViewer e v).zoomLevel = min (jsAdd v.zoomLevel jsTenth) 3 ∨
    (stepViewer e v).zoomLevel = max (jsSub v.zoomLevel jsTenth) 1 ∨
    (stepViewer e v).zoomLevel = 1 := by
  unfold stepViewer
  split
  · exact Or.inl rfl
  · cases e <;> simp only [settle_zoomLevel]
    case mouseDown x y => exact Or.inl rfl
    case mouseUp => left; unfold stopDragging; split <;> rfl
    case mouseMove x y =>
      left; unfold handleDragging; split
      · rfl
      · simp only []; split <;> rfl
    case frame =>
      left; unfold runFrame; rw [settle_zoomLevel]
      exact (foldl_frameCallback_zoom_rotation _ _).1
    case clickZoomIn => right; left; rfl
    case clickZoomOut => right; right; left; rfl
    case clickRotate => exact Or.inl rfl
    case clickFullScreen => exact Or.inl rfl
    case clickDownload => exact Or.inl rfl
    case clickClose => exact Or.inl rfl
    case keyDown key =>
      unfold handleKeyPress
      split_ifs
      · exact Or.inl rfl
      · right; left; rfl
      · right; right; left; rfl
      · right; right; right; rfl
      · exact Or.inl rfl
      · exact Or.inl rfl
      · exact Or.inl rfl
    case fullscreenSettled ok =>
      left; unfold toggleFullScreen_resume; split
      · rfl
      · split <;> rfl
    case downloadSettled ok =>
      left; unfold handleDownload_resume; split_ifs <;> rfl
    case alertTimeout => left; unfold dismissAlert; split <;> rfl
    case parentRender => exact Or.inl rfl

theorem jsTenth_pos : 0 < jsTenth := by norm_num [jsTenth]

theorem jsTenth_lt_one : jsTenth < 1 := by norm_num [jsTenth]

/-- One event keeps the zoom between 1 and 3. -/
theorem stepViewer_zoom_bounds (e : ViewerEvent) (v : Viewer)
    (h : 1 ≤ v.zoomLevel ∧ v.zoomLevel ≤ 3) :
    1 ≤ (stepViewer e v).zoomLevel ∧ (stepViewer e v).zoomLevel ≤ 3 := by
  have ht := jsTenth_pos
  have ht1 := jsTenth_lt_one
  rcases stepViewer_zoomLevel e v with h1 | h1 | h1 | h1 <;> rw [h1]
  · exact h
  · refine ⟨le_min (one_le_roundDouble _ (by linarith)) (by norm_num), min_le_right _ _⟩
  · refine ⟨le_max_right _ _, max_le (roundDouble_le_three _ (by linarith) (by linarith))
      (by norm_num)⟩
  · norm_num

/-- C14: starting from a freshly opened viewer (zoom 1), after every finite
sequence of events, and so after every finite sequence of zoomIn, zoomOut and
reset calls, made through the buttons or the keys, the zoom lies in [1, 3]. -/
theorem C14_zoom_within_bounds (es : List ViewerEvent) :
    1 ≤ (runViewer Viewer.init es).zoomLevel ∧ (runViewer Viewer.init es).zoomLevel ≤ 3 := by
  have key : ∀ (l : List ViewerEvent) (v : Viewer), (1 ≤ v.zoomLevel ∧ v.zoomLevel ≤ 3) →
      (1 ≤ (runViewer v l).zoomLevel ∧ (runViewer v l).zoomLevel ≤ 3) := by
    intro l
    induction l with
    | nil => intro v h; exact h
    | cons e l ih =>
      intro v h
      simp only [runViewer, List.foldl_cons]
      exact ih _ (stepViewer_zoom_bounds e v h)
  exact key es Viewer.init (by norm_num [Viewer.init])

/-- One `handleZoomIn` below the cap, evaluated: the sum lies in the binade `e`
and `n` is the nearest multiple of its unit. -/
theorem zoomIn_eval (z r : ℚ) (e n : ℤ) (he : -1022 ≤ e)
    (h1 : (2 : ℚ) ^ e ≤ |z + jsTenth|) (h2 : |z + jsTenth| < (2 : ℚ) ^ (e + 1))
    (hn : |(z + jsTenth) / 2 ^ (e - 52) - n| < 1 / 2) (hr : (n : ℚ) * 2 ^ (e - 52) = r)
    (hr3 : r ≤ 3) : min (jsAdd z jsTenth) 3 = r := by
  unfold jsAdd
  rw [roundDouble_eq _ e n he h1 h2 hn, hr]
  exact min_eq_left hr3

/-- Events run one after the other. -/
theorem runViewer_snoc (v : Viewer) (es : List ViewerEvent) (e : ViewerEvent) :
    runViewer v (es ++ [e]) = stepViewer e (runViewer v es) := by
  simp [runViewer, List.foldl_append]

/-- Sequences of events run one after the other. -/
theorem runViewer_append (v : Viewer) (es1 es2 : List ViewerEvent) :
    runViewer v (es1 ++ es2) = runViewer (runViewer v es1) es2 := by
  simp [runViewer, List.foldl_append]

/-- A click on the zoom-in button of the mounted modal. -/
theorem stepViewer_clickZoomIn (v : Viewer) (h : v.mounted = true) :
    stepViewer .clickZoomIn v = settle false v (handleZoomIn v) := by
  simp [stepViewer, h]

/-- Clicks on the zoom-in button leave the modal mounted. -/
theorem zoomInClicks_mounted (n : Nat) :
    (runViewer Viewer.init (List.replicate n .clickZoomIn)).mounted = true := by
  induction n with
  | zero => rfl
  | succ k ih =>
    rw [List.replicate_succ', runViewer_snoc, stepViewer_clickZoomIn _ ih, settle_mounted]
    exact ih

/-- The zoom after one more click on the zoom-in button of a freshly opened
viewer. -/
theorem zoomInClicks_succ (n : Nat) :
    (runViewer Viewer.init (List.replicate (n + 1) .clickZoomIn)).zoomLevel
      = min (jsAdd (runViewer Viewer.init (List.replicate n .clickZoomIn)).zoomLevel jsTenth)
          3 := by
  rw [List.replicate_succ', runViewer_snoc, stepViewer_clickZoomIn _ (zoomInClicks_mounted n),
    settle_zoomLevel]
  rfl

theorem zoomInClicks_1 :
    (runViewer Viewer.init (List.replicate 1 .clickZoomIn)).zoomLevel
      = 2476979795053773 / 2251799813685248 := by
  rw [zoomInClicks_succ, show (runViewer Viewer.init (List.replicate 0 .clickZoomIn)).zoomLevel = 1 from rfl]
  exact zoomIn_eval _ _ 0 4953959590107546 (by norm_num) (by norm_num [jsTenth, abs_of_pos])
    (by norm_num [jsTenth, abs_of_pos]) (by norm_num [jsTenth, abs_lt]) (by norm_num)
    (by norm_num)

theorem zoomInClicks_2 :
    (runViewer Viewer.init (List.replicate 2 .clickZoomIn)).zoomLevel
      = 1351079888211149 / 1125899906842624 := by
  rw [zoomInClicks_succ, zoomInClicks_1]
  exact zoomIn_eval _ _ 0 5404319552844596 (by norm_num) (by norm_num [jsTenth, abs_of_pos])
    (by norm_num [jsTenth, abs_of_pos]) (by norm_num [jsTenth, abs_lt]) (by norm_num)
    (by norm_num)

theorem zoomInClicks_3 :
    (runViewer Viewer.init (List.replicate 3 .clickZoomIn)).zoomLevel
      = 2927339757790823 / 2251799813685248 := by
  rw [zoomInClicks_succ, zoomInClicks_2]
  exact zoomIn_eval _ _ 0 5854679515581646 (by norm_num) (by norm_num [jsTenth, abs_of_pos])
    (by norm_num [jsTenth, abs_of_pos]) (by norm_num [jsTenth, abs_lt]) (by norm_num)
    (by norm_num)

theorem zoomInClicks_4 :
    (runViewer Viewer.init (List.replicate 4 .clickZoomIn)).zoomLevel
      = 788129934789837 / 562949953421312 := by
  rw [zoomInClicks_succ, zoomInClicks_3]
  exact zoomIn_eval _ _ 0 6305039478318696 (by norm_num) (by norm_num [jsTenth, abs_of_pos])
    (by norm_num [jsTenth, abs_of_pos]) (by norm_num [jsTenth, abs_lt]) (by norm_num)
    (by norm_num)

theorem zoomInClicks_5 :
    (runViewer Viewer.init (List.replicate 5 .clickZoomIn)).zoomLevel
      = 3377699720527873 / 2251799813685248 := by
  rw [zoomInClicks_succ, zoomInClicks_4]
  exact zoomIn_eval _ _ 0 6755399441055746 (by norm_num) (by norm_num [jsTenth, abs_of_pos])
    (by norm_num [jsTenth, abs_of_pos]) (by norm_num [jsTenth, abs_lt]) (by norm_num)
    (by norm_num)

theorem zoomInClicks_6 :
    (runViewer Viewer.init (List.replicate 6 .clickZoomIn)).zoomLevel
      = 1801439850948199 / 1125899906842624 := by
  rw [zoomInClicks_succ, zoomInClicks_5]
  exact zoomIn_eval _ _ 0 7205759403792796 (by norm_num) (by norm_num [jsTenth, abs_of_pos])
    (by norm_num [jsTenth, abs_of_pos]) (by norm_num [jsTenth, abs_lt]) (by norm_num)
    (by norm_num)

theorem zoomInClicks_7 :
    (runViewer Viewer.init (List.replicate 7 .clickZoomIn)).zoomLevel
      = 3828059683264923 / 2251799813685248 := by
  rw [zoomInClicks_succ, zoomInClicks_6]
  exact zoomIn_eval _ _ 0 7656119366529846 (by norm_num) (by norm_num [jsTenth, abs_of_pos])
    (by norm_num [jsTenth, abs_of_pos]) (by norm_num [jsTenth, abs_lt]) (by norm_num)
    (by norm_num)

theorem zoomInClicks_8 :
    (runViewer Viewer.init (List.replicate 8 .clickZoomIn)).zoomLevel
      = 506654958079181 / 281474976710656 := by
  rw [zoomInClicks_succ, zoomInClicks_7]
  exact zoomIn_eval _ _ 0 8106479329266896 (by norm_num) (by norm_num [jsTenth, abs_of_pos])
    (by norm_num [jsTenth, abs_of_pos]) (by norm_num [jsTenth, abs_lt]) (by norm_num)
    (by norm_num)

theorem zoomInClicks_9 :
    (runViewer Viewer.init (List.replicate 9 .clickZoomIn)).zoomLevel
      = 4278419646001973 / 2251799813685248 := by
  rw [zoomInClicks_succ, zoomInClicks_8]
  exact zoomIn_eval _ _ 0 8556839292003946 (by norm_num) (by norm_num [jsTenth, abs_of_pos])
    (by norm_num [jsTenth, abs_of_pos]) (by norm_num [jsTenth, abs_lt]) (by norm_num)
    (by norm_num)

theorem zoomInClicks_10 :
    (runViewer Viewer.init (List.replicate 10 .clickZoomIn)).zoomLevel
      = 2251799813685249 / 1125899906842624 := by
  rw [zoomInClicks_succ, zoomInClicks_9]
  exact zoomIn_eval _ _ 1 4503599627370498 (by norm_num) (by norm_num [jsTenth, abs_of_pos])
    (by norm_num [jsTenth, abs_of_pos]) (by norm_num [jsTenth, abs_lt]) (by norm_num)
    (by norm_num)

theorem zoomInClicks_11 :
    (runViewer Viewer.init (List.replicate 11 .clickZoomIn)).zoomLevel
      = 4728779608739023 / 2251799813685248 := by
  rw [zoomInClicks_succ, zoomInClicks_10]
  exact zoomIn_eval _ _ 1 4728779608739023 (by norm_num) (by norm_num [jsTenth, abs_of_pos])
    (by norm_num [jsTenth, abs_of_pos]) (by norm_num [jsTenth, abs_lt]) (by norm_num)
    (by norm_num)

/-! ## Viewport Transform Engine -/

/-- C15, counterexample: after one zoom-in on a freshly opened viewer the zoom
is the binary64 value 1.1, between 1 and 2.9; the next zoom-in does not hit the
cap, and the step between the two adjacent values is neither one tenth nor the
binary64 value of `0.1`. -/
theorem C15_counterexample :
    1 ≤ (runViewer Viewer.init [.clickZoomIn]).zoomLevel ∧
    (runViewer Viewer.init [.clickZoomIn]).zoomLevel ≤ 29 / 10 ∧
    (runViewer Viewer.init [.clickZoomIn, .clickZoomIn]).zoomLevel < 3 ∧
    (runViewer Viewer.init [.clickZoomIn, .clickZoomIn]).zoomLevel
      - (runViewer Viewer.init [.clickZoomIn]).zoomLevel ≠ 1 / 10 ∧
    (runViewer Viewer.init [.clickZoomIn, .clickZoomIn]).zoomLevel
      - (runViewer Viewer.init [.clickZoomIn]).zoomLevel ≠ jsTenth := by
  have h1 := zoomInClicks_1
  have h2 := zoomInClicks_2
  simp only [List.replicate] at h1 h2
  rw [h1, h2]
  norm_num [jsTenth]

/-- The binary64 value of `0.1` exceeds one tenth by less than 2^-52. -/
theorem jsTenth_error : 0 ≤ jsTenth - 1 / 10 ∧ jsTenth - 1 / 10 ≤ 1 / 2 ^ 52 := by
  norm_num [jsTenth]

/-- C15, amended: `handleZoomIn` stores min(z + 0.1, 3) and `handleZoomOut`
stores max(z - 0.1, 1), where the sum, the difference and `0.1` are those of
binary64 arithmetic; for a zoom z in [1, 3] the step between adjacent values is
0.1 up to floating-point rounding (within 2^-51 of one tenth), for zoom-in when
z <= 2.9 and for zoom-out when z >= 1.1; neither operation changes the translate
or the dragging flag. -/
theorem C15_zoom_step (v : Viewer) (h1 : 1 ≤ v.zoomLevel) (h3 : v.zoomLevel ≤ 3) :
    (handleZoomIn v).zoomLevel = min (jsAdd v.zoomLevel jsTenth) 3 ∧
    (handleZoomOut v).zoomLevel = max (jsSub v.zoomLevel jsTenth) 1 ∧
    (v.zoomLevel ≤ 29 / 10 →
      |(handleZoomIn v).zoomLevel - v.zoomLevel - 1 / 10| ≤ 1 / 2 ^ 51) ∧
    (11 / 10 ≤ v.zoomLevel →
      |v.zoomLevel - (handleZoomOut v).zoomLevel - 1 / 10| ≤ 1 / 2 ^ 51) ∧
    (handleZoomIn v).translatePos = v.translatePos ∧
    (handleZoomIn v).isDragging = v.isDragging ∧
    (handleZoomOut v).translatePos = v.translatePos ∧
    (handleZoomOut v).isDragging = v.isDragging := by
  obtain ⟨ht0, ht1⟩ := jsTenth_error
  have hp : (1 : ℚ) / 2 ^ 52 + 1 / 2 ^ 52 = 1 / 2 ^ 51 := by norm_num
  refine ⟨rfl, rfl, ?_, ?_, rfl, rfl, rfl, rfl⟩
  · intro h29
    have herr := roundDouble_error (v.zoomLevel + jsTenth) (by linarith) (by linarith)
    obtain ⟨e1, e2⟩ := abs_le.mp herr
    show |min (jsAdd v.zoomLevel jsTenth) 3 - v.zoomLevel - 1 / 10| ≤ 1 / 2 ^ 51
    unfold jsAdd
    rw [abs_le]
    rcases le_total (roundDouble (v.zoomLevel + jsTenth)) 3 with hc | hc
    · rw [min_eq_left hc]; constructor <;> linarith
    · rw [min_eq_right hc]; constructor <;> linarith
  · intro h11
    have herr := roundDouble_error (v.zoomLevel - jsTenth) (by linarith) (by linarith)
    obtain ⟨e1, e2⟩ := abs_le.mp herr
    show |v.zoomLevel - max (jsSub v.zoomLevel jsTenth) 1 - 1 / 10| ≤ 1 / 2 ^ 51
    unfold jsSub
    rw [abs_le]
    rcases le_total (roundDouble (v.zoomLevel - jsTenth)) 1 with hc | hc
    · rw [max_eq_right hc]; constructor <;> linarith
    · rw [max_eq_left hc]; constructor <;> linarith

/-- Witness of amended C15 at the freshly opened viewer. -/
theorem C15_zoom_step_witness :
    1 ≤ Viewer.init.zoomLevel ∧ Viewer.init.zoomLevel ≤ 3 ∧
    ((handleZoomIn Viewer.init).zoomLevel = min (jsAdd Viewer.init.zoomLevel jsTenth) 3 ∧
     (handleZoomOut Viewer.init).zoomLevel = max (jsSub Viewer.init.zoomLevel jsTenth) 1 ∧
     (Viewer.init.zoomLevel ≤ 29 / 10 →
       |(handleZoomIn Viewer.init).zoomLevel - Viewer.init.zoomLevel - 1 / 10| ≤ 1 / 2 ^ 51) ∧
     (11 / 10 ≤ Viewer.init.zoomLevel →
       |Viewer.init.zoomLevel - (handleZoomOut Viewer.init).zoomLevel - 1 / 10| ≤ 1 / 2 ^ 51) ∧
     (handleZoomIn Viewer.init).translatePos = Viewer.init.translatePos ∧
     (handleZoomIn Viewer.init).isDragging = Viewer.init.isDragging ∧
     (handleZoomOut Viewer.init).translatePos = Viewer.init.translatePos ∧
     (handleZoomOut Viewer.init).isDragging = Viewer.init.isDragging) :=
  ⟨by norm_num [Viewer.init], by norm_num [Viewer.init],
   C15_zoom_step Viewer.init (by norm_num [Viewer.init]) (by norm_num [Viewer.init])⟩

/-- C16, counterexample: eleven zoom-in calls on a freshly opened viewer do not
leave the zoom at 2. -/
theorem C16_counterexample :
    (runViewer Viewer.init (List.replicate 11 .clickZoomIn)).zoomLevel ≠ 2 := by
  rw [zoomInClicks_11]
  norm_num

/-- C16, amended: eleven zoom-in calls on a freshly opened viewer leave the zoom
at 2.1 up to floating-point rounding: the binary64 value 2.100000000000001,
within 10^-15 of 2.1; ten calls leave it at 2.000000000000001, within 10^-15 of
2. -/
theorem C16_eleven_zoom_in :
    (runViewer Viewer.init (List.replicate 11 .clickZoomIn)).zoomLevel
      = 4728779608739023 / 2251799813685248 ∧
    |(runViewer Viewer.init (List.replicate 11 .clickZoomIn)).zoomLevel - 21 / 10|
      ≤ 1 / 10 ^ 15 ∧
    (runViewer Viewer.init (List.replicate 10 .clickZoomIn)).zoomLevel
      = 2251799813685249 / 1125899906842624 ∧
    |(runViewer Viewer.init (List.replicate 10 .clickZoomIn)).zoomLevel - 2| ≤ 1 / 10 ^ 15 := by
  rw [zoomInClicks_11, zoomInClicks_10]
  refine ⟨rfl, ?_, rfl, ?_⟩ <;> rw [abs_le] <;> constructor <;> norm_num

/-- The rotation after one event: unchanged, or advanced by a quarter turn. -/
theorem stepViewer_rotation (e : ViewerEvent) (v : Viewer) :
    (stepViewer e v).rotation = v.rotation ∨
    (stepViewer e v).rotation = (v.rotation + 90) % 360 := by
  unfold stepViewer
  split
  · exact Or.inl rfl
  · cases e <;> simp only [settle_rotation]
    case mouseDown x y => exact Or.inl rfl
    case mouseUp => left; unfold stopDragging; split <;> rfl
    case mouseMove x y =>
      left; unfold handleDragging; split
      · rfl
      · simp only []; split <;> rfl
    case frame =>
      left; unfold runFrame; rw [settle_rotation]
      exact (foldl_frameCallback_zoom_rotation _ _).2
    case clickZoomIn => exact Or.inl rfl
    case clickZoomOut => exact Or.inl rfl
    case clickRotate => exact Or.inr rfl
    case clickFullScreen => exact Or.inl rfl
    case clickDownload => exact Or.inl rfl
    case clickClose => exact Or.inl rfl
    case keyDown key =>
      unfold handleKeyPress
      split_ifs
      · exact Or.inl rfl
      · exact Or.inl rfl
      · exact Or.inl rfl
      · exact Or.inl rfl
      · exact Or.inr rfl
      · exact Or.inl rfl
      · exact Or.inl rfl
    case fullscreenSettled ok =>
      left; unfold toggleFullScreen_resume; split
      · rfl
      · split <;> rfl
    case downloadSettled ok =>
      left; unfold handleDownload_resume; split_ifs <;> rfl
    case alertTimeout => left; unfold dismissAlert; split <;> rfl
    case parentRender => exact Or.inl rfl

/-- In every reachable state the rotation is a multiple of a quarter turn. -/
theorem runViewer_rotation (es : List ViewerEvent) :
    ∀ v : Viewer, (v.rotation = 0 ∨ v.rotation = 90 ∨ v.rotation = 180 ∨ v.rotation = 270) →
      ((runViewer v es).rotation = 0 ∨ (runViewer v es).rotation = 90 ∨
       (runViewer v es).rotation = 180 ∨ (runViewer v es).rotation = 270) := by
  induction es with
  | nil => intro v h; exact h
  | cons e es ih =>
    intro v h
    simp only [runViewer, List.foldl_cons]
    apply ih
    rcases stepViewer_rotation e v with h1 | h1 <;> rw [h1]
    · exact h
    · rcases h with h | h | h | h <;> rw [h] <;> simp

/-- A click on the rotate button: a quarter turn on the mounted modal, nothing
on an unmounted one; the modal stays as mounted as it was. -/
theorem stepViewer_clickRotate (v : Viewer) :
    (stepViewer .clickRotate v).rotation
      = (if v.mounted then (v.rotation + 90) % 360 else v.rotation) ∧
    (stepViewer .clickRotate v).mounted = v.mounted := by
  unfold stepViewer
  cases hm : v.mounted <;> simp [handleRotate, hm]

/-- C17: starting from rotation 0, after every finite sequence of events, and so
after every finite sequence of rotate calls, the rotation is 0, 90, 180 or 270;
`handleRotate` maps the rotation r to (r + 90) mod 360; and four consecutive
rotate calls in a reachable state bring the rotation back to what it was. -/
theorem C17_rotation_invariant (es : List ViewerEvent) (v : Viewer) :
    ((runViewer Viewer.init es).rotation = 0 ∨ (runViewer Viewer.init es).rotation = 90 ∨
     (runViewer Viewer.init es).rotation = 180 ∨ (runViewer Viewer.init es).rotation = 270) ∧
    (handleRotate v).rotation = (v.rotation + 90) % 360 ∧
    (runViewer (runViewer Viewer.init es)
      [.clickRotate, .clickRotate, .clickRotate, .clickRotate]).rotation
      = (runViewer Viewer.init es).rotation := by
  have hinv := runViewer_rotation es Viewer.init (Or.inl rfl)
  refine ⟨hinv, rfl, ?_⟩
  generalize runViewer Viewer.init es = w at hinv
  simp only [runViewer, List.foldl_cons, List.foldl_nil]
  obtain ⟨r1, m1⟩ := stepViewer_clickRotate w
  obtain ⟨r2, m2⟩ := stepViewer_clickRotate (stepViewer .clickRotate w)
  obtain ⟨r3, m3⟩ := stepViewer_clickRotate (stepViewer .clickRotate (stepViewer .clickRotate w))
  obtain ⟨r4, _⟩ := stepViewer_clickRotate
    (stepViewer .clickRotate (stepViewer .clickRotate (stepViewer .clickRotate w)))
  rw [r4, m3, m2, m1, r3, m2, m1, r2, m1, r1]
  cases hm : w.mounted
  · simp
  · rcases hinv with h | h | h | h <;> simp [h]

/-- The state after pointer moves that follow a frame boundary while dragging:
the first move requests the frame callback, and every move stores its offset in
`currentTranslateRef`; no state cell changes. -/
theorem runViewer_moves (v : Viewer) (hm : v.mounted = true) (hd : v.isDragging = true)
    (hid : v.animationFrameId = none) (hq : v.frameCallbacks = [])
    (ps : List (Int × Int)) :
    ∀ p : Int × Int,
      runViewer v ((ps ++ [p]).map (fun q => ViewerEvent.mouseMove q.1 q.2))
        = { v with currentTranslateRef := ⟨p.1 - v.dragStartRef.x, p.2 - v.dragStartRef.y⟩,
                   animationFrameId := some v.nextFrameId,
                   frameCallbacks := [v.nextFrameId],
                   nextFrameId := v.nextFrameId + 1 } := by
  induction ps using List.reverseRecOn with
  | nil =>
    intro p
    simp [runViewer, stepViewer, hm, handleDragging, hd, hid, hq, settle, Viewer.sameCells]
  | append_singleton qs q ih =>
    intro p
    rw [List.map_append, runViewer_append, ih q]
    simp [runViewer, stepViewer, hm, handleDragging, hd, settle, Viewer.sameCells]

/-- Pointer moves with no render between them coalesce: while dragging, with no
frame callback pending, for every N >= 1 pointer moves delivered before the next
frame, no translate is committed before the frame, the frame commits exactly one
translate update, and the committed translate is the one computed from the
position of the last move. -/
theorem moves_coalesce_without_render (v : Viewer) (ps : List (Int × Int)) (p : Int × Int)
    (hm : v.mounted = true) (hd : v.isDragging = true)
    (hid : v.animationFrameId = none) (hq : v.frameCallbacks = []) :
    (runViewer v ((ps ++ [p]).map (fun q => ViewerEvent.mouseMove q.1 q.2))).frameCommits
      = v.frameCommits ∧
    (runViewer v ((ps ++ [p]).map (fun q => ViewerEvent.mouseMove q.1 q.2))).translatePos
      = v.translatePos ∧
    (runViewer v ((ps ++ [p]).map (fun q => ViewerEvent.mouseMove q.1 q.2)
      ++ [.frame])).frameCommits = v.frameCommits + 1 ∧
    (runViewer v ((ps ++ [p]).map (fun q => ViewerEvent.mouseMove q.1 q.2)
      ++ [.frame])).translatePos = ⟨p.1 - v.dragStartRef.x, p.2 - v.dragStartRef.y⟩ ∧
    (runViewer v ((ps ++ [p]).map (fun q => ViewerEvent.mouseMove q.1 q.2)
      ++ [.frame])).frameCallbacks = [] := by
  rw [runViewer_snoc, runViewer_moves v hm hd hid hq ps p]
  refine ⟨rfl, rfl, ?_, ?_, ?_⟩ <;>
    simp [stepViewer, hm, runFrame, frameCallback, settle, Viewer.render]

/-- The same at three pointer moves after the drag began at the origin. -/
theorem moves_coalesce_without_render_example :
    (runViewer draggingViewer
        ((sampleMoves ++ [lastMove]).map (fun q => ViewerEvent.mouseMove q.1 q.2)
          ++ [.frame])).frameCommits = draggingViewer.frameCommits + 1 ∧
    (runViewer draggingViewer
        ((sampleMoves ++ [lastMove]).map (fun q => ViewerEvent.mouseMove q.1 q.2)
          ++ [.frame])).translatePos
      = ⟨lastMove.1 - draggingViewer.dragStartRef.x,
         lastMove.2 - draggingViewer.dragStartRef.y⟩ :=
  have h := moves_coalesce_without_render draggingViewer sampleMoves lastMove
    (by decide) (by decide) (by decide) (by decide)
  ⟨h.2.2.1, h.2.2.2.1⟩

/-- C18 (the code departs from the claim): the guard `if (!animationFrameId)` of
`handleDragging` reads the `let` of the current render, so a render between two
pointer moves of one frame makes the second move request a second callback.  A
drag from the origin, a move to (10, 5), the key `r` (a rotation, which
renders), a move to (20, 10): two callbacks are pending, and the frame makes two
translate updates, both with the last position.  The same happens when the
parent renders the modal between the two moves.  Without the render the two
moves share one callback and the frame makes one update. -/
theorem C18_render_splits_coalescing :
    (runViewer Viewer.init [.mouseDown 0 0, .mouseMove 10 5, .keyDown "r",
      .mouseMove 20 10]).isDragging = true ∧
    (runViewer Viewer.init [.mouseDown 0 0, .mouseMove 10 5, .keyDown "r",
      .mouseMove 20 10]).frameCallbacks = [1, 2] ∧
    (runViewer Viewer.init [.mouseDown 0 0, .mouseMove 10 5, .keyDown "r",
      .mouseMove 20 10]).frameCommits = 0 ∧
    (runViewer Viewer.init [.mouseDown 0 0, .mouseMove 10 5, .keyDown "r",
      .mouseMove 20 10, .frame]).frameCommits = 2 ∧
    (runViewer Viewer.init [.mouseDown 0 0, .mouseMove 10 5, .keyDown "r",
      .mouseMove 20 10, .frame]).translatePos = ⟨20, 10⟩ ∧
    (runViewer Viewer.init [.mouseDown 0 0, .mouseMove 10 5, .parentRender,
      .mouseMove 20 10, .frame]).frameCommits = 2 ∧
    (runViewer Viewer.init [.mouseDown 0 0, .mouseMove 10 5,
      .mouseMove 20 10]).frameCallbacks = [1] ∧
    (runViewer Viewer.init [.mouseDown 0 0, .mouseMove 10 5,
      .mouseMove 20 10, .frame]).frameCommits = 1 ∧
    (runViewer Viewer.init [.mouseDown 0 0, .mouseMove 10 5,
      .mouseMove 20 10, .frame]).translatePos = ⟨20, 10⟩ := by
  decide

/-- C19 (the code departs from the claim): the drag origin is taken from
`currentTranslateRef`, which `resetZoom` does not reset and which runs ahead of
the translate when `stopDragging` cancels the pending update.  After a drag to
(50, 20) and a reset the translate is (0, 0), yet a drag that begins and ends at
(100, 100) leaves the translate at (50, 20); the same happens after a drag to
(50, 20) whose update was cancelled by the end of the drag. -/
theorem C19_drag_origin_stale :
    (runViewer Viewer.init [.mouseDown 0 0, .mouseMove 50 20, .frame, .mouseUp,
      .keyDown "0"]).translatePos = ⟨0, 0⟩ ∧
    (runViewer Viewer.init [.mouseDown 0 0, .mouseMove 50 20, .frame, .mouseUp,
      .keyDown "0", .mouseDown 100 100, .mouseMove 100 100, .frame]).translatePos
      = ⟨50, 20⟩ ∧
    (runViewer Viewer.init [.mouseDown 0 0, .mouseMove 50 20, .mouseUp]).translatePos
      = ⟨0, 0⟩ ∧
    (runViewer Viewer.init [.mouseDown 0 0, .mouseMove 50 20, .mouseUp]).frameCallbacks
      = [] ∧
    (runViewer Viewer.init [.mouseDown 0 0, .mouseMove 50 20, .mouseUp,
      .mouseDown 100 100, .mouseMove 100 100, .frame]).translatePos = ⟨50, 20⟩ := by
  decide

/-- C20 (the code departs from the claim): `animationFrameId` is a plain `let`
of the hook body, so a render between the pointer move and the end of the drag
leaves `stopDragging` with a new variable holding `null`, and the pending update
is not cancelled.  A drag to (30, 0), the key `r` (a rotation, which renders),
then the end of the drag: the callback is still pending, and the next frame
commits the translate (30, 0) although the drag has ended.  Without the key the
update is cancelled and nothing is committed; pointer moves after the end of the
drag are ignored in both cases. -/
theorem C20_pending_update_survives_end_drag :
    (runViewer Viewer.init [.mouseDown 0 0, .mouseMove 30 0, .keyDown "r",
      .mouseUp]).isDragging = false ∧
    (runViewer Viewer.init [.mouseDown 0 0, .mouseMove 30 0, .keyDown "r",
      .mouseUp]).frameCallbacks = [1] ∧
    (runViewer Viewer.init [.mouseDown 0 0, .mouseMove 30 0, .keyDown "r",
      .mouseUp]).translatePos = ⟨0, 0⟩ ∧
    (runViewer Viewer.init [.mouseDown 0 0, .mouseMove 30 0, .keyDown "r",
      .mouseUp, .frame]).frameCommits = 1 ∧
    (runViewer Viewer.init [.mouseDown 0 0, .mouseMove 30 0, .keyDown "r",
      .mouseUp, .frame]).translatePos = ⟨30, 0⟩ ∧
    (runViewer Viewer.init [.mouseDown 0 0, .mouseMove 30 0,
      .mouseUp, .frame]).frameCommits = 0 ∧
    (runViewer Viewer.init [.mouseDown 0 0, .mouseMove 30 0,
      .mouseUp, .mouseMove 99 99, .frame]).translatePos = ⟨0, 0⟩ ∧
    (runViewer Viewer.init [.mouseDown 0 0, .mouseMove 30 0, .keyDown "r",
      .mouseUp, .mouseMove 99 99, .frame]).translatePos = ⟨30, 0⟩ := by
  decide

/-! ## Viewer: reset, keyboard and fullscreen -/

@[simp]
theorem settle_errorMessage (fresh : Bool) (old new : Viewer) :
    (settle fresh old new).errorMessage = new.errorMessage := by
  unfold settle Viewer.render; split <;> rfl

@[simp]
theorem settle_isFullScreen (fresh : Bool) (old new : Viewer) :
    (settle fresh old new).isFullScreen = new.isFullScreen := by
  unfold settle Viewer.render; split <;> rfl

@[simp]
theorem settle_fullscreenElement (fresh : Bool) (old new : Viewer) :
    (settle fresh old new).fullscreenElement = new.fullscreenElement := by
  unfold settle Viewer.render; split <;> rfl

/-- The key `0` on the mounted modal runs `resetZoom` and renders. -/
theorem stepViewer_key_zero (v : Viewer) :
    stepViewer (.keyDown "0") v = (if v.mounted then (resetZoom v).render else v) := by
  unfold stepViewer
  cases hm : v.mounted
  · simp
  · simp [handleKeyPress, settle]

/-- The timer of the notice fires on the mounted modal. -/
theorem stepViewer_alertTimeout (w : Viewer) (h : w.mounted = true) :
    stepViewer .alertTimeout w = settle false w (dismissAlert w) := by
  simp [stepViewer, h]

/-- C21: `resetZoom` on any viewer state sets the zoom to 1 and the translate to
(0, 0), leaves the rotation and the dragging flag as they were, and doing it
twice is the same as doing it once, for the handler and for the key `0` that
runs it. -/
theorem C21_reset_zoom (v : Viewer) :
    (resetZoom v).zoomLevel = 1 ∧ (resetZoom v).translatePos = ⟨0, 0⟩ ∧
    (resetZoom v).rotation = v.rotation ∧ (resetZoom v).isDragging = v.isDragging ∧
    resetZoom (resetZoom v) = resetZoom v ∧
    stepViewer (.keyDown "0") v = (if v.mounted then (resetZoom v).render else v) ∧
    stepViewer (.keyDown "0") (stepViewer (.keyDown "0") v) = stepViewer (.keyDown "0") v := by
  refine ⟨rfl, rfl, rfl, rfl, rfl, stepViewer_key_zero v, ?_⟩
  rw [stepViewer_key_zero v]
  cases hm : v.mounted
  · simp [stepViewer_key_zero, hm]
  · simp [stepViewer_key_zero, resetZoom, Viewer.render, hm]

/-- C22 (the code departs from the claim): the key listener is registered once
with the `handleKeyPress` of the first render, whose `toggleFullScreen` reads
the `isFullScreen` of that render, which is false.  The first granted press of
`f` enters fullscreen and sets the flag; the second granted press leaves
fullscreen but sets the flag to true again, so two successful presses do not
restore it.  Two clicks on the fullscreen button, whose handler is that of the
current render, do restore it.  The other keys do what the claim says: `Escape`
closes, `r` rotates, `0` resets, and a key outside the list changes nothing. -/
theorem C22_key_f_does_not_toggle_back :
    (runViewer Viewer.init [.keyDown "f", .fullscreenSettled true]).isFullScreen = true ∧
    (runViewer Viewer.init [.keyDown "f", .fullscreenSettled true]).fullscreenElement = true ∧
    (runViewer Viewer.init [.keyDown "f", .fullscreenSettled true,
      .keyDown "f", .fullscreenSettled true]).fullscreenElement = false ∧
    (runViewer Viewer.init [.keyDown "f", .fullscreenSettled true,
      .keyDown "f", .fullscreenSettled true]).isFullScreen = true ∧
    (runViewer Viewer.init [.clickFullScreen, .fullscreenSettled true,
      .clickFullScreen, .fullscreenSettled true]).isFullScreen = false ∧
    (runViewer Viewer.init [.keyDown "Escape"]).mounted = false ∧
    (runViewer Viewer.init [.keyDown "r"]).rotation = 90 ∧
    runViewer Viewer.init [.keyDown "0"] = Viewer.init ∧
    runViewer Viewer.init [.keyDown "x"] = Viewer.init := by
  decide

/-- C23: when the browser rejects the pending fullscreen request (to enter or to
leave), the notice "Fullscreen mode is not supported in your browser" is set and
the zoom, the translate, the rotation and the fullscreen flag are exactly as
they were; when the timer of the notice fires, the notice is cleared and these
four are still as they were. -/
theorem C23_fullscreen_rejection (v : Viewer) (captured entering : Bool)
    (rest : List (Bool × Bool)) (hm : v.mounted = true)
    (hp : v.fullscreenCalls = (captured, entering) :: rest) :
    (stepViewer (.fullscreenSettled false) v).errorMessage
      = "Fullscreen mode is not supported in your browser" ∧
    (stepViewer (.fullscreenSettled false) v).zoomLevel = v.zoomLevel ∧
    (stepViewer (.fullscreenSettled false) v).translatePos = v.translatePos ∧
    (stepViewer (.fullscreenSettled false) v).rotation = v.rotation ∧
    (stepViewer (.fullscreenSettled false) v).isFullScreen = v.isFullScreen ∧
    (stepViewer .alertTimeout (stepViewer (.fullscreenSettled false) v)).errorMessage = "" ∧
    (stepViewer .alertTimeout (stepViewer (.fullscreenSettled false) v)).zoomLevel
      = v.zoomLevel ∧
    (stepViewer .alertTimeout (stepViewer (.fullscreenSettled false) v)).translatePos
      = v.translatePos ∧
    (stepViewer .alertTimeout (stepViewer (.fullscreenSettled false) v)).rotation
      = v.rotation ∧
    (stepViewer .alertTimeout (stepViewer (.fullscreenSettled false) v)).isFullScreen
      = v.isFullScreen := by
  have h1 : stepViewer (.fullscreenSettled false) v
      = settle false v (toggleFullScreen_resume false v) := by
    simp [stepViewer, hm]
  have hm1 : (stepViewer (.fullscreenSettled false) v).mounted = true := by
    rw [h1, settle_mounted]; simp [toggleFullScreen_resume, hp, hm]
  have he1 : (stepViewer (.fullscreenSettled false) v).errorMessage
      = "Fullscreen mode is not supported in your browser" := by
    rw [h1, settle_errorMessage]; simp [toggleFullScreen_resume, hp]
  have h2 : stepViewer .alertTimeout (stepViewer (.fullscreenSettled false) v)
      = settle false (stepViewer (.fullscreenSettled false) v)
          (dismissAlert (stepViewer (.fullscreenSettled false) v)) := by
    exact stepViewer_alertTimeout _ hm1
  have hz : (stepViewer (.fullscreenSettled false) v).zoomLevel = v.zoomLevel := by
    rw [h1, settle_zoomLevel]; simp [toggleFullScreen_resume, hp]
  have ht : (stepViewer (.fullscreenSettled false) v).translatePos = v.translatePos := by
    rw [h1, settle_translatePos]; simp [toggleFullScreen_resume, hp]
  have hr : (stepViewer (.fullscreenSettled false) v).rotation = v.rotation := by
    rw [h1, settle_rotation]; simp [toggleFullScreen_resume, hp]
  have hf : (stepViewer (.fullscreenSettled false) v).isFullScreen = v.isFullScreen := by
    rw [h1, settle_isFullScreen]; simp [toggleFullScreen_resume, hp]
  refine ⟨he1, hz, ht, hr, hf, ?_, ?_, ?_, ?_, ?_⟩
  · rw [h2, settle_errorMessage]; simp [dismissAlert, he1]
  · rw [h2, settle_zoomLevel, ← hz]; unfold dismissAlert; split <;> rfl
  · rw [h2, settle_translatePos, ← ht]; unfold dismissAlert; split <;> rfl
  · rw [h2, settle_rotation, ← hr]; unfold dismissAlert; split <;> rfl
  · rw [h2, settle_isFullScreen, ← hf]; unfold dismissAlert; split <;> rfl

/-- Witness of C23: the request made by the fullscreen button is rejected. -/
theorem C23_fullscreen_rejection_witness :
    fullscreenPending.mounted = true ∧
    fullscreenPending.fullscreenCalls = (false, true) :: [] ∧
    ((stepViewer (.fullscreenSettled false) fullscreenPending).errorMessage
      = "Fullscreen mode is not supported in your browser" ∧
     (stepViewer (.fullscreenSettled false) fullscreenPending).zoomLevel
      = fullscreenPending.zoomLevel ∧
     (stepViewer (.fullscreenSettled false) fullscreenPending).translatePos
      = fullscreenPending.translatePos ∧
     (stepViewer (.fullscreenSettled false) fullscreenPending).rotation
      = fullscreenPending.rotation ∧
     (stepViewer (.fullscreenSettled false) fullscreenPending).isFullScreen
      = fullscreenPending.isFullScreen ∧
     (stepViewer .alertTimeout
        (stepViewer (.fullscreenSettled false) fullscreenPending)).errorMessage = "" ∧
     (stepViewer .alertTimeout
        (stepViewer (.fullscreenSettled false) fullscreenPending)).zoomLevel
      = fullscreenPending.zoomLevel ∧
     (stepViewer .alertTimeout
        (stepViewer (.fullscreenSettled false) fullscreenPending)).translatePos
      = fullscreenPending.translatePos ∧
     (stepViewer .alertTimeout
        (stepViewer (.fullscreenSettled false) fullscreenPending)).rotation
      = fullscreenPending.rotation ∧
     (stepViewer .alertTimeout
        (stepViewer (.fullscreenSettled false) fullscreenPending)).isFullScreen
      = fullscreenPending.isFullScreen) :=
  ⟨by decide, by decide,
   C23_fullscreen_rejection fullscreenPending false true [] (by decide) (by decide)⟩

/-! ## Report Materializer -/

/-- The names of the exposed sections are the canonical names whose value is
truthy, in canonical order. -/
theorem exposedSections_names (report : JsVal) :
    (exposedSections report).map Prod.fst
      = orderedSections.filter (fun k => (sectionValue report k).truthy) := by
  unfold exposedSections
  induction orderedSections with
  | nil => rfl
  | cons k ks ih =>
    simp only [List.filterMap_cons, List.filter_cons]
    split <;> rename_i h
    · split at h
      · rename_i ht; simp [ht] at h
      · rename_i ht; simp only [ht, Bool.false_eq_true, if_false]; exact ih
    · split at h
      · rename_i ht
        simp only [ht, if_true, List.map_cons]
        cases h
        rw [ih]
      · cases h

/-- An exposed section carries the value read from the report under its name. -/
theorem exposedSections_value (report : JsVal) (p : String × JsVal)
    (h : p ∈ exposedSections report) : p.2 = sectionValue report p.1 := by
  unfold exposedSections at h
  rw [List.mem_filterMap] at h
  obtain ⟨k, _, hk⟩ := h
  split at hk
  · cases hk; rfl
  · cases hk

/-- With distinct keys, a lookup finds a value exactly when the pair is listed. -/
theorem lookup_eq_some_iff_mem (l : List (String × JsVal)) (hnd : (l.map Prod.fst).Nodup)
    (k : String) (v : JsVal) : l.lookup k = some v ↔ (k, v) ∈ l := by
  induction l with
  | nil => simp
  | cons p ps ih =>
    obtain ⟨k1, v1⟩ := p
    simp only [List.map_cons, List.nodup_cons] at hnd
    by_cases hk : k = k1
    · subst hk
      simp only [List.lookup_cons_self, Option.some.injEq, List.mem_cons, Prod.mk.injEq,
        true_and]
      constructor
      · intro h; exact Or.inl h.symm
      · rintro (h | h)
        · exact h.symm
        · exact absurd (List.mem_map_of_mem Prod.fst h) hnd.1
    · have hb : (k == k1) = false := by simpa using hk
      rw [List.lookup_cons, hb, ih hnd.2]
      simp [hk]

/-- With distinct keys, reordering the fields of an object changes no lookup. -/
theorem lookup_perm (l1 l2 : List (String × JsVal)) (hp : l1.Perm l2)
    (hnd : (l1.map Prod.fst).Nodup) (k : String) : l1.lookup k = l2.lookup k := by
  have hnd2 : (l2.map Prod.fst).Nodup := (hp.map Prod.fst).nodup_iff.mp hnd
  apply Option.ext
  intro v
  simp only [Option.mem_def]
  rw [lookup_eq_some_iff_mem l1 hnd, lookup_eq_some_iff_mem l2 hnd2]
  exact hp.mem_iff

/-- C24: for every report, the names of the exposed sections form a
duplicate-free subsequence of the canonical order and each exposed section
carries the value the report holds under its name; and for a report object with
distinct keys, listing its fields in another order exposes the same sections. -/
theorem C24_canonical_order (report : JsVal) (fields1 fields2 : List (String × JsVal))
    (hp : fields1.Perm fields2) (hnd : (fields1.map Prod.fst).Nodup) :
    ((exposedSections report).map Prod.fst).Sublist orderedSections ∧
    ((exposedSections report).map Prod.fst).Nodup ∧
    (∀ p ∈ exposedSections report, p.2 = sectionValue report p.1) ∧
    exposedSections (.obj fields1) = exposedSections (.obj fields2) := by
  have hsub : ((exposedSections report).map Prod.fst).Sublist orderedSections := by
    rw [exposedSections_names]; exact List.filter_sublist _
  refine ⟨hsub, hsub.nodup (by decide), fun p hp2 => exposedSections_value report p hp2, ?_⟩
  have hv : ∀ k, sectionValue (.obj fields1) k = sectionValue (.obj fields2) k := by
    intro k
    simp only [sectionValue, JsVal.get]
    rw [lookup_perm fields1 fields2 hp hnd k]
  unfold exposedSections
  simp only [hv]

/-- Witness of C24: a report of three sections, listed in two orders. -/
theorem C24_canonical_order_witness :
    shuffledReport.Perm reorderedReport ∧ (shuffledReport.map Prod.fst).Nodup ∧
    (((exposedSections (.obj shuffledReport)).map Prod.fst).Sublist orderedSections ∧
     ((exposedSections (.obj shuffledReport)).map Prod.fst).Nodup ∧
     (∀ p ∈ exposedSections (.obj shuffledReport),
        p.2 = sectionValue (.obj shuffledReport) p.1) ∧
     exposedSections (.obj shuffledReport) = exposedSections (.obj reorderedReport)) :=
  ⟨by decide, by decide,
   C24_canonical_order (.obj shuffledReport) shuffledReport reorderedReport (by decide)
     (by decide)⟩

/-- C25, counterexample: a report that holds the key `Conclusion` with the empty
string, the key `Findings` with `null` and the key `Results` with 0 exposes none
of the three, although each is present as a key. -/
theorem C25_counterexample :
    ("Conclusion" ∈ [("Conclusion", JsVal.str ""), ("Findings", JsVal.null),
        ("Results", JsVal.num 0)].map Prod.fst) ∧
    exposedSections (.obj [("Conclusion", .str ""), ("Findings", .null),
        ("Results", .num 0)]) = [] := by
  decide

/-- C25, amended: for every report and every canonical section name, the section
is exposed if and only if the value the report holds under that name is truthy;
for a report object this means the name is present as a key and its value is
not `undefined`, `null`, `false`, 0 or the empty string. -/
theorem C25_truthy_filter (report : JsVal) (name : String) (fields : List (String × JsVal))
    (hname : name ∈ orderedSections) :
    (name ∈ (exposedSections report).map Prod.fst ↔ (sectionValue report name).truthy = true) ∧
    (name ∈ (exposedSections (.obj fields)).map Prod.fst ↔
      ∃ v, fields.lookup name = some v ∧ v.truthy = true) := by
  have key : ∀ r : JsVal,
      (name ∈ (exposedSections r).map Prod.fst ↔ (sectionValue r name).truthy = true) := by
    intro r
    rw [exposedSections_names, List.mem_filter]
    exact ⟨fun h => h.2, fun h => ⟨hname, h⟩⟩
  refine ⟨key report, ?_⟩
  rw [key]
  simp only [sectionValue, JsVal.get, Option.getD_some]
  cases h : fields.lookup name with
  | none => simp [JsVal.truthy]
  | some v => simp

/-- Witness of amended C25 at the name `Findings` and the shuffled report. -/
theorem C25_truthy_filter_witness :
    "Findings" ∈ orderedSections ∧
    (("Findings" ∈ (exposedSections (.obj shuffledReport)).map Prod.fst ↔
        (sectionValue (.obj shuffledReport) "Findings").truthy = true) ∧
     ("Findings" ∈ (exposedSections (.obj shuffledReport)).map Prod.fst ↔
        ∃ v, shuffledReport.lookup "Findings" = some v ∧ v.truthy = true)) :=
  ⟨by decide, C25_truthy_filter (.obj shuffledReport) "Findings" shuffledReport (by decide)⟩

/-- C26: a metadata value is treated as a timestamp, and its cell shows the
date formatting of the value, if and only if it is a string that contains the
character `T`; the cell of every other value, a value that is not a string or a
string without an uppercase `T`, shows the value unchanged. -/
theorem C26_timestamp_rule (toLocaleString : String → String) (metaValue : JsVal) :
    (treatedAsTimestamp metaValue = true ↔ ∃ s, metaValue = .str s ∧ 'T' ∈ s.toList) ∧
    (∀ s, metaValue = .str s → 'T' ∈ s.toList →
      metadataCell toLocaleString metaValue = .str (toLocaleString s)) ∧
    (treatedAsTimestamp metaValue = false → metadataCell toLocaleString metaValue = metaValue) ∧
    treatedAsTimestamp (.str "2024-05-01T10:00:00") = true ∧
    treatedAsTimestamp (.str "2024-05-01 10:00:00") = false ∧
    treatedAsTimestamp (.str "total") = false ∧
    treatedAsTimestamp (.num 7) = false := by
  refine ⟨?_, ?_, ?_, by decide, by decide, by decide, by decide⟩
  · cases metaValue <;> simp [treatedAsTimestamp]
  · intro s hs hT
    subst hs
    have hT2 : 'T' ∈ s.data := hT
    simp [metadataCell, treatedAsTimestamp, hT2]
  · intro h
    cases metaValue <;> simp_all [metadataCell]

/-! ## Issue distribution -/

/-- Zero rounds to zero. -/
theorem roundDouble_zero : roundDouble 0 = 0 := by
  simp [roundDouble, roundHalfEven]

/-- Rounding a value that is not negative gives a value that is not negative. -/
theorem roundDouble_nonneg (x : ℚ) (hx : 0 ≤ x) : 0 ≤ roundDouble x := by
  unfold roundDouble ulp
  have hu : (0 : ℚ) < 2 ^ (binade x - 52) := by positivity
  have hq : ((0 : ℤ) : ℚ) ≤ x / 2 ^ (binade x - 52) := by
    simp only [Int.cast_zero]
    exact div_nonneg hx (le_of_lt hu)
  have hr := le_roundHalfEven 0 _ hq
  have hr2 : (0 : ℚ) ≤ (roundHalfEven (x / 2 ^ (binade x - 52)) : ℚ) := by exact_mod_cast hr
  exact mul_nonneg hr2 (le_of_lt hu)

/-- Rounding does not go above a binary64 value: if `x <= c` and `c` is the
multiple `n` of the unit of the binade `ec` it lies in, the rounding of `x` is at
most `c`. -/
theorem roundDouble_le_of_multiple (x c : ℚ) (n ec : ℤ) (hx : 0 ≤ x) (hxc : x ≤ c)
    (hc : c = n * 2 ^ (ec - 52)) (h2 : c < 2 ^ (ec + 1)) (hec : -1022 ≤ ec) :
    roundDouble x ≤ c := by
  rcases eq_or_lt_of_le hx with h0 | hpos
  · rw [← h0, roundDouble_zero]; rw [← h0] at hxc; exact hxc
  · have hlog : Int.log 2 x < ec + 1 :=
      (Int.lt_zpow_iff_log_lt (R := ℚ) (b := 2) (by norm_num) hpos).mp
        (by push_cast; exact lt_of_le_of_lt hxc h2)
    have hb : binade x ≤ ec := by
      unfold binade; rw [abs_of_pos hpos]
      exact max_le (by omega) hec
    obtain ⟨k, hk⟩ := Int.eq_ofNat_of_zero_le (show 0 ≤ ec - binade x by omega)
    have hu : (0 : ℚ) < 2 ^ (binade x - 52) := by positivity
    have hcu : c = ((n * 2 ^ k : ℤ) : ℚ) * 2 ^ (binade x - 52) := by
      rw [hc]
      have he : ec - 52 = (k : ℤ) + (binade x - 52) := by omega
      rw [he, zpow_add₀ (by norm_num : (2 : ℚ) ≠ 0), zpow_natCast]
      push_cast
      ring
    unfold roundDouble ulp
    have hq : x / 2 ^ (binade x - 52) ≤ ((n * 2 ^ k : ℤ) : ℚ) := by
      rw [div_le_iff₀ hu, ← hcu]; exact hxc
    have hr := roundHalfEven_le _ _ hq
    have hr2 : (roundHalfEven (x / 2 ^ (binade x - 52)) : ℚ) ≤ ((n * 2 ^ k : ℤ) : ℚ) := by
      exact_mod_cast hr
    calc (roundHalfEven (x / 2 ^ (binade x - 52)) : ℚ) * 2 ^ (binade x - 52)
        ≤ ((n * 2 ^ k : ℤ) : ℚ) * 2 ^ (binade x - 52) :=
          mul_le_mul_of_nonneg_right hr2 (le_of_lt hu)
      _ = c := hcu.symm

/-- The written number of a value between 0 and 100 lies between 0 and 100. -/
theorem toFixed1_bounds (x : ℚ) (h0 : 0 ≤ x) (h100 : x ≤ 100) :
    0 ≤ toFixed1 x ∧ toFixed1 x ≤ 100 := by
  unfold toFixed1
  rw [if_neg (not_lt.mpr h0)]
  have hlo : (0 : ℤ) ≤ ⌊x * 10 + 1 / 2⌋ := Int.floor_nonneg.mpr (by linarith)
  have hhi : ⌊x * 10 + 1 / 2⌋ ≤ (1000 : ℤ) := by
    have : ⌊x * 10 + 1 / 2⌋ < (1001 : ℤ) := Int.floor_lt.mpr (by push_cast; linarith)
    omega
  have hlo2 : (0 : ℚ) ≤ ((⌊x * 10 + 1 / 2⌋ : ℤ) : ℚ) := by exact_mod_cast hlo
  have hhi2 : ((⌊x * 10 + 1 / 2⌋ : ℤ) : ℚ) ≤ 1000 := by exact_mod_cast hhi
  constructor
  · exact div_nonneg hlo2 (by norm_num)
  · rw [div_le_iff₀ (by norm_num : (0 : ℚ) < 10)]; linarith

/-- The percentage of a count between 0 and the total, the total positive, lies
between 0 and 100. -/
theorem getPercentage_bounds (total value : ℚ) (ht : 0 < total) (hv : 0 ≤ value)
    (hvt : value ≤ total) :
    ∃ p, getPercentage total value = some p ∧ 0 ≤ p ∧ p ≤ 100 := by
  have hq0 : 0 ≤ value / total := div_nonneg hv (le_of_lt ht)
  have hq1 : value / total ≤ 1 := (div_le_one ht).mpr hvt
  have hd0 : 0 ≤ jsDiv value total := roundDouble_nonneg _ hq0
  have hd1 : jsDiv value total ≤ 1 :=
    roundDouble_le_of_multiple _ 1 (2 ^ 52) 0 hq0 hq1 (by norm_num) (by norm_num) (by norm_num)
  have hm0 : 0 ≤ jsMul (jsDiv value total) 100 :=
    roundDouble_nonneg _ (mul_nonneg hd0 (by norm_num))
  have hm1 : jsMul (jsDiv value total) 100 ≤ 100 :=
    roundDouble_le_of_multiple _ 100 (100 * 2 ^ 46) 6 (mul_nonneg hd0 (by norm_num))
      (by nlinarith) (by norm_num) (by norm_num) (by norm_num)
  refine ⟨toFixed1 (jsMul (jsDiv value total) 100), ?_, toFixed1_bounds _ hm0 hm1⟩
  unfold getPercentage
  rw [if_neg (ne_of_gt ht)]

/-- An integer from 0 to below 2^53 is a binary64 value: rounding leaves it as
it is. -/
theorem roundDouble_intCast (n : ℤ) (h0 : 0 ≤ n) (hn : n < 2 ^ 53) :
    roundDouble (n : ℚ) = (n : ℚ) := by
  rcases eq_or_lt_of_le h0 with hz | hpos
  · rw [← hz]; simpa using roundDouble_zero
  · have hx : (0 : ℚ) < (n : ℚ) := by exact_mod_cast hpos
    have h1x : (1 : ℚ) ≤ (n : ℚ) := by exact_mod_cast hpos
    have habs : |(n : ℚ)| = (n : ℚ) := abs_of_pos hx
    obtain ⟨he, hlog, hup, hlow⟩ := binade_spec (n : ℚ) hx
    have hlog0 : 0 ≤ Int.log 2 (n : ℚ) :=
      (Int.zpow_le_iff_le_log (R := ℚ) (b := 2) (by norm_num) hx).mp (by simpa using h1x)
    have hbe : Int.log 2 (n : ℚ) = binade (n : ℚ) := by
      unfold binade
      rw [habs]
      exact (max_eq_left (by omega)).symm
    have hlo : (2 : ℚ) ^ binade (n : ℚ) ≤ (n : ℚ) := hlow hbe
    have hlt : (2 : ℚ) ^ binade (n : ℚ) < (2 : ℚ) ^ (53 : ℤ) := by
      have : ((n : ℤ) : ℚ) < ((2 ^ 53 : ℤ) : ℚ) := by exact_mod_cast hn
      calc (2 : ℚ) ^ binade (n : ℚ) ≤ (n : ℚ) := hlo
        _ < ((2 ^ 53 : ℤ) : ℚ) := this
        _ = (2 : ℚ) ^ (53 : ℤ) := by norm_num
    have he53 : binade (n : ℚ) < 53 := (zpow_lt_zpow_iff_right₀ (by norm_num)).mp hlt
    obtain ⟨k, hk⟩ := Int.eq_ofNat_of_zero_le (show 0 ≤ 52 - binade (n : ℚ) by omega)
    have hu : (0 : ℚ) < 2 ^ (binade (n : ℚ) - 52) := by positivity
    have hmul : ((n * 2 ^ k : ℤ) : ℚ) * 2 ^ (binade (n : ℚ) - 52) = (n : ℚ) := by
      have hexp : binade (n : ℚ) - 52 = -(k : ℤ) := by omega
      rw [hexp, zpow_neg, zpow_natCast]
      push_cast
      field_simp
    have hdiv : (n : ℚ) / 2 ^ (binade (n : ℚ) - 52) = ((n * 2 ^ k : ℤ) : ℚ) := by
      rw [div_eq_iff (ne_of_gt hu)]
      exact hmul.symm
    have hr := roundDouble_eq (n : ℚ) (binade (n : ℚ)) (n * 2 ^ k) he
      (by rw [habs]; exact hlo) (by rw [habs]; exact hup)
      (by rw [hdiv]; simp)
    rw [hr]
    exact hmul

/-- The running sum of line 12, from an integer `a` on: as long as the counts
are not negative and the whole stays below 2^53, every binary64 sum is exact. -/
theorem foldl_jsAdd_count (l : List SeverityRow) :
    ∀ a : ℤ, 0 ≤ a → (∀ r ∈ l, 0 ≤ r.count) → a + (l.map SeverityRow.count).sum < 2 ^ 53 →
      l.foldl (fun acc curr => jsAdd acc (curr.count : ℚ)) (a : ℚ)
        = ((a + (l.map SeverityRow.count).sum : ℤ) : ℚ) := by
  induction l with
  | nil => intro a _ _ _; simp
  | cons r rs ih =>
    intro a ha hnn hlt
    have hr : 0 ≤ r.count := hnn r (List.mem_cons_self _ _)
    have hrs : ∀ x ∈ rs, 0 ≤ x.count := fun x hx => hnn x (List.mem_cons_of_mem _ hx)
    have hsum : 0 ≤ (rs.map SeverityRow.count).sum :=
      List.sum_nonneg (by
        intro x hx
        rw [List.mem_map] at hx
        obtain ⟨y, hy, rfl⟩ := hx
        exact hrs y hy)
    simp only [List.map_cons, List.sum_cons] at hlt
    have hstep : jsAdd (a : ℚ) (r.count : ℚ) = ((a + r.count : ℤ) : ℚ) := by
      unfold jsAdd
      rw [← Int.cast_add]
      exact roundDouble_intCast (a + r.count) (by omega) (by omega)
    simp only [List.foldl_cons, List.map_cons, List.sum_cons, hstep]
    rw [ih (a + r.count) (by omega) hrs (by omega)]
    congr 1
    ring

/-- The total over the rows is the sum of their counts, a missing count being 0,
for counts that are not negative and sum to less than 2^53. -/
theorem totalIssues_eq_sum (rows : List SeverityRow) (h : ∀ r ∈ rows, 0 ≤ r.count)
    (hsafe : (rows.map SeverityRow.count).sum < 2 ^ 53) :
    totalIssues (some rows) = (((rows.map SeverityRow.count).sum : ℤ) : ℚ) := by
  unfold totalIssues
  simp only []
  have key := foldl_jsAdd_count rows 0 (le_refl _) h (by simpa using hsafe)
  simpa using key

/-- Halfway between an even integer and the next, rounding gives the even one. -/
theorem roundHalfEven_tie (k : ℤ) (hk : k % 2 = 0) : roundHalfEven ((k : ℚ) + 1 / 2) = k := by
  have hfl : ⌊(k : ℚ) + 1 / 2⌋ = k := by
    rw [Int.floor_eq_iff]
    constructor <;> norm_num
  unfold roundHalfEven
  rw [hfl]
  simp [hk]

/-- The total over two rows: two binary64 additions, from 0. -/
theorem totalIssues_pair (r1 r2 : SeverityRow) :
    totalIssues (some [r1, r2]) = jsAdd (jsAdd 0 (r1.count : ℚ)) (r2.count : ℚ) := rfl

/-- C30, counterexample: the counts 9007199254740991 (2^53 - 1) and 2 are
non-negative integers with the sum 9007199254740993, yet the `reduce` of line 12
yields 9007199254740992: the second binary64 addition lands halfway between two
binary64 values and rounds to the even one. -/
theorem C30_counterexample :
    (∀ r ∈ hugeRows, ∀ n, r.issues = some n → 0 ≤ n) ∧
    (hugeRows.map SeverityRow.count).sum = 9007199254740993 ∧
    totalIssues (some hugeRows) = 9007199254740992 := by
  refine ⟨?_, ?_, ?_⟩
  · intro r hr n hn
    simp only [hugeRows, List.mem_cons, List.mem_singleton, List.mem_nil_iff, or_false] at hr
    rcases hr with rfl | rfl <;> simp only [Option.some.injEq] at hn <;> omega
  · norm_num [hugeRows, SeverityRow.count]
  have h1 : jsAdd 0 ((9007199254740991 : ℤ) : ℚ) = ((9007199254740991 : ℤ) : ℚ) := by
    unfold jsAdd
    rw [zero_add]
    exact roundDouble_intCast 9007199254740991 (by norm_num) (by norm_num)
  have h2 : jsAdd ((9007199254740991 : ℤ) : ℚ) ((2 : ℤ) : ℚ) = 9007199254740992 := by
    unfold jsAdd roundDouble ulp
    have hb : binade (((9007199254740991 : ℤ) : ℚ) + ((2 : ℤ) : ℚ)) = 53 :=
      binade_eq _ 53 (by norm_num) (by norm_num [abs_of_pos]) (by norm_num [abs_of_pos])
    rw [hb]
    have hq : (((9007199254740991 : ℤ) : ℚ) + ((2 : ℤ) : ℚ)) / 2 ^ ((53 : ℤ) - 52)
        = ((4503599627370496 : ℤ) : ℚ) + 1 / 2 := by norm_num
    rw [hq, roundHalfEven_tie 4503599627370496 (by norm_num)]
    norm_num
  have hc1 : SeverityRow.count { Severity := "Critical", issues := some 9007199254740991 }
      = 9007199254740991 := rfl
  have hc2 : SeverityRow.count { Severity := "High", issues := some 2 } = 2 := rfl
  rw [hugeRows, totalIssues_pair, hc1, hc2, h1, h2]

/-- C30, amended: for every list of severity rows whose counts are non-negative
integers (a missing count counting as 0) with a sum below 2^53, the range in
which the binary64 sum of integers is exact, `totalIssues` is the sum of the
counts; for every row, `getPercentage` is called only for a count other than 0,
and then `totalIssues` is positive, so no division by zero occurs; and the
percentage shown for the row, the literal 0 or the computed one, is a number
between 0 and 100. -/
theorem C30_issue_distribution (rows : List SeverityRow)
    (h : ∀ r ∈ rows, ∀ n, r.issues = some n → 0 ≤ n)
    (hsafe : (rows.map SeverityRow.count).sum < 2 ^ 53) :
    totalIssues (some rows) = (((rows.map SeverityRow.count).sum : ℤ) : ℚ) ∧
    (∀ item ∈ rows, ∀ n, item.issues = some n → n ≠ 0 → 0 < totalIssues (some rows)) ∧
    (∀ item ∈ rows, ∃ p, distributionCell (totalIssues (some rows)) item = some p ∧
      0 ≤ p ∧ p ≤ 100) := by
  have hcount : ∀ r ∈ rows, 0 ≤ r.count := by
    intro r hr
    unfold SeverityRow.count
    cases hi : r.issues with
    | none => simp
    | some n => simpa using h r hr n hi
  have hnonneg : ∀ x ∈ rows.map SeverityRow.count, (0 : Int) ≤ x := by
    intro x hx
    rw [List.mem_map] at hx
    obtain ⟨r, hr, rfl⟩ := hx
    exact hcount r hr
  have htot := totalIssues_eq_sum rows hcount hsafe
  have hle : ∀ item ∈ rows, ∀ n, item.issues = some n →
      n ≤ (rows.map SeverityRow.count).sum := by
    intro item hitem n hn
    have hmem : n ∈ rows.map SeverityRow.count :=
      List.mem_map.mpr ⟨item, hitem, by simp [SeverityRow.count, hn]⟩
    exact List.single_le_sum hnonneg n hmem
  have hpos : ∀ item ∈ rows, ∀ n, item.issues = some n → n ≠ 0 →
      0 < totalIssues (some rows) := by
    intro item hitem n hn hne
    have h0 := h item hitem n hn
    have h1 := hle item hitem n hn
    rw [htot]
    have : (0 : ℤ) < (rows.map SeverityRow.count).sum := by omega
    exact_mod_cast this
  refine ⟨htot, hpos, ?_⟩
  intro item hitem
  unfold distributionCell
  cases hi : item.issues with
  | none => exact ⟨0, rfl, le_refl _, by norm_num⟩
  | some n =>
    simp only []
    by_cases hne : n = 0
    · simp only [hne, ne_eq, not_true_eq_false, if_false]
      exact ⟨0, rfl, le_refl _, by norm_num⟩
    · simp only [ne_eq, hne, not_false_eq_true, if_true]
      have h0 := h item hitem n hi
      have h1 := hle item hitem n hi
      refine getPercentage_bounds _ (n : ℚ) (hpos item hitem n hi hne) (by exact_mod_cast h0) ?_
      rw [htot]
      exact_mod_cast h1

/-- Witness of amended C30 at four rows with the counts 1, 2, missing and 0. -/
theorem C30_issue_distribution_witness :
    (∀ r ∈ sampleRows, ∀ n, r.issues = some n → 0 ≤ n) ∧
    (sampleRows.map SeverityRow.count).sum < 2 ^ 53 ∧
    (totalIssues (some sampleRows) = (((sampleRows.map SeverityRow.count).sum : ℤ) : ℚ) ∧
     (∀ item ∈ sampleRows, ∀ n, item.issues = some n → n ≠ 0 →
        0 < totalIssues (some sampleRows)) ∧
     (∀ item ∈ sampleRows, ∃ p, distributionCell (totalIssues (some sampleRows)) item = some p ∧
        0 ≤ p ∧ p ≤ 100)) :=
  ⟨by decide, by decide, C30_issue_distribution sampleRows (by decide) (by decide)⟩

/-! ## Job state invariants -/

/-- C27, counterexample: job `job-1` completed and its report is displayed; the
download of the report fails, and the error "Failed to download report" is
present together with the result.  Likewise a text file chosen while the report
is displayed sets the validation error next to the result.  And while job
`job-1` is still polled, a text file is dropped, which sets the validation
error; the completed reply then stores the result beside it. -/
theorem C27_counterexample :
    (run World.init (completedTrace ++ [.clickDownload,
      .reply (.download (.str "job-1")) .networkError "10:00:03"])).app.report
        = sampleResults ∧
    (run World.init (completedTrace ++ [.clickDownload,
      .reply (.download (.str "job-1")) .networkError "10:00:03"])).app.error
        = .str "Failed to download report" ∧
    (run World.init (completedTrace ++ [.fileChange (some sampleTxt)])).app.report
        = sampleResults ∧
    (run World.init (completedTrace ++ [.fileChange (some sampleTxt)])).app.error
        = .str "Please select a valid PDF file" ∧
    (run World.init (pollingTrace ++ [.drop (some sampleTxt)])).app.report = .null ∧
    (run World.init (pollingTrace ++ [.drop (some sampleTxt)])).app.isLoading = true ∧
    (run World.init (pollingTrace ++ [.drop (some sampleTxt), completedReply])).app.report
        = sampleResults ∧
    (run World.init (pollingTrace ++ [.drop (some sampleTxt), completedReply])).app.error
        = .str "Please select a valid PDF file" := by
  decide

/-- Setter calls that bind neither the result nor the error leave both. -/
theorem applySets_keeps_outcome (sets : List SetCall) :
    ∀ s : AppState, sets.any SetCall.bindsOutcome = false →
      (applySets s sets).report = s.report ∧ (applySets s sets).error = s.error := by
  induction sets with
  | nil => intro s _; exact ⟨rfl, rfl⟩
  | cons c cs ih =>
    intro s h
    simp only [List.any_cons, Bool.or_eq_false_iff] at h
    have hrest := ih (c.apply s) h.2
    simp only [applySets, List.foldl_cons] at hrest ⊢
    rw [hrest.1, hrest.2]
    cases c <;> simp_all [SetCall.apply, SetCall.bindsOutcome]

/-- Replies that are not terminal leave the result and the error. -/
theorem processReplies_keeps_outcome (rs : List Reply) :
    ∀ s : AppState, (∀ r ∈ rs, r.terminal = false) →
      (processReplies s rs).report = s.report ∧ (processReplies s rs).error = s.error := by
  induction rs with
  | nil => intro s _; exact ⟨rfl, rfl⟩
  | cons r rs ih =>
    intro s h
    have h1 := applySets_keeps_outcome (checkStatus_resume r).sets s
      (h r (List.mem_cons_self r rs))
    have h2 := ih (applySets s (checkStatus_resume r).sets)
      (fun x hx => h x (List.mem_cons_of_mem r hx))
    simp only [processReplies, List.foldl_cons] at h2 ⊢
    rw [h2.1, h2.2]
    exact h1

/-- One poll reply changes the result or the error, never both. -/
theorem checkStatus_resume_one_outcome (s : AppState) (r : Reply) :
    (applySets s (checkStatus_resume r).sets).report = s.report ∨
    (applySets s (checkStatus_resume r).sets).error = s.error := by
  cases r with
  | networkError => left; rfl
  | http code json =>
    cases json with
    | none => left; rfl
    | some d =>
      cases hp : d.get "progress" with
      | none =>
        left
        have : checkStatus_try d = none := by simp [checkStatus_try, hp]
        simp [checkStatus_resume, this, checkStatus_catch, applySets, SetCall.apply]
      | some p =>
        obtain ⟨m, hm⟩ := JsVal.get_total d "progress" "message" p hp
        obtain ⟨st, hst⟩ := JsVal.get_total d "progress" "stage" p hp
        obtain ⟨res, hres⟩ := JsVal.get_total d "progress" "results" p hp
        simp only [checkStatus_resume, checkStatus_try_eq d p m st res hp hm hst hres]
        split
        · right; simp [applySets, SetCall.apply]
        · split
          · left; simp [applySets, SetCall.apply]
          · left; simp [applySets, SetCall.apply]

/-- Setter calls that store no result and no error message leave both cells
without a value that counts as present. -/
theorem applySets_bindsNothing (sets : List SetCall) :
    ∀ s : AppState, sets.all SetCall.bindsNothing = true →
      s.report.truthy = false → s.error.truthy = false →
      (applySets s sets).report.truthy = false ∧ (applySets s sets).error.truthy = false := by
  induction sets with
  | nil => intro s _ h1 h2; exact ⟨h1, h2⟩
  | cons c cs ih =>
    intro s h h1 h2
    simp only [List.all_cons, Bool.and_eq_true] at h
    have hc : (c.apply s).report.truthy = false ∧ (c.apply s).error.truthy = false := by
      cases c <;> simp_all [SetCall.apply, SetCall.bindsNothing, JsVal.truthy]
    exact ih (c.apply s) h.2 hc.1 hc.2

/-- An event that is neither an error event of another handler nor a terminal
status reply leaves the result and the error absent. -/
theorem step_keeps_cleared (e : Event) (w : World)
    (hrep : w.app.report.truthy = false) (herr : w.app.error.truthy = false)
    (hf : e.foreignError = false) (ht : e.terminalReply = false) :
    (step e w).app.report.truthy = false ∧ (step e w).app.error.truthy = false := by
  have hkeep : ∀ (w1 : World) (a : Actions), w1.app = w.app →
      a.sets.all SetCall.bindsNothing = true →
      (commit w1 a).app.report.truthy = false ∧ (commit w1 a).app.error.truthy = false := by
    intro w1 a hw ha
    rw [commit_app, hw]
    exact applySets_bindsNothing a.sets w.app ha hrep herr
  have hsame : ∀ (w1 : World) (a : Actions), w1.app = w.app →
      a.sets.any SetCall.bindsOutcome = false →
      (commit w1 a).app.report.truthy = false ∧ (commit w1 a).app.error.truthy = false := by
    intro w1 a hw ha
    rw [commit_app, hw]
    have h := applySets_keeps_outcome a.sets w.app ha
    rw [h.1, h.2]
    exact ⟨hrep, herr⟩
  cases e <;> simp only [step]
  case dragEnter => exact hkeep w _ rfl rfl
  case dragLeave => exact hkeep w _ rfl rfl
  case dragOver => exact hkeep w _ rfl rfl
  case drop file =>
    have hw : wrongType file = false := hf
    exact hkeep w _ rfl (by simp [handleDrop, hw, SetCall.bindsNothing])
  case fileChange file =>
    have hw : wrongType file = false := hf
    exact hkeep w _ rfl (by simp [handleFileChange, hw, SetCall.bindsNothing])
  case clickReset =>
    split
    · exact ⟨hrep, herr⟩
    · exact hkeep w _ rfl rfl
  case clickUpload =>
    split
    · exact ⟨hrep, herr⟩
    · rename_i hdis
      cases hsel : w.app.selectedFile with
      | null => simp [hsel, FileCell.file?] at hdis
      | undefined => simp [hsel, FileCell.file?] at hdis
      | file g =>
        exact hkeep w _ rfl (by simp [handleUpload, hsel, SetCall.bindsNothing])
  case clickDownload =>
    split
    · exact hkeep w _ rfl (by unfold handleDownloadResults; split <;> rfl)
    · exact ⟨hrep, herr⟩
  case clickDarkMode => exact hkeep w _ rfl rfl
  case pollTick =>
    split
    · exact hkeep w _ rfl rfl
    · exact ⟨hrep, herr⟩
  case healthTick =>
    split
    · exact hkeep w _ rfl rfl
    · exact ⟨hrep, herr⟩
  case reply req r now =>
    split
    · cases req with
      | test =>
        exact hkeep _ _ rfl (by simp only [resume]; cases r <;> rfl)
      | upload file =>
        have hu : (handleUpload_try r).isNone = false := hf
        refine hkeep _ _ rfl ?_
        simp only [resume, handleUpload_resume]
        cases htry : handleUpload_try r with
        | none => simp [htry] at hu
        | some id => rfl
      | status id =>
        have hs : (checkStatus_resume r).sets.any SetCall.bindsOutcome = false := ht
        exact hsame _ _ rfl hs
      | download id =>
        have hd : (handleDownloadResults_resume r).sets.any SetCall.bindsOutcome = false := hf
        exact hsame _ _ rfl hd
    · exact ⟨hrep, herr⟩

/-- A sequence of such events leaves the result and the error absent. -/
theorem run_keeps_cleared (es : List Event) :
    ∀ w : World, w.app.report.truthy = false → w.app.error.truthy = false →
      (∀ x ∈ es, x.foreignError = false ∧ x.terminalReply = false) →
      (run w es).app.report.truthy = false ∧ (run w es).app.error.truthy = false := by
  induction es with
  | nil => intro w h1 h2 _; exact ⟨h1, h2⟩
  | cons e es ih =>
    intro w h1 h2 h
    have hstep := step_keeps_cleared e w h1 h2 (h e (List.mem_cons_self e es)).1
      (h e (List.mem_cons_self e es)).2
    simp only [run, List.foldl_cons]
    exact ih (step e w) hstep.1 hstep.2 (fun x hx => h x (List.mem_cons_of_mem e hx))

/-- C27, amended: a status reply binds the result or the error, never both, and
`handleUpload` clears both.  From a state in which neither is present (such as
the start of a submission), after any sequence of events that holds no terminal
status reply and no error event of another handler (a file of the wrong type
chosen or dropped, a failed upload, a failed download), followed by one more
event that is not such an error event and may be a terminal status reply, the
result and the error are not both present.  (The error cell is shared with the
validation error and the download error; either can be set at any time, also
while the job is polled, and then stands beside a result.) -/
theorem C27_outcome_exclusive (w : World) (es : List Event) (e : Event)
    (hrep : w.app.report.truthy = false) (herr : w.app.error.truthy = false)
    (hes : ∀ x ∈ es, x.foreignError = false ∧ x.terminalReply = false)
    (he : e.foreignError = false) :
    ¬ ((run w (es ++ [e])).app.report.truthy = true ∧
       (run w (es ++ [e])).app.error.truthy = true) ∧
    (∀ (s : AppState) (r : Reply),
      (applySets s (checkStatus_resume r).sets).report = s.report ∨
      (applySets s (checkStatus_resume r).sets).error = s.error) ∧
    (∀ w0 : World, ∀ f, w0.app.selectedFile = .file f →
      (applySets w0.app (handleUpload w0.app).sets).report = .null ∧
      (applySets w0.app (handleUpload w0.app).sets).error = .null) := by
  refine ⟨?_, checkStatus_resume_one_outcome, ?_⟩
  · have hpre := run_keeps_cleared es w hrep herr hes
    have hsplit : run w (es ++ [e]) = step e (run w es) := by
      simp [run, List.foldl_append]
    rw [hsplit]
    generalize run w es = w1 at hpre
    by_cases ht : e.terminalReply = true
    · cases e with
      | reply req r now =>
        cases req with
        | status id =>
          rw [step_reply]
          split
          · rw [commit_app]
            simp only [resume]
            rcases checkStatus_resume_one_outcome w1.app r with h | h
            · rw [h, hpre.1]; simp
            · rw [h, hpre.2]; simp
          · rw [hpre.1]; simp
        | test => simp [Event.terminalReply] at ht
        | upload file => simp [Event.terminalReply] at ht
        | download id => simp [Event.terminalReply] at ht
      | _ => simp [Event.terminalReply] at ht
    · have hk := step_keeps_cleared e w1 hpre.1 hpre.2 he (by simpa using ht)
      rw [hk.1]; simp
  · intro w0 f hf
    simp [handleUpload, hf, applySets, SetCall.apply]

/-- Witness of amended C27: job `job-1` is polled; two replies in progress, the
ticks of both intervals, a click on the dark-mode button and another PDF
dropped are followed by the completed reply. -/
theorem C27_outcome_exclusive_witness :
    (run World.init pollingTrace).app.report.truthy = false ∧
    (run World.init pollingTrace).app.error.truthy = false ∧
    (∀ x ∈ quietEvents, x.foreignError = false ∧ x.terminalReply = false) ∧
    completedReply.foreignError = false ∧
    (¬ ((run (run World.init pollingTrace) (quietEvents ++ [completedReply])).app.report.truthy
          = true ∧
        (run (run World.init pollingTrace) (quietEvents ++ [completedReply])).app.error.truthy
          = true) ∧
     (∀ (s : AppState) (r : Reply),
       (applySets s (checkStatus_resume r).sets).report = s.report ∨
       (applySets s (checkStatus_resume r).sets).error = s.error) ∧
     (∀ w0 : World, ∀ f, w0.app.selectedFile = .file f →
       (applySets w0.app (handleUpload w0.app).sets).report = .null ∧
       (applySets w0.app (handleUpload w0.app).sets).error = .null)) :=
  ⟨by decide, by decide, by decide, by decide,
   C27_outcome_exclusive (run World.init pollingTrace) quietEvents completedReply
     (by decide) (by decide) (by decide) (by decide)⟩

/-- The selected file after setter calls that select nothing but a PDF. -/
theorem applySets_selectedFile_ok (sets : List SetCall) :
    ∀ s : AppState, sets.all SetCall.fileOk = true →
      (∀ f, s.selectedFile = .file f → f.type = "application/pdf") →
      ∀ f, (applySets s sets).selectedFile = .file f → f.type = "application/pdf" := by
  induction sets with
  | nil => intro s _ hs; exact hs
  | cons c cs ih =>
    intro s h hs
    simp only [List.all_cons, Bool.and_eq_true] at h
    have hc : ∀ f, (c.apply s).selectedFile = .file f → f.type = "application/pdf" := by
      cases c <;> try exact hs
      rename_i g
      intro f hf
      simp only [SetCall.apply] at hf
      subst hf
      simpa [SetCall.fileOk] using h.1
    exact ih (c.apply s) h.2 hc

/-- A request in the log after a commit was there before, or is one of the
handler, or is a liveness probe. -/
theorem commit_log_mem (w : World) (a : Actions) (r : Request)
    (h : r ∈ (commit w a).log) : r ∈ w.log ∨ r ∈ a.reqs ∨ r = .test := by
  unfold commit at h
  simp only [] at h
  have hh : ∀ w1 : World, r ∈ (healthEffect w1).log → r ∈ w1.log ∨ r = .test := by
    intro w1 h1
    unfold healthEffect at h1
    split at h1
    · exact Or.inl h1
    · simp only [World.send, checkServerStatus, List.mem_append, List.mem_singleton] at h1
      exact h1
  split at h
  · split at h
    · simp only [pollEffect] at h
      rcases hh _ h with h1 | h1
      · simp only [World.send, List.mem_append] at h1
        rcases h1 with h1 | h1
        · exact Or.inl h1
        · exact Or.inr (Or.inl h1)
      · exact Or.inr (Or.inr h1)
    · rcases hh _ h with h1 | h1
      · simp only [World.send, List.mem_append] at h1
        rcases h1 with h1 | h1
        · exact Or.inl h1
        · exact Or.inr (Or.inl h1)
      · exact Or.inr (Or.inr h1)
  · simp only [World.send, List.mem_append] at h
    rcases h with h1 | h1
    · exact Or.inl h1
    · exact Or.inr (Or.inl h1)

/-- A commit of actions that select and upload nothing but a PDF keeps the
selected file and the uploads of the log PDFs. -/
theorem commit_files_ok (w : World) (a : Actions)
    (hsel : ∀ f, w.app.selectedFile = .file f → f.type = "application/pdf")
    (hlog : ∀ f, Request.upload f ∈ w.log → f.type = "application/pdf")
    (hsets : a.sets.all SetCall.fileOk = true) (hreqs : a.reqs.all Request.fileOk = true) :
    (∀ f, (commit w a).app.selectedFile = .file f → f.type = "application/pdf") ∧
    (∀ f, Request.upload f ∈ (commit w a).log → f.type = "application/pdf") := by
  constructor
  · rw [commit_app]
    exact applySets_selectedFile_ok a.sets w.app hsets hsel
  · intro f hf
    rcases commit_log_mem w a _ hf with h | h | h
    · exact hlog f h
    · rw [List.all_eq_true] at hreqs
      simpa [Request.fileOk] using hreqs _ h
    · cases h

/-- The setter calls of the `try` block of `checkStatus` select no file. -/
theorem checkStatus_resume_fileOk (r : Reply) :
    (checkStatus_resume r).sets.all SetCall.fileOk = true := by
  cases r with
  | networkError => rfl
  | http code json =>
    cases json with
    | none => rfl
    | some d =>
      cases hp : d.get "progress" with
      | none =>
        have : checkStatus_try d = none := by simp [checkStatus_try, hp]
        simp [checkStatus_resume, this, checkStatus_catch, SetCall.fileOk]
      | some p =>
        obtain ⟨m, hm⟩ := JsVal.get_total d "progress" "message" p hp
        obtain ⟨st, hst⟩ := JsVal.get_total d "progress" "stage" p hp
        obtain ⟨res, hres⟩ := JsVal.get_total d "progress" "results" p hp
        simp only [checkStatus_resume, checkStatus_try_eq d p m st res hp hm hst hres]
        split
        · rfl
        · split <;> rfl

/-- The continuations select no file. -/
theorem resume_fileOk (req : Request) (r : Reply) (now : String) :
    (resume req r now).sets.all SetCall.fileOk = true := by
  cases req <;> simp only [resume]
  · cases r <;> rfl
  · unfold handleUpload_resume; split <;> rfl
  · exact checkStatus_resume_fileOk r
  · unfold handleDownloadResults_resume; split
    · split <;> rfl
    · rfl

/-- A file that passes the type test is a PDF. -/
theorem type_of_not_wrongType (f : File) (h : wrongType (some f) = false) :
    f.type = "application/pdf" := by
  simpa [wrongType] using h

/-- One event keeps the selected file and the uploads of the log PDFs. -/
theorem step_files_ok (e : Event) (w : World)
    (hsel : ∀ f, w.app.selectedFile = .file f → f.type = "application/pdf")
    (hlog : ∀ f, Request.upload f ∈ w.log → f.type = "application/pdf") :
    (∀ f, (step e w).app.selectedFile = .file f → f.type = "application/pdf") ∧
    (∀ f, Request.upload f ∈ (step e w).log → f.type = "application/pdf") := by
  cases e <;> simp only [step]
  case dragEnter => exact commit_files_ok w _ hsel hlog rfl rfl
  case dragLeave => exact commit_files_ok w _ hsel hlog rfl rfl
  case dragOver => exact commit_files_ok w _ hsel hlog rfl rfl
  case drop file =>
    refine commit_files_ok w _ hsel hlog ?_ ?_
    · unfold handleDrop
      cases hw : wrongType file
      · cases file with
        | none => rfl
        | some f => simp [SetCall.fileOk, firstFile, type_of_not_wrongType f hw]
      · rfl
    · unfold handleDrop; split <;> rfl
  case fileChange file =>
    refine commit_files_ok w _ hsel hlog ?_ ?_
    · unfold handleFileChange
      cases hw : wrongType file
      · cases file with
        | none => rfl
        | some f => simp [SetCall.fileOk, firstFile, type_of_not_wrongType f hw]
      · rfl
    · unfold handleFileChange; split <;> rfl
  case clickReset =>
    split
    · exact ⟨hsel, hlog⟩
    · exact commit_files_ok w _ hsel hlog rfl rfl
  case clickUpload =>
    split
    · exact ⟨hsel, hlog⟩
    · refine commit_files_ok w _ hsel hlog ?_ ?_
      · unfold handleUpload; split <;> rfl
      · unfold handleUpload
        split
        · rfl
        · rfl
        · rename_i file hfile
          simp [Request.fileOk, hsel file hfile]
  case clickDownload =>
    split
    · refine commit_files_ok w _ hsel hlog ?_ ?_
      · unfold handleDownloadResults; split <;> rfl
      · unfold handleDownloadResults; split <;> rfl
    · exact ⟨hsel, hlog⟩
  case clickDarkMode => exact commit_files_ok w _ hsel hlog rfl rfl
  case pollTick =>
    split
    · exact commit_files_ok w _ hsel hlog rfl rfl
    · exact ⟨hsel, hlog⟩
  case healthTick =>
    split
    · exact commit_files_ok w _ hsel hlog rfl rfl
    · exact ⟨hsel, hlog⟩
  case reply req r now =>
    split
    · exact commit_files_ok _ _ hsel hlog (resume_fileOk req r now)
        (by rw [resume_reqs]; rfl)
    · exact ⟨hsel, hlog⟩

/-- C28: in every reachable state, whatever the sequence of events (file picker,
drop, upload, reset, replies and timers), the selected file is absent or has the
type application/pdf, and every upload request issued so far carries a file of
the type application/pdf. -/
theorem C28_selected_file_is_pdf (es : List Event) :
    (∀ f, (run World.init es).app.selectedFile = .file f → f.type = "application/pdf") ∧
    (∀ f, Request.upload f ∈ (run World.init es).log → f.type = "application/pdf") := by
  have key : ∀ (l : List Event) (w : World),
      ((∀ f, w.app.selectedFile = .file f → f.type = "application/pdf") ∧
       (∀ f, Request.upload f ∈ w.log → f.type = "application/pdf")) →
      ((∀ f, (run w l).app.selectedFile = .file f → f.type = "application/pdf") ∧
       (∀ f, Request.upload f ∈ (run w l).log → f.type = "application/pdf")) := by
    intro l
    induction l with
    | nil => intro w h; exact h
    | cons e l ih =>
      intro w h
      simp only [run, List.foldl_cons]
      exact ih _ (step_files_ok e w h.1 h.2)
  refine key es World.init ⟨?_, ?_⟩
  · intro f hf; cases hf
  · intro f hf
    have : (World.init).log = [.test] := rfl
    rw [this] at hf
    simp at hf

/-- Setter calls none of which changes the job id leave it as it is. -/
theorem applySets_fileId_of_no_change (sets : List SetCall) (s : AppState)
    (h : sets.any (fun c => c.isFileId && c.changes s) = false) :
    (applySets s sets).fileId = s.fileId := by
  have key : ∀ (l : List SetCall) (s0 : AppState),
      l.any (fun c => c.isFileId && c.changes s) = false → s0.fileId = s.fileId →
      (applySets s0 l).fileId = s.fileId := by
    intro l
    induction l with
    | nil => intro s0 _ h0; exact h0
    | cons c cs ih =>
      intro s0 hl h0
      simp only [List.any_cons, Bool.or_eq_false_iff] at hl
      simp only [applySets, List.foldl_cons]
      apply ih (c.apply s0) hl.2
      cases c <;> try exact h0
      rename_i v
      have hv : s.fileId.sameValue v = true := by
        simpa [SetCall.isFileId, SetCall.changes] using hl.1
      exact (JsVal.eq_of_sameValue _ _ hv).symm
  exact key sets s h rfl

/-- After a commit the polling interval is the one the polling effect creates
for the job id held, provided this was so before. -/
theorem commit_pollerInStep (w : World) (a : Actions) (hinv : w.pollerInStep) :
    (commit w a).pollerInStep := by
  unfold World.pollerInStep at hinv ⊢
  rw [commit_pollInterval, commit_app]
  by_cases h : a.sets.any (fun c => c.isFileId && c.changes w.app) = true
  · simp only [h, if_true]
  · simp only [h]
    simp only [Bool.not_eq_true] at h
    rw [applySets_fileId_of_no_change a.sets w.app h]
    simpa using hinv

/-- One event keeps the polling interval in step with the job id. -/
theorem step_pollerInStep (e : Event) (w : World) (hinv : w.pollerInStep) :
    (step e w).pollerInStep := by
  cases e <;> simp only [step] <;> (try split) <;>
    first
    | exact hinv
    | exact commit_pollerInStep _ _ hinv

/-- In every reachable state the polling interval is live exactly for a truthy
job id. -/
theorem run_pollerInStep (es : List Event) :
    ∀ w : World, w.pollerInStep → (run w es).pollerInStep := by
  induction es with
  | nil => intro w h; exact h
  | cons e es ih =>
    intro w h
    simp only [run, List.foldl_cons]
    exact ih (step e w) (step_pollerInStep e w h)

/-- C29, counterexample: two polls for job `job-1` are out, the first is answered
with completed, and the user clicks Reset: the Job state is the idle one and the
polling interval is gone.  The reply to the second poll then arrives, with no
user action in between, and the result, the progress and the message of the
discarded job are back. -/
theorem C29_counterexample :
    (run World.init resetTrace).app.jobIdle = true ∧
    (run World.init resetTrace).pollInterval = none ∧
    (run World.init (resetTrace ++ [lateReply])).app.jobIdle = false ∧
    (run World.init (resetTrace ++ [lateReply])).app.report = sampleResults ∧
    (run World.init (resetTrace ++ [lateReply])).app.progress = .num 100 ∧
    (run World.init (resetTrace ++ [lateReply])).app.status = .str "Done" := by
  decide

/-- C29, amended: in every reachable state in which the Reset button is enabled,
`handleReset` leaves the Job state equal to the initial idle one (no file, no
id, no message, progress 0, no result, no error, not loading), leaves
`serverStatus` and the dark-mode flag as they were, and clears the polling
interval, so that its tick does nothing and no further status request is issued
for the discarded job; the Job state stays idle under the tick of the health
interval and under the reply to a liveness probe.  (The reply to a request
issued before the reset is not cancelled and is still processed.) -/
theorem C29_reset_to_idle (es : List Event) (r : Reply) (now : String)
    (hload : (run World.init es).app.isLoading = false) :
    (step .clickReset (run World.init es)).app.jobIdle = true ∧
    (step .clickReset (run World.init es)).app.serverStatus
      = (run World.init es).app.serverStatus ∧
    (step .clickReset (run World.init es)).app.darkMode = (run World.init es).app.darkMode ∧
    (step .clickReset (run World.init es)).pollInterval = none ∧
    step .pollTick (step .clickReset (run World.init es))
      = step .clickReset (run World.init es) ∧
    (step .healthTick (step .clickReset (run World.init es))).app.jobIdle = true ∧
    (step (.reply .test r now) (step .clickReset (run World.init es))).app.jobIdle = true := by
  have hinv := run_pollerInStep es World.init rfl
  generalize run World.init es = w at hload hinv
  have hstep : step .clickReset w = commit w handleReset := by
    simp [step, hload]
  have happ : (step .clickReset w).app = applySets w.app handleReset.sets := by
    rw [hstep, commit_app]
  have hidle : (step .clickReset w).app.jobIdle = true := by
    rw [happ]; simp [handleReset, applySets, SetCall.apply, AppState.jobIdle]
  have hpoll : (step .clickReset w).pollInterval = none := by
    have h1 := step_pollerInStep .clickReset w hinv
    unfold World.pollerInStep at h1
    rw [h1, happ]
    simp [handleReset, applySets, SetCall.apply, JsVal.truthy]
  refine ⟨hidle, ?_, ?_, hpoll, ?_, ?_, ?_⟩
  · rw [happ]; simp [handleReset, applySets, SetCall.apply]
  · rw [happ]; simp [handleReset, applySets, SetCall.apply]
  · generalize step .clickReset w = w1 at hpoll
    simp [step, hpoll]
  · generalize step .clickReset w = w1 at hidle
    simp only [step]
    split
    · rw [commit_app]; simpa [checkServerStatus, applySets] using hidle
    · exact hidle
  · generalize step .clickReset w = w1 at hidle
    rw [step_reply]
    split
    · rw [commit_app]
      simp only [resume]
      cases r <;>
        simpa [checkServerStatus_resume, applySets, SetCall.apply, AppState.jobIdle]
          using hidle
    · exact hidle

/-- Witness of amended C29: the reset after job `job-1` completed. -/
theorem C29_reset_to_idle_witness :
    (run World.init completedTrace).app.isLoading = false ∧
    ((step .clickReset (run World.init completedTrace)).app.jobIdle = true ∧
     (step .clickReset (run World.init completedTrace)).app.serverStatus
       = (run World.init completedTrace).app.serverStatus ∧
     (step .clickReset (run World.init completedTrace)).app.darkMode
       = (run World.init completedTrace).app.darkMode ∧
     (step .clickReset (run World.init completedTrace)).pollInterval = none ∧
     step .pollTick (step .clickReset (run World.init completedTrace))
       = step .clickReset (run World.init completedTrace) ∧
     (step .healthTick (step .clickReset (run World.init completedTrace))).app.jobIdle
       = true ∧
     (step (.reply .test (.http 200 none) "10:00:04")
       (step .clickReset (run World.init completedTrace))).app.jobIdle = true) :=
  ⟨by decide, C29_reset_to_idle completedTrace (.http 200 none) "10:00:04" (by decide)⟩

end ExecSummary
